import Mathlib

/-!
# Chunked readers of `driver/utility.c`

A shallow embedding of the chunked value readers (`copy_lresult`,
`copy_binary_result`, `copy_wchar_result`), of the transcoder
`copy_and_convert` and of `copy_str_data`.

Machine model (LP64): `long` and `SQLLEN` are 64-bit signed, `ulong` is
64-bit unsigned, `SQLINTEGER` is 32-bit signed, `SQLSMALLINT` is 16-bit
signed, `uint32` is 32-bit unsigned.  Machine integers are `Int`/`Nat`
with explicit reduction wherever a C conversion or a wrap-around can
happen.

Destination buffers are modelled by a store log: the list of
`(index, value)` pairs stored through the destination pointer, in program
order; `index` counts elements from the pointer the caller passed.
-/

namespace MyODBC

/-! ## Machine integers -/

/-- Conversion to `ulong` (64-bit unsigned). -/
def toULong (x : Int) : Nat := (x % 18446744073709551616).toNat

/-- Conversion to `long` (64-bit two's complement). -/
def toLong (x : Int) : Int :=
  if x % 18446744073709551616 < 9223372036854775808 then x % 18446744073709551616
  else x % 18446744073709551616 - 18446744073709551616

/-- Conversion to `SQLINTEGER` (32-bit two's complement). -/
def toSQLINTEGER (x : Int) : Int :=
  if x % 4294967296 < 2147483648 then x % 4294967296 else x % 4294967296 - 4294967296

/-- Conversion to `SQLSMALLINT` (16-bit two's complement). -/
def toSQLSMALLINT (x : Int) : Int :=
  if x % 65536 < 32768 then x % 65536 else x % 65536 - 65536

/-- Conversion to `uint32`. -/
def toUInt32 (x : Int) : Nat := (x % 4294967296).toNat

/-- The cursor value `(ulong) ~0L`: the value has not been read yet. -/
def NOT_STARTED : Nat := 18446744073709551615

/-- The ODBC length code `SQL_NTS` ("null-terminated string") of sql.h. -/
def SQL_NTS : Int := -3

/-- Driver error codes raised by the functions modelled here. -/
inductive MYERR where
  | MYERR_01004
  | MYERR_S1090
  deriving DecidableEq

/-- Return codes.  `handle_error e` stands for the value returned by
`set_handle_error(HandleType, Handle, e, NULL, 0)`, which is declared outside
this file. -/
inductive SQLRETURN where
  | SQL_SUCCESS
  | SQL_SUCCESS_WITH_INFO
  | SQL_NO_DATA_FOUND
  | handle_error (e : MYERR)
  deriving DecidableEq

open SQLRETURN MYERR

/-! ## Memory helpers -/

/-- C `strlen`: number of bytes before the first NUL (the end of the list
counts as the terminator). -/
def strlen : List Nat → Nat
  | [] => 0
  | b :: bs => if b = 0 then 0 else strlen bs + 1

/-- Byte `k` of the source buffer (`NULL` or past the end reads as 0). -/
def srcByte (src : Option (List Nat)) (k : Nat) : Nat :=
  match src with
  | some s => s.getD k 0
  | none => 0

/-- Stores of `memcpy(dst + at, src + off, n)`. -/
def memcpy (dstAt : Nat) (src : Option (List Nat)) (off n : Nat) : List (Nat × Nat) :=
  (List.range n).map (fun i => (dstAt + i, srcByte src (off + i)))

/-- Stores of `bfill(dst + at, n, c)`. -/
def bfill (dstAt n c : Nat) : List (Nat × Nat) :=
  (List.range n).map (fun i => (dstAt + i, c))

/-- Result of one call of a chunked reader. -/
structure ChunkResult where
  /-- the function's return value -/
  ret : SQLRETURN
  /-- the value stored through the length output pointer (`none`: no store) -/
  pcbValue : Option Int
  /-- the stores through the destination pointer, in program order -/
  writes : List (Nat × Nat)
  /-- the cursor `*offset` on return -/
  offset : Nat
  /-- the diagnostic raised with `set_handle_error`, if any -/
  diag : Option MYERR
  deriving DecidableEq

/-- The bytes of an ASCII string. -/
def bytesOf (s : String) : List Nat := s.toList.map Char.toNat

/-! ## copy_lresult -/

/-- Embedding of `copy_lresult` (utility.c 227-292).

* `FLAG_PAD_SPACE` is the flag bit of that name (declared in the driver
  header); `Handle` is `none` for a NULL handle and otherwise the `flag` word
  of the connection the handle leads to (both `HandleType` branches read the
  same word).
* `rgbValue` / `pcbValue` say whether these pointers are non-NULL.
* `src` is `none` for a NULL source pointer. -/
def copy_lresult (FLAG_PAD_SPACE : Nat) (Handle : Option Nat)
    (rgbValue : Bool) (cbValueMax : Int) (pcbValue : Bool)
    (src : Option (List Nat)) (src_length max_length fill_length : Int)
    (offset : Nat) (binary_data : Bool) : ChunkResult :=
  -- if ( src && src_length == SQL_NTS ) src_length= strlen(src);
  let src_length : Int :=
    match src with
    | some s => if src_length = SQL_NTS then (strlen s : Int) else src_length
    | none => src_length
  let arg_length : Int := cbValueMax
  -- if ( cbValueMax && !binary_data ) cbValueMax--; else if ( !cbValueMax ) dst= 0;
  let dst : Bool :=
    if cbValueMax ≠ 0 ∧ binary_data = false then rgbValue
    else if cbValueMax = 0 then false else rgbValue
  let cbValueMax : Int :=
    if cbValueMax ≠ 0 ∧ binary_data = false then toSQLINTEGER (cbValueMax - 1) else cbValueMax
  -- if ( max_length ) { set_if_smaller(...) x 3 }
  let cbValueMax : Int :=
    if max_length ≠ 0 ∧ cbValueMax > max_length then toSQLINTEGER max_length else cbValueMax
  let src_length : Int :=
    if max_length ≠ 0 ∧ src_length > max_length then max_length else src_length
  let fill_length : Int :=
    if max_length ≠ 0 ∧ fill_length > max_length then max_length else fill_length
  -- if ( fill_length < src_length || !Handle || !(flag & FLAG_PAD_SPACE) )
  let no_pad : Bool :=
    match Handle with
    | none => true
    | some flag => decide (flag &&& FLAG_PAD_SPACE = 0)
  let fill_length : Int :=
    if fill_length < src_length ∨ no_pad = true then src_length else fill_length
  -- if ( *offset == (ulong) ~0L ) *offset= 0;
  -- else if ( arg_length && *offset >= (ulong) fill_length ) return SQL_NO_DATA_FOUND;
  if offset ≠ NOT_STARTED ∧ arg_length ≠ 0 ∧ offset ≥ toULong fill_length then
    { ret := SQL_NO_DATA_FOUND, pcbValue := none, writes := [], offset := offset,
      diag := none }
  else
    let offset : Nat := if offset = NOT_STARTED then 0 else offset
    -- src+= *offset; src_length-= (long) *offset; fill_length-= *offset;
    let src_off : Nat := offset
    let src_length : Int := toLong (src_length - toLong offset)
    let fill_length : Int := toLong ((toULong fill_length : Int) - (offset : Int))
    -- length= min(fill_length, cbValueMax);
    let length : Nat := toULong (if fill_length < cbValueMax then fill_length else cbValueMax)
    -- (*offset)+= length;
    let offset : Nat := (offset + length) % 18446744073709551616
    -- if ( pcbValue ) *pcbValue= fill_length;
    let stored : Option Int := if pcbValue then some fill_length else none
    let writes : List (Nat × Nat) :=
      if dst then
        let copy_length : Nat :=
          if src_length ≥ toLong length then length
          else if src_length ≥ 0 then toULong src_length else 0
        -- memcpy(dst,src,copy_length); bfill(dst+copy_length,length-copy_length,' ');
        -- if ( !binary_data || length != (ulong) cbValueMax ) dst[length]= 0;
        -- (copy_length never exceeds length, so length-copy_length does not wrap)
        memcpy 0 src src_off copy_length
          ++ bfill copy_length (length - copy_length) 32
          ++ (if binary_data = false ∨ length ≠ toULong cbValueMax then [(length, 0)] else [])
      else []
    -- if ( arg_length && cbValueMax >= fill_length ) return SQL_SUCCESS;
    if arg_length ≠ 0 ∧ cbValueMax ≥ fill_length then
      { ret := SQL_SUCCESS, pcbValue := stored, writes := writes, offset := offset,
        diag := none }
    else
      { ret := SQL_SUCCESS_WITH_INFO, pcbValue := stored, writes := writes, offset := offset,
        diag := some MYERR_01004 }

/-! ## copy_binary_result -/

/-- The digit table `_dig_vec` declared in `copy_binary_result`. -/
def _dig_vec : List Nat := bytesOf "0123456789ABCDEFGHIJKLMNOPQRSTUVWXYZ"

/-- Stores of the hex loop of `copy_binary_result`: two digits for each of the
`length` source bytes starting at `src + off`. -/
def hexStores (src : Option (List Nat)) (off length : Nat) : List (Nat × Nat) :=
  (List.range length).flatMap (fun i =>
    let b := srcByte src (off + i) % 256
    [(2 * i, _dig_vec.getD (b >>> 4) 0), (2 * i + 1, _dig_vec.getD (b &&& 15) 0)])

/-- Embedding of `copy_binary_result` (utility.c 492-544). `src_length`,
`max_length` and `offset` are `ulong` values. -/
def copy_binary_result (rgbValue : Bool) (cbValueMax : Int) (pcbValue : Bool)
    (src : Option (List Nat)) (src_length max_length : Nat) (offset : Nat) : ChunkResult :=
  -- if ( !cbValueMax ) dst= 0;
  let dst : Bool := if cbValueMax = 0 then false else rgbValue
  -- if ( max_length ) { set_if_smaller(cbValueMax,(long) max_length+1);
  --                     set_if_smaller(src_length,(max_length+1)/2); }
  let cbValueMax : Int :=
    if max_length ≠ 0 ∧ cbValueMax > toLong (toLong max_length + 1)
    then toSQLINTEGER (toLong (toLong max_length + 1)) else cbValueMax
  let src_length : Nat :=
    if max_length ≠ 0 ∧ src_length > (max_length + 1) % 18446744073709551616 / 2
    then (max_length + 1) % 18446744073709551616 / 2 else src_length
  -- if ( *offset == (ulong) ~0L ) *offset= 0;
  -- else if ( *offset >= src_length ) return SQL_NO_DATA_FOUND;
  if offset ≠ NOT_STARTED ∧ offset ≥ src_length then
    { ret := SQL_NO_DATA_FOUND, pcbValue := none, writes := [], offset := offset,
      diag := none }
  else
    let offset : Nat := if offset = NOT_STARTED then 0 else offset
    -- src+= *offset; src_length-= *offset;
    let src_off : Nat := offset
    let src_length : Nat := toULong ((src_length : Int) - (offset : Int))
    -- length= cbValueMax ? (ulong)(cbValueMax-1)/2 : 0; length= min(src_length,length);
    let length : Nat := if cbValueMax ≠ 0 then toULong (toSQLINTEGER (cbValueMax - 1)) / 2 else 0
    let length : Nat := if src_length < length then src_length else length
    -- (*offset)+= length;
    let offset : Nat := (offset + length) % 18446744073709551616
    -- if ( pcbValue ) *pcbValue= src_length*2;
    let stored : Option Int := if pcbValue then some (toLong ((src_length * 2 : Nat) : Int)) else none
    let writes : List (Nat × Nat) :=
      if dst then hexStores src src_off length ++ [(2 * length, 0)] else []
    -- if ( (ulong) cbValueMax > length*2 ) return SQL_SUCCESS;
    if toULong cbValueMax > (length * 2) % 18446744073709551616 then
      { ret := SQL_SUCCESS, pcbValue := stored, writes := writes, offset := offset,
        diag := none }
    else
      { ret := SQL_SUCCESS_WITH_INFO, pcbValue := stored, writes := writes, offset := offset,
        diag := some MYERR_01004 }

/-! ## copy_str_data -/

/-- Stores of the library routine `strmake(dst, src, length)`: at most
`length` bytes of `src`, stopping at its NUL, followed by a closing NUL. -/
def strmake (src : List Nat) (length : Nat) : List (Nat × Nat) :=
  let n := if strlen src < length then strlen src else length
  memcpy 0 (some src) 0 n ++ [(n, 0)]

/-- Result of `copy_str_data`. -/
structure StrDataResult where
  /-- the function's return value -/
  ret : SQLRETURN
  /-- the value stored through the caller's `pcbValue` (`none`: no store) -/
  pcbValue : Option Int
  /-- the stores through `rgbValue`, in program order -/
  writes : List (Nat × Nat)
  deriving DecidableEq

/-- Embedding of `copy_str_data` (utility.c 190-217).  `rgbValue` and
`pcbValue` say whether these pointers are non-NULL; `src` is a C string.
`strmake` takes its length argument as an unsigned value. -/
def copy_str_data (rgbValue : Bool) (cbValueMax : Int) (pcbValue : Bool)
    (src : List Nat) : StrDataResult :=
  -- if ( cbValueMax == SQL_NTS ) cbValueMax= *pcbValue= strlen(src);
  if cbValueMax = SQL_NTS then
    let len : Int := toSQLSMALLINT (strlen src)
    let cbValueMax : Int := len
    { ret := if (if len < cbValueMax then len else cbValueMax) ≠ len
             then SQL_SUCCESS_WITH_INFO else SQL_SUCCESS,
      pcbValue := if pcbValue then some len else none,
      writes := if rgbValue then strmake src (toUInt32 cbValueMax) else [] }
  -- else if ( cbValueMax < 0 ) return set_handle_error(HandleType,Handle,MYERR_S1090,NULL,0);
  else if cbValueMax < 0 then
    { ret := handle_error MYERR_S1090, pcbValue := none, writes := [] }
  else
    -- cbValueMax= cbValueMax ? cbValueMax - 1 : 0; *pcbValue= strlen(src);
    let cbValueMax : Int := if cbValueMax ≠ 0 then cbValueMax - 1 else 0
    let len : Int := toSQLSMALLINT (strlen src)
    { ret := if (if len < cbValueMax then len else cbValueMax) ≠ len
             then SQL_SUCCESS_WITH_INFO else SQL_SUCCESS,
      pcbValue := if pcbValue then some len else none,
      writes := if rgbValue then strmake src (toUInt32 cbValueMax) else [] }

/-! ## copy_and_convert -/

/-- Return code `MY_CS_ILSEQ` of the client library (m_ctype.h): illegal
byte sequence. -/
def MY_CS_ILSEQ : Int := 0

/-- Return code `MY_CS_ILUNI` of the client library (m_ctype.h): the code
point has no encoding in the target character set. -/
def MY_CS_ILUNI : Int := 0

/-- Return code `MY_CS_TOOSMALL` of the client library (m_ctype.h): not
enough bytes left. -/
def MY_CS_TOOSMALL : Int := -101

/-- Outcome of an encoder call `wc_mb(cs, wc, s, e)`: either the bytes it
stored at `s` (the return value is their number), or the non-positive
return value `-neg` with nothing stored. -/
inductive WcMb where
  | stored (bs : List Nat)
  | failed (neg : Nat)

/-- The `int` returned by the encoder. -/
def WcMb.cnvres : WcMb → Int
  | WcMb.stored bs => (bs.length : Int)
  | WcMb.failed neg => -(neg : Int)

/-- The bytes the encoder stored. -/
def WcMb.bytes : WcMb → List Nat
  | WcMb.stored bs => bs
  | WcMb.failed _ => []

/-- The two conversion routines of a character set (`cs->cset->mb_wc` and
`cs->cset->wc_mb`).
* `mb_wc bs` is called with the bytes from `s` up to `e` and gives the
  returned `int` and the code point stored in `*wc`;
* `wc_mb wc room` is called with the code point and the room `e - s`. -/
structure CHARSET_INFO where
  mb_wc : List Nat → Int × Nat
  wc_mb : Nat → Int → WcMb

/-- State of the loop of `copy_and_convert`. -/
structure ConvState where
  /-- `from - from_start`: source bytes passed so far -/
  consumed : Nat
  /-- the bytes stored at `to_start ..`, in order (`to - to_start` is their number) -/
  out : List Nat
  /-- the local `error_count` -/
  error_count : Nat
  deriving DecidableEq

/-- The `while (1)` loop of `copy_and_convert`, at most `fuel` passes; `none`
when the fuel runs out before the loop breaks.  `src` holds the bytes from
the initial `from` up to `from_end`. -/
def copy_and_convert_loop (to_length : Nat) (to_cs : CHARSET_INFO) (src : List Nat)
    (from_cs : CHARSET_INFO) : Nat → ConvState → Option ConvState
  | 0, _ => none
  | fuel + 1, st =>
    let cnvres : Int := (from_cs.mb_wc (src.drop st.consumed)).1
    let wc0 : Nat := (from_cs.mb_wc (src.drop st.consumed)).2
    -- decoding step: new source position, code point, error count; none: break
    let dec : Option (Nat × Nat × Nat) :=
      if cnvres > 0 then some (st.consumed + cnvres.toNat, wc0, st.error_count)
      else if cnvres = MY_CS_ILSEQ then some (st.consumed + 1, 63, st.error_count + 1)
      else if cnvres > MY_CS_TOOSMALL then
        some (st.consumed + (-cnvres).toNat, 63, st.error_count + 1)
      else none
    match dec with
    | none => some st
    | some (consumed, wc, error_count) =>
      -- outp:
      let r1 := to_cs.wc_mb wc ((to_length : Int) - (st.out.length : Int))
      if r1.cnvres > 0 then
        copy_and_convert_loop to_length to_cs src from_cs fuel
          { consumed := consumed, out := st.out ++ r1.bytes, error_count := error_count }
      else if r1.cnvres = MY_CS_ILUNI ∧ wc ≠ 63 then
        -- error_count++; wc= '?'; goto outp;
        let r2 := to_cs.wc_mb 63 ((to_length : Int) - (st.out.length : Int))
        if r2.cnvres > 0 then
          copy_and_convert_loop to_length to_cs src from_cs fuel
            { consumed := consumed, out := st.out ++ r2.bytes, error_count := error_count + 1 }
        else
          some { consumed := consumed, out := st.out, error_count := error_count + 1 }
      else
        some { consumed := consumed, out := st.out, error_count := error_count }

/-- Result of `copy_and_convert`. -/
structure ConvResult where
  /-- the returned `uint32`: `to - to_start` -/
  ret : Nat
  /-- the bytes stored at `to`, in order -/
  out : List Nat
  /-- the value stored in `*errors` -/
  errors : Nat
  /-- the final `from - from_start` (a local of the C function, not returned) -/
  consumed : Nat
  deriving DecidableEq

/-- Embedding of `copy_and_convert` (utility.c 311-364).  `src` is the
buffer at `from`; `from_length` bytes of it are converted. -/
def copy_and_convert (fuel : Nat) (to_length : Nat) (to_cs : CHARSET_INFO)
    (src : List Nat) (from_length : Nat) (from_cs : CHARSET_INFO) : Option ConvResult :=
  match copy_and_convert_loop to_length to_cs (src.take from_length) from_cs fuel
      { consumed := 0, out := [], error_count := 0 } with
  | none => none
  | some st =>
    some { ret := toUInt32 st.out.length, out := st.out,
           errors := toUInt32 st.error_count, consumed := st.consumed }

/-! ## copy_wchar_result -/

/-- What `copy_wchar_result` uses from outside this file. -/
structure WideEnv where
  /-- the flag bit `FLAG_PAD_SPACE` of the driver header -/
  FLAG_PAD_SPACE : Nat
  /-- `utf8_charset_info` -/
  utf8_charset_info : CHARSET_INFO
  /-- `sizeof(SQLWCHAR) == 4` -/
  wchar_is_32 : Bool
  /-- `utf8toutf32(p, &u)`: called with the bytes at `p`, gives the returned
  length and the code point stored in `u` -/
  utf8toutf32 : List Nat → Nat × Nat
  /-- `utf32toutf16(u, p)`: the units stored at `p` (the return value is
  their number) -/
  utf32toutf16 : Nat → List Nat

/-- The loop `for (i= 0; i < bytes; ) ...` of `copy_wchar_result`: the units
stored through `dst`, in order; `none` when the fuel runs out. -/
def wchar_units (env : WideEnv) (temp : List Nat) (bytes : Nat) : Nat → Nat → Option (List Nat)
  | 0, _ => none
  | fuel + 1, i =>
    if i < bytes then
      let r := env.utf8toutf32 (temp.drop i)
      let stored : List Nat := if env.wchar_is_32 then [r.2] else env.utf32toutf16 r.2
      match wchar_units env temp bytes fuel ((i + r.1) % 18446744073709551616) with
      | none => none
      | some rest => some (stored ++ rest)
    else some []

/-- Embedding of `copy_wchar_result` (utility.c 384-484).  `flag` and
`charset` are the `flag` word and the `mysql.charset` of the connection the
handle leads to; `result` / `used_len` say whether these pointers are
non-NULL.  `pad_space` is a `my_bool` (a `char`): the assignment keeps the
low 8 bits of `flag & FLAG_PAD_SPACE`.  `none`: one of the loops does not
end within `fuel` passes. -/
def copy_wchar_result (env : WideEnv) (fuel : Nat) (flag : Nat) (charset : CHARSET_INFO)
    (result : Bool) (result_len : Int) (used_len : Bool)
    (src : Option (List Nat)) (src_len max_len fill_len : Int)
    (offset : Nat) : Option ChunkResult :=
  let orig_result_len : Int := result_len
  -- if (src_len == SQL_NTS) src_len= src ? strlen(src) : 0;
  let src_len : Int :=
    if src_len = SQL_NTS then
      (match src with
       | some s => (strlen s : Int)
       | none => 0)
    else src_len
  -- if (result_len) result_len--; else dst= 0;
  let dst : Bool := if result_len ≠ 0 then result else false
  let result_len : Int := if result_len ≠ 0 then toSQLINTEGER (result_len - 1) else result_len
  -- if (max_len && max_len < result_len) result_len= max_len;
  let result_len : Int :=
    if max_len ≠ 0 ∧ max_len < result_len then toSQLINTEGER max_len else result_len
  let pad_space : Bool := decide ((flag &&& env.FLAG_PAD_SPACE) % 256 ≠ 0)
  -- if (fill_len < src_len || !pad_space) fill_len= src_len;
  let fill_len : Int := if fill_len < src_len ∨ pad_space = false then src_len else fill_len
  -- if (*offset == (ulong) ~0L) *offset= 0;
  -- else if (orig_result_len && *offset >= (ulong) fill_len) return SQL_NO_DATA_FOUND;
  if offset ≠ NOT_STARTED ∧ orig_result_len ≠ 0 ∧ offset ≥ toULong fill_len then
    some { ret := SQL_NO_DATA_FOUND, pcbValue := none, writes := [], offset := offset,
           diag := none }
  else
    let offset : Nat := if offset = NOT_STARTED then 0 else offset
    -- src+= *offset; src_len-= (long) *offset; fill_len-= *offset;
    let src_off : Nat := offset
    let src_len : Int := toLong (src_len - toLong offset)
    let fill_len : Int := toLong ((toULong fill_len : Int) - (offset : Int))
    -- length= min(fill_len, result_len);
    let length : Nat := toULong (if fill_len < result_len then fill_len else result_len)
    let stored : Option Int := if used_len then some fill_len else none
    let finish (writes : List (Nat × Nat)) (offset : Nat) : ChunkResult :=
      if orig_result_len ≠ 0 ∧ result_len ≥ fill_len then
        { ret := SQL_SUCCESS, pcbValue := stored, writes := writes, offset := offset,
          diag := none }
      else
        { ret := SQL_SUCCESS_WITH_INFO, pcbValue := stored, writes := writes, offset := offset,
          diag := some MYERR_01004 }
    if dst then
      let copy_len : Nat :=
        if src_len ≥ toLong length then length
        else if src_len > 0 then toULong src_len else 0
      -- bytes= copy_and_convert((char *)temp, copy_len * 4, utf8_charset_info,
      --                         src, copy_len, charset, &errors);
      match copy_and_convert fuel (toUInt32 (copy_len * 4 : Nat)) env.utf8_charset_info
          ((src.getD []).drop src_off) (toUInt32 copy_len) charset with
      | none => none
      | some conv =>
        let bytes : Nat := conv.ret
        -- (*offset)+= bytes;
        let offset : Nat := (offset + bytes) % 18446744073709551616
        match wchar_units env conv.out bytes fuel 0 with
        | none => none
        | some units =>
          -- while (dst < result + length) *dst++= ' ';
          let padded : List Nat := units ++ List.replicate (length - units.length) 32
          -- if (length != (ulong) result_len) dst= 0;   (no store)
          some (finish (List.enumFrom 0 padded) offset)
    else
      some (finish [] offset)

/-! ## Quantities named by the specification -/

/-- The position a cursor value stands for: 0 for the not-started value. -/
def position (offset : Nat) : Nat := if offset = NOT_STARTED then 0 else offset

/-- The number of bytes a call delivered: the advance of the cursor from the
position on entry `entry` to the offset in the result. -/
def delivered (entry : Nat) (r : ChunkResult) : Int :=
  (r.offset : Int) - (position entry : Int)

/-- The source length with `SQL_NTS` resolved by `strlen` (as `copy_lresult`
does it: only for a non-NULL source). -/
def resolved_src_length (src : Option (List Nat)) (src_length : Int) : Int :=
  match src with
  | some s => if src_length = SQL_NTS then (strlen s : Int) else src_length
  | none => src_length

/-- The source length `copy_lresult` works with: `SQL_NTS` resolved, then
clamped by a nonzero `max_length`. -/
def lresult_src_length (src : Option (List Nat)) (src_length max_length : Int) : Int :=
  if max_length ≠ 0 ∧ resolved_src_length src src_length > max_length then max_length
  else resolved_src_length src src_length

/-- Whether `copy_lresult` pads: the handle is non-NULL and its connection
has `FLAG_PAD_SPACE` set. -/
def lresult_pads (FLAG_PAD_SPACE : Nat) (Handle : Option Nat) : Bool :=
  match Handle with
  | none => false
  | some flag => decide (flag &&& FLAG_PAD_SPACE ≠ 0)

/-- The effective fill length of a value: the fill length clamped by a
nonzero `max_length`, replaced by the (clamped) source length when padding
is off or the fill length is shorter than the source. -/
def effective_fill_length (FLAG_PAD_SPACE : Nat) (Handle : Option Nat)
    (src : Option (List Nat)) (src_length max_length fill_length : Int) : Int :=
  let f : Int := if max_length ≠ 0 ∧ fill_length > max_length then max_length else fill_length
  if f < lresult_src_length src src_length max_length ∨ lresult_pads FLAG_PAD_SPACE Handle = false
  then lresult_src_length src src_length max_length else f

/-- The effective capacity of a `copy_lresult` call: the caller capacity,
less one byte for the terminator in text mode, clamped by a nonzero
`max_length`. -/
def lresult_capacity (cbValueMax max_length : Int) (binary_data : Bool) : Int :=
  let c : Int :=
    if cbValueMax ≠ 0 ∧ binary_data = false then toSQLINTEGER (cbValueMax - 1) else cbValueMax
  if max_length ≠ 0 ∧ c > max_length then toSQLINTEGER max_length else c

/-- Byte `k` of the source value extended with spaces: the source bytes
below the source length `S`, spaces from there on. -/
def padded_src (src : Option (List Nat)) (S : Int) (k : Nat) : Nat :=
  if (k : Int) < S then srcByte src k else 32

/-- The part of `copy_lresult` from the cursor test on, as a function of the
values its first part computes: the pointer `dst`, the effective capacity
`cap`, the source length `S` and the fill length `E`. -/
def lresult_body (dst : Bool) (arg_length cap : Int) (pcbValue : Bool)
    (src : Option (List Nat)) (S E : Int) (offset : Nat) (binary_data : Bool) : ChunkResult :=
  if offset ≠ NOT_STARTED ∧ arg_length ≠ 0 ∧ offset ≥ toULong E then
    { ret := SQL_NO_DATA_FOUND, pcbValue := none, writes := [], offset := offset,
      diag := none }
  else
    let offset : Nat := if offset = NOT_STARTED then 0 else offset
    let src_off : Nat := offset
    let src_length : Int := toLong (S - toLong offset)
    let fill_length : Int := toLong ((toULong E : Int) - (offset : Int))
    let length : Nat := toULong (if fill_length < cap then fill_length else cap)
    let offset : Nat := (offset + length) % 18446744073709551616
    let stored : Option Int := if pcbValue then some fill_length else none
    let writes : List (Nat × Nat) :=
      if dst then
        let copy_length : Nat :=
          if src_length ≥ toLong length then length
          else if src_length ≥ 0 then toULong src_length else 0
        memcpy 0 src src_off copy_length
          ++ bfill copy_length (length - copy_length) 32
          ++ (if binary_data = false ∨ length ≠ toULong cap then [(length, 0)] else [])
      else []
    if arg_length ≠ 0 ∧ cap ≥ fill_length then
      { ret := SQL_SUCCESS, pcbValue := stored, writes := writes, offset := offset,
        diag := none }
    else
      { ret := SQL_SUCCESS_WITH_INFO, pcbValue := stored, writes := writes, offset := offset,
        diag := some MYERR_01004 }


/-- The room a caller capacity `c` offers for data: `c` less one byte for the
terminator in text mode (nothing for `c = 0`), `c` itself in binary mode,
capped by a nonzero `max_length`. -/
def chunk_room (c max_length : Int) (binary_data : Bool) : Int :=
  let k : Int := if c ≠ 0 ∧ binary_data = false then c - 1 else c
  if max_length ≠ 0 ∧ k > max_length then max_length else k

/-- Well-formed length arguments of `copy_lresult`: the source length is
non-negative once `SQL_NTS` is resolved, the max length is non-negative, and
the lengths are below `2^63` (they are `long` values). -/
def LengthsOk (src : Option (List Nat)) (src_length max_length fill_length : Int) : Prop :=
  0 ≤ resolved_src_length src src_length ∧
  resolved_src_length src src_length < 9223372036854775808 ∧
  0 ≤ max_length ∧ max_length < 9223372036854775808 ∧
  fill_length < 9223372036854775808

instance (src : Option (List Nat)) (sl ml fl : Int) : Decidable (LengthsOk src sl ml fl) := by
  unfold LengthsOk; infer_instance

/-- A caller capacity that is non-negative (and a `SQLINTEGER`). -/
def CapacityOk (c : Int) : Prop := 0 ≤ c ∧ c < 2147483648

instance (c : Int) : Decidable (CapacityOk c) := by
  unfold CapacityOk; infer_instance

/-- A cursor value allowed by the data model: not started, or an offset
within the fill length `E`. -/
def CursorOk (E : Int) (offset : Nat) : Prop := offset = NOT_STARTED ∨ (offset : Int) ≤ E

instance (E : Int) (offset : Nat) : Decidable (CursorOk E offset) := by
  unfold CursorOk; infer_instance

/-- The pointer and capacity arguments of one call of a chunked reader. -/
structure Call where
  rgbValue : Bool
  cbValueMax : Int
  pcbValue : Bool
  deriving DecidableEq

/-- Successive `copy_lresult` calls on one cursor for one value: each call is
listed with the cursor value it found on entry. -/
def lresult_run (F : Nat) (H : Option Nat) (src : Option (List Nat)) (sl ml fl : Int)
    (bin : Bool) : Nat → List Call → List (Nat × ChunkResult)
  | _, [] => []
  | off, c :: cs =>
    let r := copy_lresult F H c.rgbValue c.cbValueMax c.pcbValue src sl ml fl off bin
    (off, r) :: lresult_run F H src sl ml fl bin r.offset cs

/-- The source length `copy_binary_result` works with: clamped to
`(max_length+1)/2` when `max_length` is nonzero. -/
def binary_src_length (src_length max_length : Nat) : Nat :=
  if max_length ≠ 0 ∧ src_length > (max_length + 1) % 18446744073709551616 / 2
  then (max_length + 1) % 18446744073709551616 / 2 else src_length

/-- The capacity `copy_binary_result` works with: clamped to `max_length+1`
when `max_length` is nonzero. -/
def binary_capacity (cbValueMax : Int) (max_length : Nat) : Int :=
  if max_length ≠ 0 ∧ cbValueMax > toLong (toLong max_length + 1)
  then toSQLINTEGER (toLong (toLong max_length + 1)) else cbValueMax

/-- The part of `copy_binary_result` from the cursor test on, as a function
of the pointer `dst`, the clamped capacity `cb` and the clamped source
length `L`. -/
def binary_body (dst : Bool) (cb : Int) (pcbValue : Bool) (src : Option (List Nat))
    (L : Nat) (offset : Nat) : ChunkResult :=
  if offset ≠ NOT_STARTED ∧ offset ≥ L then
    { ret := SQL_NO_DATA_FOUND, pcbValue := none, writes := [], offset := offset,
      diag := none }
  else
    let offset : Nat := if offset = NOT_STARTED then 0 else offset
    let src_off : Nat := offset
    let src_length : Nat := toULong ((L : Int) - (offset : Int))
    let length : Nat := if cb ≠ 0 then toULong (toSQLINTEGER (cb - 1)) / 2 else 0
    let length : Nat := if src_length < length then src_length else length
    let offset : Nat := (offset + length) % 18446744073709551616
    let stored : Option Int := if pcbValue then some (toLong ((src_length * 2 : Nat) : Int)) else none
    let writes : List (Nat × Nat) :=
      if dst then hexStores src src_off length ++ [(2 * length, 0)] else []
    if toULong cb > (length * 2) % 18446744073709551616 then
      { ret := SQL_SUCCESS, pcbValue := stored, writes := writes, offset := offset,
        diag := none }
    else
      { ret := SQL_SUCCESS_WITH_INFO, pcbValue := stored, writes := writes, offset := offset,
        diag := some MYERR_01004 }

/-- Successive `copy_binary_result` calls on one cursor for one value: each
call is listed with the cursor value it found on entry. -/
def binary_run (src : Option (List Nat)) (src_length max_length : Nat) :
    Nat → List Call → List (Nat × ChunkResult)
  | _, [] => []
  | off, c :: cs =>
    let r := copy_binary_result c.rgbValue c.cbValueMax c.pcbValue src src_length max_length off
    (off, r) :: binary_run src src_length max_length r.offset cs

/-! ## Character sets used to evaluate concrete calls -/

/-- Example character set: ISO 8859-1 in the shape of the client library's
single-byte handlers (`mb_wc`: one byte gives the code point of the same
value; `wc_mb`: code points below 256 give one byte). -/
def latin1_charset : CHARSET_INFO where
  mb_wc := fun bs =>
    match bs with
    | [] => (MY_CS_TOOSMALL, 0)
    | b :: _ => (1, b)
  wc_mb := fun wc room =>
    if room ≤ 0 then WcMb.failed 101
    else if wc < 256 then WcMb.stored [wc]
    else WcMb.failed 0

/-- Example character set: UTF-8 for code points below 0x10000, in the shape
of the client library's handlers `my_utf8_uni` and `my_uni_utf8`. -/
def utf8_charset : CHARSET_INFO where
  mb_wc := fun bs =>
    match bs with
    | [] => (MY_CS_TOOSMALL, 0)
    | c :: rest =>
      if c < 128 then (1, c)
      else if c < 194 then (MY_CS_ILSEQ, 0)
      else if c < 224 then
        match rest with
        | s1 :: _ =>
          if (s1 ^^^ 128) < 64 then (2, ((c &&& 31) <<< 6) ||| (s1 ^^^ 128))
          else (MY_CS_ILSEQ, 0)
        | [] => (-102, 0)
      else if c < 240 then
        match rest with
        | s1 :: s2 :: _ =>
          if (s1 ^^^ 128) < 64 ∧ (s2 ^^^ 128) < 64 ∧ (c ≥ 225 ∨ s1 ≥ 160) then
            (3, ((c &&& 15) <<< 12) ||| ((s1 ^^^ 128) <<< 6) ||| (s2 ^^^ 128))
          else (MY_CS_ILSEQ, 0)
        | _ => (-103, 0)
      else (MY_CS_ILSEQ, 0)
  wc_mb := fun wc room =>
    if room ≤ 0 then WcMb.failed 101
    else if wc < 128 then WcMb.stored [wc]
    else if wc < 2048 then
      if room < 2 then WcMb.failed 102
      else WcMb.stored [192 ||| (wc >>> 6), 128 ||| (wc &&& 63)]
    else if wc < 65536 then
      if room < 3 then WcMb.failed 103
      else WcMb.stored [224 ||| (wc >>> 12), 128 ||| ((wc >>> 6) &&& 63), 128 ||| (wc &&& 63)]
    else WcMb.failed 0

/-- Modelled from the spec: `utf8toutf32` is declared outside utility.c; the
spec has the staged UTF-8 bytes decoded into 32-bit code points one
character at a time.  Gives the length of the sequence at the head of `bs`
and its code point. -/
def utf8toutf32_model (bs : List Nat) : Nat × Nat :=
  match bs with
  | [] => (1, 0)
  | b :: rest =>
    if b < 128 then (1, b)
    else if b < 224 then (2, ((b &&& 31) <<< 6) ||| (rest.getD 0 0 &&& 63))
    else if b < 240 then
      (3, ((b &&& 15) <<< 12) ||| ((rest.getD 0 0 &&& 63) <<< 6) ||| (rest.getD 1 0 &&& 63))
    else
      (4, ((b &&& 7) <<< 18) ||| ((rest.getD 0 0 &&& 63) <<< 12)
            ||| ((rest.getD 1 0 &&& 63) <<< 6) ||| (rest.getD 2 0 &&& 63))

/-- Modelled from the spec: `utf32toutf16` is declared outside utility.c; the
spec has each code point re-encoded into 16-bit units, "surrogate-pair
aware".  Gives the units of one code point. -/
def utf32toutf16_model (u : Nat) : List Nat :=
  if u < 65536 then [u]
  else [55296 ||| ((u - 65536) >>> 10), 56320 ||| ((u - 65536) &&& 1023)]

/-- An environment for concrete calls of `copy_wchar_result`: 16-bit
`SQLWCHAR`, `FLAG_PAD_SPACE = 512`. -/
def wide_env16 : WideEnv where
  FLAG_PAD_SPACE := 512
  utf8_charset_info := utf8_charset
  wchar_is_32 := false
  utf8toutf32 := utf8toutf32_model
  utf32toutf16 := utf32toutf16_model

/-! ## Type mapper: unireg_to_sql_datatype, unireg_to_c_datatype -/

/-- The native type tags `enum enum_field_types` of the client library that
the switch statements name; `unlisted` stands for any other tag value. -/
inductive enum_field_types where
  | MYSQL_TYPE_DECIMAL
  | MYSQL_TYPE_TINY
  | MYSQL_TYPE_SHORT
  | MYSQL_TYPE_LONG
  | MYSQL_TYPE_FLOAT
  | MYSQL_TYPE_DOUBLE
  | MYSQL_TYPE_NULL
  | MYSQL_TYPE_TIMESTAMP
  | MYSQL_TYPE_LONGLONG
  | MYSQL_TYPE_INT24
  | MYSQL_TYPE_DATE
  | MYSQL_TYPE_TIME
  | MYSQL_TYPE_DATETIME
  | MYSQL_TYPE_YEAR
  | MYSQL_TYPE_NEWDATE
  | MYSQL_TYPE_VARCHAR
  | MYSQL_TYPE_BIT
  | MYSQL_TYPE_NEWDECIMAL
  | MYSQL_TYPE_ENUM
  | MYSQL_TYPE_SET
  | MYSQL_TYPE_TINY_BLOB
  | MYSQL_TYPE_MEDIUM_BLOB
  | MYSQL_TYPE_LONG_BLOB
  | MYSQL_TYPE_BLOB
  | MYSQL_TYPE_VAR_STRING
  | MYSQL_TYPE_STRING
  | MYSQL_TYPE_GEOMETRY
  | unlisted
  deriving DecidableEq

open enum_field_types

/-- The members of `MYSQL_FIELD` that the type mapper reads: `length` and
`max_length` are `unsigned long`, `flags` and `decimals` are `unsigned int`. -/
structure MYSQL_FIELD where
  type : enum_field_types
  length : Nat
  max_length : Nat
  flags : Nat
  decimals : Nat
  deriving DecidableEq

/-- What the type mapper reads through `stmt`: `stmt->dbc->flag`, the
`mbmaxlen` of `stmt->dbc->mysql.charset` (`none` for a NULL charset) and
`stmt->dbc->env->odbc_ver`. -/
structure STMT where
  flag : Nat
  charset_mbmaxlen : Option Nat
  odbc_ver : Int
  deriving DecidableEq

/-- What the type mapper uses from the driver header: the flag bit
`FLAG_NO_BIGINT` and the truth values of the macros `binary_field(field)`
and `num_field(field)`. -/
structure TypeEnv where
  FLAG_NO_BIGINT : Nat
  binary_field : MYSQL_FIELD → Bool
  num_field : MYSQL_FIELD → Bool

/-- The flag bit `UNSIGNED_FLAG` of the client library (mysql_com.h). -/
def UNSIGNED_FLAG : Nat := 32

/-- The constant `INT_MAX32` of the client library (my_global.h). -/
def INT_MAX32 : Nat := 2147483647

/-- The ODBC version code `SQL_OV_ODBC3` (sqlext.h). -/
def SQL_OV_ODBC3 : Int := 3

/-! SQL type codes of the ODBC headers (sql.h, sqlext.h). -/

def SQL_CHAR : Int := 1
def SQL_NUMERIC : Int := 2
def SQL_DECIMAL : Int := 3
def SQL_INTEGER : Int := 4
def SQL_SMALLINT : Int := 5
def SQL_FLOAT : Int := 6
def SQL_REAL : Int := 7
def SQL_DOUBLE : Int := 8
def SQL_DATE : Int := 9
def SQL_TIME : Int := 10
def SQL_TIMESTAMP : Int := 11
def SQL_VARCHAR : Int := 12
def SQL_TYPE_DATE : Int := 91
def SQL_TYPE_TIME : Int := 92
def SQL_TYPE_TIMESTAMP : Int := 93
def SQL_LONGVARCHAR : Int := -1
def SQL_BINARY : Int := -2
def SQL_VARBINARY : Int := -3
def SQL_LONGVARBINARY : Int := -4
def SQL_BIGINT : Int := -5
def SQL_TINYINT : Int := -6
def SQL_BIT : Int := -7

/-! C type codes of the ODBC headers (sql.h, sqlext.h). -/

def SQL_C_CHAR : Int := 1
def SQL_C_LONG : Int := 4
def SQL_C_SHORT : Int := 5
def SQL_C_FLOAT : Int := 7
def SQL_C_DOUBLE : Int := 8
def SQL_C_DATE : Int := 9
def SQL_C_TIME : Int := 10
def SQL_C_TIMESTAMP : Int := 11
def SQL_C_BINARY : Int := -2
def SQL_C_TINYINT : Int := -6
def SQL_C_BIT : Int := -7
def SQL_C_SBIGINT : Int := -25
def SQL_C_DEFAULT : Int := 99

/-- Result of `unireg_to_sql_datatype`: the returned type code, the type name
left in `buff` (`none` for a NULL `buff`), and the values left in
`*transfer_length`, `*precision`, `*display_size` (`ulong`). -/
structure TypeInfo where
  ret : Int
  buff : Option String
  transfer_length : Nat
  precision : Nat
  display_size : Nat
  deriving DecidableEq

/-- The type name written with `strmov(buff, name)`, followed by
`strmov(pos, " unsigned")` when the column has `UNSIGNED_FLAG`. -/
def type_name (buff : Bool) (name : String) (field : MYSQL_FIELD) : Option String :=
  if buff then
    some (if field.flags &&& UNSIGNED_FLAG ≠ 0 then name ++ " unsigned" else name)
  else none

/-- The expression `field->length ? (charset ? field->length / charset->mbmaxlen
: field->length) : dflt` of the character and text cases.  (A character set
has `mbmaxlen >= 1`; for `mbmaxlen = 0` the C division is undefined and the
quotient here is 0.) -/
def char_length (stmt : STMT) (field : MYSQL_FIELD) (dflt : Nat) : Nat :=
  if field.length ≠ 0 then
    (match stmt.charset_mbmaxlen with
     | some mbmaxlen => field.length / mbmaxlen
     | none => field.length)
  else dflt

/-- Embedding of `unireg_to_sql_datatype` (utility.c 556-829).  `buff` says
whether the name buffer is non-NULL.  The three lengths first receive
`max(field->length, field->max_length)`; each case then overwrites some of
them. -/
def unireg_to_sql_datatype (env : TypeEnv) (stmt : STMT) (field : MYSQL_FIELD) (buff : Bool) :
    TypeInfo :=
  let field_is_binary : Bool := env.binary_field field
  -- *transfer_length= *precision= *display_size= max(field->length, field->max_length);
  let m : Nat := if field.length > field.max_length then field.length else field.max_length
  let name (n : String) : Option String := if buff then some n else none
  match field.type with
  | MYSQL_TYPE_BIT =>
    { ret := SQL_BIT, buff := name "bit", transfer_length := 1, precision := m,
      display_size := m }
  | MYSQL_TYPE_DECIMAL | MYSQL_TYPE_NEWDECIMAL =>
    -- *display_size= max(length, max_length) - test(!(flags & UNSIGNED_FLAG)) - test(decimals);
    let d : Nat := toULong ((m : Int)
      - (if field.flags &&& UNSIGNED_FLAG = 0 then 1 else 0)
      - (if field.decimals ≠ 0 then 1 else 0))
    { ret := SQL_DECIMAL, buff := name "decimal", transfer_length := m, precision := d,
      display_size := d }
  | MYSQL_TYPE_TINY =>
    if env.num_field field then
      { ret := SQL_TINYINT, buff := type_name buff "tinyint" field, transfer_length := 1,
        precision := m, display_size := m }
    else
      { ret := SQL_CHAR, buff := type_name buff "char" field, transfer_length := 1,
        precision := m, display_size := m }
  | MYSQL_TYPE_SHORT =>
    { ret := SQL_SMALLINT, buff := type_name buff "smallint" field, transfer_length := 2,
      precision := m, display_size := m }
  | MYSQL_TYPE_INT24 =>
    { ret := SQL_INTEGER, buff := type_name buff "mediumint" field, transfer_length := 4,
      precision := m, display_size := m }
  | MYSQL_TYPE_LONG =>
    { ret := SQL_INTEGER, buff := type_name buff "integer" field, transfer_length := 4,
      precision := m, display_size := m }
  | MYSQL_TYPE_LONGLONG =>
    -- *transfer_length= 20; if ( flag & FLAG_NO_BIGINT ) return SQL_INTEGER;
    if stmt.flag &&& env.FLAG_NO_BIGINT ≠ 0 then
      { ret := SQL_INTEGER, buff := type_name buff "bigint" field, transfer_length := 20,
        precision := m, display_size := m }
    else if field.flags &&& UNSIGNED_FLAG ≠ 0 then
      { ret := SQL_BIGINT, buff := type_name buff "bigint" field, transfer_length := 20,
        precision := 20, display_size := m }
    else
      { ret := SQL_BIGINT, buff := type_name buff "bigint" field, transfer_length := 19,
        precision := 19, display_size := m }
  | MYSQL_TYPE_FLOAT =>
    { ret := SQL_REAL, buff := type_name buff "float" field, transfer_length := 4,
      precision := m, display_size := m }
  | MYSQL_TYPE_DOUBLE =>
    { ret := SQL_DOUBLE, buff := type_name buff "double" field, transfer_length := 8,
      precision := m, display_size := m }
  | MYSQL_TYPE_NULL =>
    { ret := SQL_VARCHAR, buff := name "null", transfer_length := m, precision := m,
      display_size := m }
  | MYSQL_TYPE_YEAR =>
    { ret := SQL_SMALLINT, buff := name "year", transfer_length := 2, precision := m,
      display_size := m }
  | MYSQL_TYPE_TIMESTAMP =>
    { ret := if stmt.odbc_ver = SQL_OV_ODBC3 then SQL_TYPE_TIMESTAMP else SQL_TIMESTAMP,
      buff := name "timestamp", transfer_length := 16, precision := 19, display_size := 19 }
  | MYSQL_TYPE_DATETIME =>
    { ret := if stmt.odbc_ver = SQL_OV_ODBC3 then SQL_TYPE_TIMESTAMP else SQL_TIMESTAMP,
      buff := name "datetime", transfer_length := 16, precision := 19, display_size := 19 }
  | MYSQL_TYPE_NEWDATE | MYSQL_TYPE_DATE =>
    { ret := if stmt.odbc_ver = SQL_OV_ODBC3 then SQL_TYPE_DATE else SQL_DATE,
      buff := name "date", transfer_length := 6, precision := 10, display_size := 10 }
  | MYSQL_TYPE_TIME =>
    { ret := if stmt.odbc_ver = SQL_OV_ODBC3 then SQL_TYPE_TIME else SQL_TIME,
      buff := name "time", transfer_length := 6, precision := 8, display_size := 8 }
  | MYSQL_TYPE_STRING =>
    if field_is_binary then
      { ret := SQL_BINARY, buff := name "binary", transfer_length := m, precision := m,
        display_size := m }
    else
      { ret := SQL_CHAR, buff := name "char", transfer_length := char_length stmt field 255,
        precision := char_length stmt field 255, display_size := char_length stmt field 255 }
  | MYSQL_TYPE_VARCHAR | MYSQL_TYPE_VAR_STRING =>
    -- the `if (field_is_binary) ... return SQL_VARBINARY;` block is commented out
    { ret := SQL_VARCHAR, buff := name "varchar", transfer_length := char_length stmt field 255,
      precision := char_length stmt field 255, display_size := char_length stmt field 255 }
  | MYSQL_TYPE_TINY_BLOB =>
    { ret := if field_is_binary then SQL_LONGVARBINARY else SQL_LONGVARCHAR,
      buff := name (if field_is_binary then "tinyblob" else "tinytext"),
      transfer_length := char_length stmt field 255,
      precision := char_length stmt field 255, display_size := char_length stmt field 255 }
  | MYSQL_TYPE_BLOB =>
    { ret := if field_is_binary then SQL_LONGVARBINARY else SQL_LONGVARCHAR,
      buff := name (if field_is_binary then "blob" else "text"),
      transfer_length := char_length stmt field 65535,
      precision := char_length stmt field 65535, display_size := char_length stmt field 65535 }
  | MYSQL_TYPE_MEDIUM_BLOB =>
    -- (1L << 24)-1L
    { ret := if field_is_binary then SQL_LONGVARBINARY else SQL_LONGVARCHAR,
      buff := name (if field_is_binary then "mediumblob" else "mediumtext"),
      transfer_length := char_length stmt field 16777215,
      precision := char_length stmt field 16777215,
      display_size := char_length stmt field 16777215 }
  | MYSQL_TYPE_LONG_BLOB =>
    { ret := if field_is_binary then SQL_LONGVARBINARY else SQL_LONGVARCHAR,
      buff := name (if field_is_binary then "longblob" else "longtext"),
      transfer_length := char_length stmt field INT_MAX32,
      precision := char_length stmt field INT_MAX32,
      display_size := char_length stmt field INT_MAX32 }
  | MYSQL_TYPE_ENUM =>
    { ret := SQL_CHAR, buff := name "enum", transfer_length := m, precision := m,
      display_size := m }
  | MYSQL_TYPE_SET =>
    { ret := SQL_CHAR, buff := name "set", transfer_length := m, precision := m,
      display_size := m }
  | MYSQL_TYPE_GEOMETRY =>
    { ret := SQL_LONGVARBINARY, buff := name "blob", transfer_length := m, precision := m,
      display_size := m }
  | unlisted =>
    -- return 0; /* Impossible */
    { ret := 0, buff := none, transfer_length := m, precision := m, display_size := m }

/-- Embedding of `unireg_to_c_datatype` (utility.c 837-872). -/
def unireg_to_c_datatype (field : MYSQL_FIELD) : Int :=
  match field.type with
  | MYSQL_TYPE_BIT => SQL_C_BIT
  | MYSQL_TYPE_TINY => SQL_C_TINYINT
  | MYSQL_TYPE_YEAR | MYSQL_TYPE_SHORT => SQL_C_SHORT
  | MYSQL_TYPE_INT24 | MYSQL_TYPE_LONG => SQL_C_LONG
  | MYSQL_TYPE_FLOAT => SQL_C_FLOAT
  | MYSQL_TYPE_DOUBLE => SQL_C_DOUBLE
  | MYSQL_TYPE_TIMESTAMP | MYSQL_TYPE_DATETIME => SQL_C_TIMESTAMP
  | MYSQL_TYPE_NEWDATE | MYSQL_TYPE_DATE => SQL_C_DATE
  | MYSQL_TYPE_TIME => SQL_C_TIME
  | MYSQL_TYPE_BLOB | MYSQL_TYPE_TINY_BLOB | MYSQL_TYPE_MEDIUM_BLOB | MYSQL_TYPE_LONG_BLOB =>
    SQL_C_BINARY
  -- case MYSQL_TYPE_LONGLONG: /* Must be returned as char */  default:
  | _ => SQL_C_CHAR

/-- The length the character and text cases fall back to when the declared
length is zero. -/
def text_default_length : enum_field_types → Nat
  | MYSQL_TYPE_BLOB => 65535
  | MYSQL_TYPE_MEDIUM_BLOB => 16777215
  | MYSQL_TYPE_LONG_BLOB => 2147483647
  | _ => 255

/-- An example header environment for concrete calls of the type mapper:
`FLAG_NO_BIGINT = 16384`, `binary_field` tests flag bit 128 and `num_field`
tests flag bit 32768. -/
def type_env_sample : TypeEnv where
  FLAG_NO_BIGINT := 16384
  binary_field := fun f => decide (f.flags &&& 128 ≠ 0)
  num_field := fun f => decide (f.flags &&& 32768 ≠ 0)

/-- Whether the type mapper derives the lengths of this column with
`char_length`: the variable-length character types, the text/blob types, and
the fixed-length character type when the column is not binary. -/
def uses_char_length (env : TypeEnv) (field : MYSQL_FIELD) : Bool :=
  match field.type with
  | MYSQL_TYPE_VARCHAR | MYSQL_TYPE_VAR_STRING | MYSQL_TYPE_TINY_BLOB | MYSQL_TYPE_BLOB
  | MYSQL_TYPE_MEDIUM_BLOB | MYSQL_TYPE_LONG_BLOB => true
  | MYSQL_TYPE_STRING => !env.binary_field field
  | _ => false

/-- Whether the column is a fixed-point column. -/
def is_decimal (field : MYSQL_FIELD) : Bool :=
  match field.type with
  | MYSQL_TYPE_DECIMAL | MYSQL_TYPE_NEWDECIMAL => true
  | _ => false

/-- The positions a fixed-point column spends on the sign and the decimal
point. -/
def decimal_overhead (field : MYSQL_FIELD) : Nat :=
  (if field.flags &&& UNSIGNED_FLAG = 0 then 1 else 0) + (if field.decimals ≠ 0 then 1 else 0)

/-- Example character set: GBK restricted to ASCII and to the one two-byte
character D6 D0 (U+4E2D), in the shape of the client library's `my_mb_wc_gbk`
and `my_wc_mb_gbk`: a byte below 0x80 is one character; otherwise two bytes
are needed, and a pair outside the table has no code point (return value
-2). -/
def gbk_sample_charset : CHARSET_INFO where
  mb_wc := fun bs =>
    match bs with
    | [] => (MY_CS_TOOSMALL, 0)
    | hi :: rest =>
      if hi < 128 then (1, hi)
      else
        match rest with
        | [] => (-102, 0)
        | lo :: _ => if hi = 214 ∧ lo = 208 then (2, 20013) else (-2, 0)
  wc_mb := fun wc room =>
    if room ≤ 0 then WcMb.failed 101
    else if wc < 128 then WcMb.stored [wc]
    else if wc = 20013 then (if room < 2 then WcMb.failed 102 else WcMb.stored [214, 208])
    else WcMb.failed 0

/-- Embedding of `default_c_type` (utility.c 880-920): the default C type of
an exposed SQL type. -/
def default_c_type (sql_data_type : Int) : Int :=
  if sql_data_type = SQL_BIGINT then SQL_C_SBIGINT
  else if sql_data_type = SQL_BIT then SQL_C_BIT
  else if sql_data_type = SQL_TINYINT then SQL_C_TINYINT
  else if sql_data_type = SQL_SMALLINT then SQL_C_SHORT
  else if sql_data_type = SQL_INTEGER then SQL_C_LONG
  else if sql_data_type = SQL_REAL ∨ sql_data_type = SQL_FLOAT then SQL_C_FLOAT
  else if sql_data_type = SQL_DOUBLE then SQL_C_DOUBLE
  else if sql_data_type = SQL_BINARY ∨ sql_data_type = SQL_VARBINARY
      ∨ sql_data_type = SQL_LONGVARBINARY then SQL_C_BINARY
  else if sql_data_type = SQL_DATE ∨ sql_data_type = SQL_TYPE_DATE then SQL_C_DATE
  else if sql_data_type = SQL_TIME ∨ sql_data_type = SQL_TYPE_TIME then SQL_C_TIME
  else if sql_data_type = SQL_TIMESTAMP ∨ sql_data_type = SQL_TYPE_TIMESTAMP then
    SQL_C_TIMESTAMP
  -- case SQL_CHAR, SQL_VARCHAR, SQL_LONGVARCHAR, SQL_DECIMAL, SQL_NUMERIC, default:
  else SQL_C_CHAR

/-- The members of a column binding `BIND` that `fix_result_types` touches:
the requested C type `fCType` (a `SQLSMALLINT`) and the pointer `field`,
kept as the index of the column descriptor it points to (`none` is NULL). -/
structure BIND where
  fCType : Int
  field : Option Nat
  deriving DecidableEq

/-- A binding after `bzero`. -/
def BIND.zeroed : BIND := { fCType := 0, field := none }

/-- The part of a statement that `fix_result_types` reads and writes:
`fields` is `stmt->result->fields` (its length is `result->field_count`),
`executed` tells whether `stmt->state` is `ST_EXECUTED`, `odbc_types` and
`bind` are the two arrays (`none` is a NULL pointer) and `bound_columns` is
the counter of the same name. -/
structure ResultStmt where
  fields : List MYSQL_FIELD
  executed : Bool
  odbc_types : Option (List Int)
  bind : Option (List BIND)
  bound_columns : Nat
  deriving DecidableEq

/-- The second loop of `fix_result_types` from column `i` on: every binding
below `field_count` gets its default type resolved and its `field` pointer
set (`mysql_fetch_field` hands out the descriptors in order after
`mysql_field_seek(result, 0)`); the array elements past `field_count` are not
visited. -/
def fix_bind_loop (field_count : Nat) (odbc_types : List Int) : Nat → List BIND → List BIND
  | _, [] => []
  | i, b :: bs =>
    (if i < field_count then
        { fCType := if b.fCType = SQL_C_DEFAULT then odbc_types.getD i 0 else b.fCType,
          field := some i }
      else b) :: fix_bind_loop field_count odbc_types (i + 1) bs

/-- Whether the second loop reads `stmt->odbc_types[i]` for some column: a
binding below `field_count` holds `SQL_C_DEFAULT`. -/
def reads_odbc_types (field_count : Nat) : Nat → List BIND → Bool
  | _, [] => false
  | i, b :: bs =>
    (decide (i < field_count) && decide (b.fCType = SQL_C_DEFAULT))
      || reads_odbc_types field_count (i + 1) bs

/-- Embedding of `fix_result_types` (utility.c 89-137).  `malloc_ok` and
`realloc_ok` tell whether `my_malloc` and `my_realloc` return memory.  The
binding array is the list of its first `bound_columns` elements followed by
whatever the allocation holds beyond them; `my_realloc` keeps the elements
below `bound_columns` and `bzero` clears the ones from there to
`field_count`.  The result is `none` when the function reads through the NULL
`odbc_types` pointer. -/
def fix_result_types (malloc_ok realloc_ok : Bool) (stmt : ResultStmt) : Option ResultStmt :=
  let field_count := stmt.fields.length
  -- stmt->state= ST_EXECUTED;
  -- stmt->odbc_types[i]= (SQLSMALLINT) unireg_to_c_datatype(field);
  let odbc_types : Option (List Int) :=
    if malloc_ok then
      some (stmt.fields.map (fun field => toSQLSMALLINT (unireg_to_c_datatype field)))
    else none
  match stmt.bind with
  | none => some { stmt with executed := true, odbc_types := odbc_types }
  | some bind =>
    if stmt.bound_columns < field_count ∧ realloc_ok = false then
      -- stmt->bound_columns= 0; MYODBCDbgReturnVoid;
      some { stmt with executed := true, odbc_types := odbc_types, bind := none,
                       bound_columns := 0 }
    else
      let bind1 :=
        if stmt.bound_columns < field_count then
          bind.take stmt.bound_columns
            ++ List.replicate (field_count - stmt.bound_columns) BIND.zeroed
        else bind
      let bound_columns := if stmt.bound_columns < field_count then field_count
                           else stmt.bound_columns
      match odbc_types with
      | none =>
        if reads_odbc_types field_count 0 bind1 then none
        else some { stmt with executed := true, odbc_types := none,
                              bind := some (fix_bind_loop field_count [] 0 bind1),
                              bound_columns := bound_columns }
      | some types =>
        some { stmt with executed := true, odbc_types := some types,
                         bind := some (fix_bind_loop field_count types 0 bind1),
                         bound_columns := bound_columns }

/-- A statement whose binding array holds exactly `bound_columns` elements. -/
def BindCountOk (stmt : ResultStmt) : Prop :=
  ∀ bind, stmt.bind = some bind → bind.length = stmt.bound_columns

instance (stmt : ResultStmt) : Decidable (BindCountOk stmt) := by
  unfold BindCountOk
  cases h : stmt.bind with
  | none => exact isTrue (by intro b hb; cases hb)
  | some bs =>
    exact decidable_of_iff (bs.length = stmt.bound_columns)
      ⟨fun h b hb => by cases hb; exact h, fun h => h bs rfl⟩

/-- Three result columns: a TINY, a text BLOB and a LONGLONG. -/
def sample_fields : List MYSQL_FIELD :=
  [ { type := MYSQL_TYPE_TINY, length := 4, max_length := 0, flags := 32768, decimals := 0 },
    { type := MYSQL_TYPE_BLOB, length := 65535, max_length := 0, flags := 0, decimals := 0 },
    { type := MYSQL_TYPE_LONGLONG, length := 20, max_length := 0, flags := 32768,
      decimals := 0 } ]

/-- A statement over `sample_fields` with two bound columns: the first asks
for `SQL_C_LONG`, the second for the default type. -/
def sample_stmt : ResultStmt where
  fields := sample_fields
  executed := false
  odbc_types := none
  bind := some [ { fCType := SQL_C_LONG, field := none },
                 { fCType := SQL_C_DEFAULT, field := none } ]
  bound_columns := 2

/-- The cursor value after successive `copy_binary_result` calls. -/
def binary_cursor (src : Option (List Nat)) (src_length max_length : Nat) :
    Nat → List Call → Nat
  | off, [] => off
  | off, c :: cs =>
    binary_cursor src src_length max_length
      (copy_binary_result c.rgbValue c.cbValueMax c.pcbValue src src_length max_length
        off).offset cs

/-- The `n` source bytes from position `start` on, each read as an unsigned
char. -/
def source_bytes (src : Option (List Nat)) (start n : Nat) : List Nat :=
  (List.range n).map (fun i => srcByte src (start + i) % 256)

/-- The character code of the uppercase hexadecimal digit for a value below
16: '0'..'9' for 0..9 and 'A'..'F' for 10..15. -/
def hex_digit (x : Nat) : Nat := if x < 10 then 48 + x else 55 + x

/-- The two uppercase hexadecimal digits of a byte, high nibble first. -/
def hex_digits (b : Nat) : List Nat := [hex_digit (b / 16), hex_digit (b % 16)]

/-- The value of a hexadecimal digit given by its character code. -/
def hex_digit_value (d : Nat) : Nat := if d ≤ 57 then d - 48 else d - 55

/-- Decoding of a string of hexadecimal digits, two digits to a byte; a
trailing single character (the terminator) is not part of a pair. -/
def hex_decode : List Nat → List Nat
  | hi :: lo :: rest => (16 * hex_digit_value hi + hex_digit_value lo) :: hex_decode rest
  | _ => []

/-! ## str_to_date and str_to_time_as_long -/

/-- The C library test `isdigit` on a character code. -/
def isdigit (c : Nat) : Bool := decide (48 ≤ c ∧ c ≤ 57)

/-- The expression `(uint) (uchar) (*str - '0')` for the character code `c`. -/
def digit_of (c : Nat) : Nat := (c + 208) % 256

/-- The loop `for ( ; !isdigit(*str) && str != end ; str++ )` and the loop
`while ( str != end && !isdigit(*str) ) str++`: the string from its first
digit on.  A string is given by its bytes from `str` to `end`. -/
def skip_nondigits : List Nat → List Nat
  | [] => []
  | c :: cs => if isdigit c then c :: cs else skip_nondigits cs

/-- The loop `for ( pos= str; pos != end && isdigit(*pos) ; pos++ )`: the
number of leading digits. -/
def count_digits : List Nat → Nat
  | [] => 0
  | c :: cs => if isdigit c then count_digits cs + 1 else 0

/-- The loop `while ( str != end && isdigit(str[0]) && field_length-- )` of
`str_to_date`, with `tmp_value` a `uint`: the value read and the rest of the
string. -/
def read_field : Nat → Nat → List Nat → Nat × List Nat
  | _, tmp_value, [] => (tmp_value, [])
  | field_length, tmp_value, c :: cs =>
    if isdigit c = true ∧ field_length ≠ 0 then
      read_field (field_length - 1) ((tmp_value * 10 + digit_of c) % 4294967296) cs
    else (tmp_value, c :: cs)

/-- The loop `for ( i= 0 ; i < 3 && str != end; i++ )` of `str_to_date`, for
`k` more rounds: the values stored in `date[]`, in order.  After the first
field `field_length` is 1. -/
def date_fields : Nat → Nat → List Nat → List Nat
  | 0, _, _ => []
  | _, _, [] => []
  | k + 1, field_length, c :: cs =>
    (read_field field_length (digit_of c) cs).1
      :: date_fields k 1 (skip_nondigits (read_field field_length (digit_of c) cs).2)

/-- The members of `SQL_DATE_STRUCT`: `year` is a `SQLSMALLINT`, `month` and
`day` are `SQLUSMALLINT`. -/
structure SQL_DATE_STRUCT where
  year : Int
  month : Nat
  day : Nat
  deriving DecidableEq

/-- Embedding of `str_to_date` (utility.c 1066-1115).  `str` holds the
`length` bytes of the string and `rgbValue` is the output struct before the
call; the result is the return value with the output struct after the call,
or `none` when the function reads `date[0]` uninitialised (a string without
a digit and `zeroToMin` set). -/
def str_to_date (rgbValue : SQL_DATE_STRUCT) (str : List Nat) (zeroToMin : Int) :
    Option (Nat × SQL_DATE_STRUCT) :=
  let str := skip_nondigits str
  let digits := toUInt32 (count_digits str)
  let year_length := if digits = 4 ∨ digits = 8 ∨ digits ≥ 14 then 4 else 2
  let field_length := year_length - 1
  let date := date_fields 3 field_length str
  let i := date.length
  -- if (i <= 1 || (i > 1 && !date[1]) || (i > 2 && !date[2]))
  if i ≤ 1 ∨ (i > 1 ∧ date.getD 1 0 = 0) ∨ (i > 2 ∧ date.getD 2 0 = 0) then
    if zeroToMin = 0 then some (1, rgbValue)
    else
      match date with
      | [] => none
      | year :: _ =>
        some (0, { year := toSQLSMALLINT year,
                   month := if i > 1 ∧ date.getD 1 0 ≠ 0 then date.getD 1 0 % 65536 else 1,
                   day := if i > 2 ∧ date.getD 2 0 ≠ 0 then date.getD 2 0 % 65536 else 1 })
  else
    -- while ( i < 3 ) date[i++]= 1;
    some (0, { year := toSQLSMALLINT (date.getD 0 0),
               month := date.getD 1 1 % 65536,
               day := date.getD 2 1 % 65536 })

/-- The loop `while ( str != end && isdigit(str[0]) )` of
`str_to_time_as_long`, with `tmp_value` a `uint`. -/
def read_number : Nat → List Nat → Nat × List Nat
  | tmp_value, [] => (tmp_value, [])
  | tmp_value, c :: cs =>
    if isdigit c then read_number ((tmp_value * 10 + digit_of c) % 4294967296) cs
    else (tmp_value, c :: cs)

/-- The loop `for ( i= 0 ; i < 3 && str != end; i++ )` of
`str_to_time_as_long`, for `k` more rounds: the values stored in `date[]`
and the string left over. -/
def time_fields : Nat → List Nat → List Nat × List Nat
  | 0, str => ([], str)
  | _, [] => ([], [])
  | k + 1, c :: cs =>
    ((read_number (digit_of c) cs).1
        :: (time_fields k (skip_nondigits (read_number (digit_of c) cs).2)).1,
      (time_fields k (skip_nondigits (read_number (digit_of c) cs).2)).2)

/-- The body of `str_to_time_as_long` with `fuel` bounding the depth of the
recursive calls.  The counter `length` always equals `end - str`, so the
test `length && str != end` is the test for a non-empty rest.  The result is
`none` when the fuel is used up or when the function returns `date[0]`
uninitialised (a non-empty string without a digit). -/
def str_to_time_as_long_loop : Nat → List Nat → Option Nat
  | 0, _ => none
  | fuel + 1, str =>
    -- if ( length == 0 ) return 0;
    if str.length = 0 then some 0
    else
      let fields := time_fields 3 (skip_nondigits str)
      let date := fields.1
      -- if ( length && str != end ) return str_to_time_as_long(str, length);
      if fields.2 ≠ [] then str_to_time_as_long_loop fuel fields.2
      else
        match date with
        | [] => none
        | date0 :: _ =>
          -- if ( date[0] > 10000L || i < 3 ) return(ulong) date[0];
          if date0 > 10000 ∨ date.length < 3 then some date0
          else
            -- return(ulong) date[0] * 10000L + (ulong) (date[1]*100L+date[2]);
            some ((date0 * 10000 + (date.getD 1 0 * 100 + date.getD 2 0))
              % 18446744073709551616)

/-- Embedding of `str_to_time_as_long` (utility.c 1128-1161) for a string
given by its `length` bytes; every recursive call works on a shorter string,
so the length plus one is enough fuel. -/
def str_to_time_as_long (str : List Nat) : Option Nat :=
  str_to_time_as_long_loop (str.length + 1) str

/-- The codec contract for one code point: in the character set `cs` the
code point `wc` has the non-empty byte sequence `bs`; the encoder stores
`bs` whenever the room is enough, and the decoder, called at `bs` followed
by anything, returns the length of `bs` and the code point `wc`. -/
def Encodes (cs : CHARSET_INFO) (wc : Nat) (bs : List Nat) : Prop :=
  bs ≠ []
    ∧ (∀ room : Int, (bs.length : Int) ≤ room → cs.wc_mb wc room = WcMb.stored bs)
    ∧ (∀ rest : List Nat, cs.mb_wc (bs ++ rest) = ((bs.length : Int), wc))

/-! ## The conversion loop in the words of the specification -/

/-- What one pass of the conversion did: the source bytes it passed, whether
'?' was substituted for input that could not be decoded, whether the encoder
could not represent the code point so that '?' was tried in its place, and
the bytes written. -/
structure ConvPass where
  advance : Nat
  undecodable : Bool
  retried : Bool
  written : List Nat
  deriving DecidableEq

/-- The number of '?' substitutions of one pass. -/
def ConvPass.substitutions (p : ConvPass) : Nat :=
  (if p.undecodable then 1 else 0) + (if p.retried then 1 else 0)

/-- The source bytes passed by a list of passes. -/
def advanced (ps : List ConvPass) : Nat := (ps.map ConvPass.advance).sum

/-- The bytes written by a list of passes. -/
def written (ps : List ConvPass) : List Nat := ps.flatMap ConvPass.written

/-- The number of '?' substitutions of a list of passes. -/
def substitution_count (ps : List ConvPass) : Nat := (ps.map ConvPass.substitutions).sum

/-- The conversion as the specification describes it, as the list of its
passes, from source position `pos` with `produced` bytes already written.
The decoder is asked at `pos`.  When it reports that the input is too short
the conversion ends.  An illegal sequence passes one byte and a valid
sequence without a code point passes the length the decoder reported; in
both cases '?' takes the place of the code point.  Then the encoder is
asked; when it cannot represent a code point other than '?', '?' is tried
once in its place, and a pass in which nothing could be written is the last
one.  `none` when `fuel` passes were not enough. -/
def conversion_passes (to_length : Nat) (to_cs : CHARSET_INFO) (src : List Nat)
    (from_cs : CHARSET_INFO) : Nat → Nat → Nat → Option (List ConvPass)
  | 0, _, _ => none
  | fuel + 1, pos, produced =>
    let reported : Int := (from_cs.mb_wc (src.drop pos)).1
    if reported ≤ MY_CS_TOOSMALL then some []
    else
      let undecodable : Bool := decide (reported ≤ 0)
      let advance : Nat :=
        if reported = MY_CS_ILSEQ then 1 else reported.natAbs
      let wc : Nat := if undecodable then 63 else (from_cs.mb_wc (src.drop pos)).2
      let room : Int := (to_length : Int) - (produced : Int)
      let first := to_cs.wc_mb wc room
      if first.cnvres > 0 then
        (conversion_passes to_length to_cs src from_cs fuel (pos + advance)
            (produced + first.bytes.length)).map
          (fun ps => { advance := advance, undecodable := undecodable, retried := false,
                       written := first.bytes } :: ps)
      else if first.cnvres = MY_CS_ILUNI ∧ wc ≠ 63 then
        let second := to_cs.wc_mb 63 room
        if second.cnvres > 0 then
          (conversion_passes to_length to_cs src from_cs fuel (pos + advance)
              (produced + second.bytes.length)).map
            (fun ps => { advance := advance, undecodable := undecodable, retried := true,
                         written := second.bytes } :: ps)
        else
          some [{ advance := advance, undecodable := undecodable, retried := true,
                  written := [] }]
      else
        some [{ advance := advance, undecodable := undecodable, retried := false,
                written := [] }]

/-- Example character set: a single-byte set that has the letters 'A'..'Z'
only, so that it cannot represent '?'. -/
def letters_charset : CHARSET_INFO where
  mb_wc := fun bs =>
    match bs with
    | [] => (MY_CS_TOOSMALL, 0)
    | b :: _ => if 65 ≤ b ∧ b ≤ 90 then (1, b) else (MY_CS_ILSEQ, 0)
  wc_mb := fun wc room =>
    if room ≤ 0 then WcMb.failed 101
    else if 65 ≤ wc ∧ wc ≤ 90 then WcMb.stored [wc]
    else WcMb.failed 0

/-! # Theorems -/

/-! ## Evaluation of the embeddings on small inputs -/

theorem copy_lresult_eval_hello_first :
    copy_lresult 512 (some 0) true 3 true (some (bytesOf "hello")) 5 0 10 NOT_STARTED false
    = { ret := SQL_SUCCESS_WITH_INFO, pcbValue := some 5, writes := [(0, 104), (1, 101), (2, 0)],
        offset := 2, diag := some MYERR_01004 } := by decide

theorem copy_lresult_eval_hello_second :
    copy_lresult 512 (some 0) true 10 true (some (bytesOf "hello")) 5 0 10 2 false
    = { ret := SQL_SUCCESS, pcbValue := some 3, writes := [(0, 108), (1, 108), (2, 111), (3, 0)],
        offset := 5, diag := none } := by decide

theorem copy_binary_result_eval_capacity5 :
    copy_binary_result true 5 true (some [171, 205]) 2 0 NOT_STARTED
    = { ret := SQL_SUCCESS, pcbValue := some 4,
        writes := [(0, 65), (1, 66), (2, 67), (3, 68), (4, 0)],
        offset := 2, diag := none } := by decide

theorem copy_binary_result_eval_capacity3 :
    copy_binary_result true 3 true (some [171, 205]) 2 0 NOT_STARTED
    = { ret := SQL_SUCCESS, pcbValue := some 4, writes := [(0, 65), (1, 66), (2, 0)],
        offset := 1, diag := none } := by decide

theorem copy_str_data_eval_hello :
    copy_str_data true 3 true (bytesOf "hello")
    = { ret := SQL_SUCCESS_WITH_INFO, pcbValue := some 5,
        writes := [(0, 104), (1, 101), (2, 0)] } := by decide

/-! ## Unfolding lemmas for copy_lresult -/

theorem copy_lresult_eq_body (F : Nat) (H : Option Nat) (rgb : Bool) (c : Int) (pcb : Bool)
    (src : Option (List Nat)) (sl ml fl : Int) (off : Nat) (bin : Bool) :
    copy_lresult F H rgb c pcb src sl ml fl off bin =
      lresult_body (if c = 0 then false else rgb) c (lresult_capacity c ml bin) pcb src
        (lresult_src_length src sl ml) (effective_fill_length F H src sl ml fl) off bin := by
  cases H <;> cases src <;> cases bin <;> by_cases hc : c = 0 <;>
    simp [copy_lresult, lresult_body, lresult_capacity, lresult_src_length,
      resolved_src_length, effective_fill_length, lresult_pads, hc]

theorem lresult_body_offset (dst : Bool) (arg cap : Int) (pcb : Bool) (src : Option (List Nat))
    (S E : Int) (off : Nat) (bin : Bool)
    (hE0 : 0 ≤ E) (hE : E < 9223372036854775808) (hcap : 0 ≤ cap)
    (hoff : off = NOT_STARTED ∨ (off : Int) ≤ E) :
    ((lresult_body dst arg cap pcb src S E off bin).offset : Int)
      = min E ((position off : Int) + cap) := by
  unfold lresult_body
  simp only [apply_ite ChunkResult.offset, ite_self]
  unfold position toULong toLong NOT_STARTED at *
  split_ifs <;> omega

theorem lresult_capacity_eq (c ml : Int) (bin : Bool) (hc : CapacityOk c) (hml : 0 ≤ ml) :
    lresult_capacity c ml bin = chunk_room c ml bin := by
  unfold lresult_capacity chunk_room toSQLINTEGER CapacityOk at *
  simp only []
  split_ifs <;> omega

theorem chunk_room_nonneg (c ml : Int) (bin : Bool) (hc : CapacityOk c) (hml : 0 ≤ ml) :
    0 ≤ chunk_room c ml bin := by
  unfold chunk_room CapacityOk at *
  simp only []
  split_ifs <;> omega

theorem chunk_room_le (c ml : Int) (bin : Bool) (hml : 0 ≤ ml) :
    chunk_room c ml bin ≤ c ∧ (bin = false → c ≠ 0 → chunk_room c ml bin < c) := by
  unfold chunk_room
  cases bin <;> simp <;> split_ifs <;> omega

theorem chunk_room_zero (ml : Int) (bin : Bool) (hml : 0 ≤ ml) : chunk_room 0 ml bin = 0 := by
  unfold chunk_room
  simp only []
  split_ifs <;> omega

theorem lresult_src_length_bounds (src : Option (List Nat)) (sl ml fl : Int)
    (h : LengthsOk src sl ml fl) :
    0 ≤ lresult_src_length src sl ml ∧ lresult_src_length src sl ml < 9223372036854775808 := by
  unfold LengthsOk at h
  unfold lresult_src_length
  split_ifs <;> omega

theorem effective_fill_length_bounds (F : Nat) (H : Option Nat) (src : Option (List Nat))
    (sl ml fl : Int) (h : LengthsOk src sl ml fl) :
    0 ≤ effective_fill_length F H src sl ml fl ∧
    effective_fill_length F H src sl ml fl < 9223372036854775808 ∧
    lresult_src_length src sl ml ≤ effective_fill_length F H src sl ml fl := by
  have hs := lresult_src_length_bounds src sl ml fl h
  unfold LengthsOk at h
  unfold effective_fill_length
  simp only []
  split_ifs <;> omega

theorem effective_fill_length_le_max (F : Nat) (H : Option Nat) (src : Option (List Nat))
    (sl ml fl : Int) (hml : ml ≠ 0) :
    effective_fill_length F H src sl ml fl ≤ ml := by
  unfold effective_fill_length lresult_src_length
  simp only []
  split_ifs <;> omega

theorem lresult_body_no_data (dst : Bool) (arg cap : Int) (pcb : Bool) (src : Option (List Nat))
    (S E : Int) (off : Nat) (bin : Bool)
    (hnd : (lresult_body dst arg cap pcb src S E off bin).ret ≠ SQL_NO_DATA_FOUND) :
    ¬ (off ≠ NOT_STARTED ∧ arg ≠ 0 ∧ off ≥ toULong E) := by
  intro h
  unfold lresult_body at hnd
  rw [if_pos h] at hnd
  exact hnd rfl

theorem lresult_body_ret (dst : Bool) (arg cap : Int) (pcb : Bool) (src : Option (List Nat))
    (S E : Int) (off : Nat) (bin : Bool)
    (hE0 : 0 ≤ E) (hE : E < 9223372036854775808) (hoff : CursorOk E off) :
    (lresult_body dst arg cap pcb src S E off bin).ret
      = if off ≠ NOT_STARTED ∧ arg ≠ 0 ∧ (off : Int) = E then SQL_NO_DATA_FOUND
        else if arg ≠ 0 ∧ cap ≥ E - (position off : Int) then SQL_SUCCESS
        else SQL_SUCCESS_WITH_INFO := by
  have h1 : (off ≠ NOT_STARTED ∧ arg ≠ 0 ∧ off ≥ toULong E)
      ↔ (off ≠ NOT_STARTED ∧ arg ≠ 0 ∧ (off : Int) = E) := by
    unfold CursorOk toULong at *
    constructor
    · rintro ⟨a, b, c⟩; exact ⟨a, b, by omega⟩
    · rintro ⟨a, b, c⟩; exact ⟨a, b, by omega⟩
  have h2 : toLong ((toULong E : Int) - ((if off = NOT_STARTED then 0 else off : Nat) : Int))
      = E - (position off : Int) := by
    unfold CursorOk toULong toLong position NOT_STARTED at *
    split_ifs <;> omega
  unfold lresult_body
  simp only [apply_ite ChunkResult.ret, h1, h2]

theorem lresult_body_pcb (dst : Bool) (arg cap : Int) (pcb : Bool) (src : Option (List Nat))
    (S E : Int) (off : Nat) (bin : Bool)
    (hE0 : 0 ≤ E) (hE : E < 9223372036854775808)
    (hoff : off = NOT_STARTED ∨ off < 9223372036854775808)
    (hnd : (lresult_body dst arg cap pcb src S E off bin).ret ≠ SQL_NO_DATA_FOUND) :
    (lresult_body dst arg cap pcb src S E off bin).pcbValue
      = if pcb then some (E - (position off : Int)) else none := by
  have h2 : toLong ((toULong E : Int) - ((if off = NOT_STARTED then 0 else off : Nat) : Int))
      = E - (position off : Int) := by
    unfold toULong toLong position NOT_STARTED at *
    split_ifs <;> omega
  unfold lresult_body at hnd ⊢
  by_cases h : off ≠ NOT_STARTED ∧ arg ≠ 0 ∧ off ≥ toULong E
  · rw [if_pos h] at hnd
    exact absurd rfl hnd
  · rw [if_neg h]
    simp only [apply_ite ChunkResult.pcbValue, h2, ite_self]

theorem mem_memcpy (d : Nat) (src : Option (List Nat)) (off n i v : Nat) :
    (i, v) ∈ memcpy d src off n ↔ ∃ k, k < n ∧ i = d + k ∧ v = srcByte src (off + k) := by
  unfold memcpy
  simp only [List.mem_map, List.mem_range, Prod.mk.injEq]
  constructor
  · rintro ⟨k, hk, h1, h2⟩; exact ⟨k, hk, h1.symm, h2.symm⟩
  · rintro ⟨k, hk, h1, h2⟩; exact ⟨k, hk, h1.symm, h2.symm⟩

theorem mem_bfill (d n c i v : Nat) :
    (i, v) ∈ bfill d n c ↔ ∃ k, k < n ∧ i = d + k ∧ v = c := by
  unfold bfill
  simp only [List.mem_map, List.mem_range, Prod.mk.injEq]
  constructor
  · rintro ⟨k, hk, h1, h2⟩; exact ⟨k, hk, h1.symm, h2.symm⟩
  · rintro ⟨k, hk, h1, h2⟩; exact ⟨k, hk, h1.symm, h2.symm⟩

theorem copy_length_eq (S : Int) (o n : Nat) (hS0 : 0 ≤ S) (hS : S < 9223372036854775808) :
    ∃ c : Nat,
      (if S - (o : Int) ≥ (n : Int) then n
        else if S - (o : Int) ≥ 0 then toULong (S - (o : Int)) else 0) = c
      ∧ (c : Int) = max 0 (min (S - (o : Int)) n) := by
  by_cases a1 : S - (o : Int) ≥ (n : Int)
  · exact ⟨n, if_pos a1, by omega⟩
  · by_cases a2 : S - (o : Int) ≥ 0
    · refine ⟨(S - (o : Int)).toNat, ?_, by omega⟩
      rw [if_neg a1, if_pos a2]
      unfold toULong
      omega
    · exact ⟨0, by rw [if_neg a1, if_neg a2], by omega⟩

theorem toLong_fill_sub (E : Int) (o : Nat) (hE0 : 0 ≤ E) (hE : E < 9223372036854775808)
    (ho : o ≤ 9223372036854775808) :
    toLong ((toULong E : Int) - (o : Int)) = E - (o : Int) := by
  unfold toULong toLong
  split_ifs <;> omega

theorem toLong_src_sub (S : Int) (o : Nat) (hS0 : 0 ≤ S) (hS : S < 9223372036854775808)
    (ho : o < 9223372036854775808) :
    toLong (S - toLong (o : Int)) = S - (o : Int) := by
  unfold toLong
  split_ifs <;> omega

theorem toULong_min (x cap : Int) (n : Nat) (hn : (n : Int) = min x cap)
    (h : n < 18446744073709551616) :
    toULong (if x < cap then x else cap) = n := by
  unfold toULong
  split_ifs <;> omega

theorem toLong_nat (n : Nat) (hn : n < 9223372036854775808) : toLong (n : Int) = n := by
  unfold toLong
  split_ifs <;> omega

theorem toULong_cast (x : Int) (h0 : 0 ≤ x) (h : x < 18446744073709551616) :
    (toULong x : Int) = x := by
  unfold toULong
  omega

theorem position_le (E : Int) (off : Nat) (hE0 : 0 ≤ E) (hoff : CursorOk E off) :
    (position off : Int) ≤ E := by
  unfold CursorOk position NOT_STARTED at *
  split_ifs <;> omega

theorem chunk_stores_mem (src : Option (List Nat)) (S : Int) (o n c t : Nat) (bin : Bool)
    (hc2 : (c : Int) = max 0 (min (S - (o : Int)) n)) (i v : Nat) :
    (i, v) ∈ memcpy 0 src o c ++ bfill c (n - c) 32
        ++ (if bin = false ∨ n ≠ t then [(n, 0)] else []) ↔
      (((i : Int) < n ∧ v = padded_src src S (o + i)) ∨
       ((i : Int) = n ∧ v = 0 ∧ (bin = false ∨ n ≠ t))) := by
  simp only [List.mem_append, mem_memcpy, mem_bfill]
  unfold padded_src
  constructor
  · rintro ((⟨k, hk, hi, hv⟩ | ⟨k, hk, hi, hv⟩) | hterm)
    · left
      subst hi
      refine ⟨by omega, ?_⟩
      rw [if_pos (by omega), hv, Nat.zero_add]
    · left
      subst hi
      refine ⟨by omega, ?_⟩
      rw [if_neg (by omega), hv]
    · right
      by_cases hb : bin = false ∨ n ≠ t
      · rw [if_pos hb] at hterm
        simp only [List.mem_singleton, Prod.mk.injEq] at hterm
        obtain ⟨h1, h2⟩ := hterm
        subst h1
        exact ⟨rfl, h2, hb⟩
      · rw [if_neg hb] at hterm
        simp at hterm
  · rintro (⟨hlt, hv⟩ | ⟨heq, hv, hb⟩)
    · left
      by_cases hic : i < c
      · left
        refine ⟨i, hic, by omega, ?_⟩
        rw [hv, if_pos (by omega)]
      · right
        refine ⟨i - c, by omega, by omega, ?_⟩
        rw [hv, if_neg (by omega)]
    · right
      have hin : i = n := by omega
      rw [if_pos]
      · simp only [List.mem_singleton, Prod.mk.injEq]
        exact ⟨hin, hv⟩
      · exact hb

theorem terminator_cond_iff (n : Nat) (cap : Int) (bin : Bool) (hcap0 : 0 ≤ cap)
    (hcap : cap < 9223372036854775808) :
    (bin = false ∨ n ≠ toULong cap) ↔ (bin = false ∨ (n : Int) ≠ cap) := by
  have h6 := toULong_cast cap hcap0 (by omega)
  constructor
  · rintro (hb | hb)
    · exact Or.inl hb
    · exact Or.inr (fun hx => hb (by omega))
  · rintro (hb | hb)
    · exact Or.inl hb
    · exact Or.inr (fun hx => hb (by omega))

theorem lresult_body_writes (arg cap : Int) (pcb : Bool) (src : Option (List Nat))
    (S E : Int) (off : Nat) (bin : Bool)
    (hE0 : 0 ≤ E) (hE : E < 9223372036854775808)
    (hS0 : 0 ≤ S) (hS : S < 9223372036854775808)
    (hcap0 : 0 ≤ cap) (hcap : cap < 9223372036854775808)
    (hoff : CursorOk E off)
    (hnd : (lresult_body true arg cap pcb src S E off bin).ret ≠ SQL_NO_DATA_FOUND)
    (i v : Nat) :
    (i, v) ∈ (lresult_body true arg cap pcb src S E off bin).writes ↔
      (((i : Int) < min (E - (position off : Int)) cap ∧ v = padded_src src S (position off + i)) ∨
       ((i : Int) = min (E - (position off : Int)) cap ∧ v = 0 ∧
          (bin = false ∨ min (E - (position off : Int)) cap ≠ cap))) := by
  unfold lresult_body at hnd ⊢
  by_cases h : off ≠ NOT_STARTED ∧ arg ≠ 0 ∧ off ≥ toULong E
  · rw [if_pos h] at hnd
    exact absurd rfl hnd
  · rw [if_neg h]
    clear hnd h
    have ho : ((if off = NOT_STARTED then 0 else off : Nat)) = position off := rfl
    have hpos : (position off : Int) ≤ E := position_le E off hE0 hoff
    clear hoff
    generalize position off = o at *
    have h2 := toLong_fill_sub E o hE0 hE (by omega)
    have h3 := toLong_src_sub S o hS0 hS (by omega)
    obtain ⟨n, hn⟩ : ∃ n : Nat, (n : Int) = min (E - (o : Int)) cap :=
      ⟨(min (E - (o : Int)) cap).toNat, by omega⟩
    have h4 := toULong_min (E - (o : Int)) cap n hn (by omega)
    have h5 := toLong_nat n (by omega)
    have h6 := toULong_cast cap hcap0 (by omega)
    obtain ⟨c, hc1, hc2⟩ := copy_length_eq S o n hS0 hS
    simp only [apply_ite ChunkResult.writes, ite_self, ho, h2, h3, h4, h5, if_true, hc1]
    have h7 := terminator_cond_iff n cap bin hcap0 hcap
    rw [chunk_stores_mem src S o n c (toULong cap) bin hc2 i v, h7, ← hn]

/-! ## One call of copy_lresult on well-formed arguments -/

theorem copy_lresult_offset (F : Nat) (H : Option Nat) (rgb : Bool) (c : Int) (pcb : Bool)
    (src : Option (List Nat)) (sl ml fl : Int) (off : Nat) (bin : Bool)
    (hlen : LengthsOk src sl ml fl) (hc : CapacityOk c)
    (hoff : CursorOk (effective_fill_length F H src sl ml fl) off) :
    ((copy_lresult F H rgb c pcb src sl ml fl off bin).offset : Int)
      = min (effective_fill_length F H src sl ml fl)
          ((position off : Int) + chunk_room c ml bin) := by
  have hE := effective_fill_length_bounds F H src sl ml fl hlen
  have hml : 0 ≤ ml := hlen.2.2.1
  rw [copy_lresult_eq_body, lresult_capacity_eq c ml bin hc hml]
  exact lresult_body_offset _ c _ pcb src _ _ off bin hE.1 hE.2.1
    (chunk_room_nonneg c ml bin hc hml) hoff

theorem copy_lresult_ret (F : Nat) (H : Option Nat) (rgb : Bool) (c : Int) (pcb : Bool)
    (src : Option (List Nat)) (sl ml fl : Int) (off : Nat) (bin : Bool)
    (hlen : LengthsOk src sl ml fl) (hc : CapacityOk c)
    (hoff : CursorOk (effective_fill_length F H src sl ml fl) off) :
    (copy_lresult F H rgb c pcb src sl ml fl off bin).ret
      = if off ≠ NOT_STARTED ∧ c ≠ 0 ∧ (off : Int) = effective_fill_length F H src sl ml fl
        then SQL_NO_DATA_FOUND
        else if c ≠ 0 ∧
            chunk_room c ml bin ≥ effective_fill_length F H src sl ml fl - (position off : Int)
          then SQL_SUCCESS
        else SQL_SUCCESS_WITH_INFO := by
  have hE := effective_fill_length_bounds F H src sl ml fl hlen
  have hml : 0 ≤ ml := hlen.2.2.1
  rw [copy_lresult_eq_body, lresult_capacity_eq c ml bin hc hml]
  exact lresult_body_ret _ c _ pcb src _ _ off bin hE.1 hE.2.1 hoff

theorem cursor_of_offset (E : Int) (x : Int) (o : Nat) (hE : E < 9223372036854775808)
    (ho : (o : Int) = min E x) :
    o ≠ NOT_STARTED ∧ position o = o ∧ CursorOk E o := by
  have h1 : o ≠ NOT_STARTED := by
    unfold NOT_STARTED
    omega
  refine ⟨h1, ?_, Or.inr (by omega)⟩
  unfold position
  rw [if_neg h1]

theorem copy_lresult_cursor_ok (F : Nat) (H : Option Nat) (rgb : Bool) (c : Int) (pcb : Bool)
    (src : Option (List Nat)) (sl ml fl : Int) (off : Nat) (bin : Bool)
    (hlen : LengthsOk src sl ml fl) (hc0 : c ≠ 0)
    (hnd : (copy_lresult F H rgb c pcb src sl ml fl off bin).ret ≠ SQL_NO_DATA_FOUND) :
    CursorOk (effective_fill_length F H src sl ml fl) off := by
  have hE := effective_fill_length_bounds F H src sl ml fl hlen
  rw [copy_lresult_eq_body] at hnd
  have h := lresult_body_no_data _ _ _ _ _ _ _ _ _ hnd
  have h6 := toULong_cast (effective_fill_length F H src sl ml fl) hE.1 (by omega)
  unfold CursorOk
  by_cases h1 : off = NOT_STARTED
  · exact Or.inl h1
  · right
    have h2 : ¬ off ≥ toULong (effective_fill_length F H src sl ml fl) := fun hx => h ⟨h1, hc0, hx⟩
    omega

/-! ## C1 -/

/-- C2, as amended: for a `copy_lresult` call with a nonzero capacity `c`,
let `k` be the capacity left after the terminator byte is reserved (`c - 1`
in text mode, `c` in binary mode).  If `k` equals the remaining fill length
(and the cursor is not already exhausted) the call returns `SQL_SUCCESS`; if
`k` is one less than the remaining fill length it returns
`SQL_SUCCESS_WITH_INFO`. -/
theorem copy_lresult_truncation_boundary (F : Nat) (H : Option Nat) (rgb : Bool) (c : Int)
    (pcb : Bool) (src : Option (List Nat)) (sl ml fl : Int) (off : Nat) (bin : Bool)
    (hlen : LengthsOk src sl ml fl) (hc : CapacityOk c) (hc0 : c ≠ 0)
    (hoff : CursorOk (effective_fill_length F H src sl ml fl) off) :
    ((if bin = true then c else c - 1)
          = effective_fill_length F H src sl ml fl - (position off : Int) →
        (off = NOT_STARTED ∨ (off : Int) < effective_fill_length F H src sl ml fl) →
        (copy_lresult F H rgb c pcb src sl ml fl off bin).ret = SQL_SUCCESS)
    ∧ ((if bin = true then c else c - 1) + 1
          = effective_fill_length F H src sl ml fl - (position off : Int) →
        (copy_lresult F H rgb c pcb src sl ml fl off bin).ret = SQL_SUCCESS_WITH_INFO) := by
  have hE := effective_fill_length_bounds F H src sl ml fl hlen
  have hml : 0 ≤ ml := hlen.2.2.1
  have hmax : ml ≠ 0 → effective_fill_length F H src sl ml fl ≤ ml :=
    effective_fill_length_le_max F H src sl ml fl
  have hret := copy_lresult_ret F H rgb c pcb src sl ml fl off bin hlen hc hoff
  have hp : 0 ≤ (position off : Int) := Int.ofNat_nonneg _
  have hpE := position_le _ off hE.1 hoff
  have hroom : chunk_room c ml bin
      = if ml ≠ 0 ∧ (if bin = true then c else c - 1) > ml then ml
        else (if bin = true then c else c - 1) := by
    unfold chunk_room
    cases bin <;> simp [hc0]
  have hposeq : off ≠ NOT_STARTED → (position off : Int) = off := by
    intro h; unfold position; rw [if_neg h]
  have hk0 : 0 ≤ (if bin = true then c else c - 1) := by
    unfold CapacityOk at hc
    split_ifs <;> omega
  clear hlen hoff
  generalize effective_fill_length F H src sl ml fl = E at *
  generalize (if bin = true then c else c - 1) = k at *
  constructor
  · intro hk hstart
    have h1 : ¬ (off ≠ NOT_STARTED ∧ c ≠ 0 ∧ (off : Int) = E) := by
      rintro ⟨a, _, b⟩
      rcases hstart with h | h
      · exact a h
      · omega
    have h2 : c ≠ 0 ∧ chunk_room c ml bin ≥ E - (position off : Int) := by
      refine ⟨hc0, ?_⟩
      rw [hroom]
      by_cases hm : ml = 0
      · rw [if_neg (fun h => h.1 hm)]; omega
      · have := hmax hm
        split_ifs <;> omega
    rw [hret, if_neg h1, if_pos h2]
  · intro hk
    have h1 : ¬ (off ≠ NOT_STARTED ∧ c ≠ 0 ∧ (off : Int) = E) := by
      rintro ⟨a, _, b⟩
      have := hposeq a
      omega
    have h2 : ¬ (c ≠ 0 ∧ chunk_room c ml bin ≥ E - (position off : Int)) := by
      rintro ⟨_, h⟩
      rw [hroom] at h
      split_ifs at h <;> omega
    rw [hret, if_neg h1, if_neg h2]

/-- C2 witness: binary mode, "hello", capacity 5 on a fresh cursor succeeds. -/
theorem copy_lresult_truncation_boundary_witness :
    (copy_lresult 512 (some 0) true 5 true (some (bytesOf "hello")) 5 0 5 NOT_STARTED true).ret
      = SQL_SUCCESS :=
  (copy_lresult_truncation_boundary 512 (some 0) true 5 true (some (bytesOf "hello")) 5 0 5
    NOT_STARTED true (by decide) (by decide) (by decide) (by decide)).1 (by decide) (by decide)

/-- C2 as stated fails in text mode: with 5 bytes of "hello" remaining, a
capacity of exactly 5 returns `SQL_SUCCESS_WITH_INFO` (one byte is reserved
for the terminator), not `SQL_SUCCESS`. -/
theorem copy_lresult_text_capacity_equal_remaining_warns :
    copy_lresult 512 (some 0) true 5 true (some (bytesOf "hello")) 5 0 5 NOT_STARTED false
      = { ret := SQL_SUCCESS_WITH_INFO, pcbValue := some 5,
          writes := [(0, 104), (1, 101), (2, 108), (3, 108), (4, 0)],
          offset := 4, diag := some MYERR_01004 } := by
  decide

/-! ## C3 -/

/-- C3: a `copy_lresult` call that does not return `SQL_NO_DATA_FOUND` and
has a non-NULL `pcbValue` stores the effective fill length minus the cursor
position on entry, whatever the caller capacity. -/
theorem copy_lresult_reports_remaining (F : Nat) (H : Option Nat) (rgb : Bool) (c : Int)
    (src : Option (List Nat)) (sl ml fl : Int) (off : Nat) (bin : Bool)
    (hlen : LengthsOk src sl ml fl)
    (hoff : off = NOT_STARTED ∨ off < 9223372036854775808)
    (hnd : (copy_lresult F H rgb c true src sl ml fl off bin).ret ≠ SQL_NO_DATA_FOUND) :
    (copy_lresult F H rgb c true src sl ml fl off bin).pcbValue
      = some (effective_fill_length F H src sl ml fl - (position off : Int)) := by
  have hE := effective_fill_length_bounds F H src sl ml fl hlen
  rw [copy_lresult_eq_body] at hnd ⊢
  rw [lresult_body_pcb _ _ _ _ _ _ _ _ _ hE.1 hE.2.1 hoff hnd]
  rfl

/-- C3 witness: "hello", padding off, capacities 3 then 10 report 5 and 3. -/
theorem copy_lresult_reports_remaining_witness :
    (copy_lresult 512 (some 0) true 3 true (some (bytesOf "hello")) 5 0 10 NOT_STARTED false).pcbValue
        = some 5
    ∧ (copy_lresult 512 (some 0) true 10 true (some (bytesOf "hello")) 5 0 10 2 false).pcbValue
        = some 3 :=
  ⟨(copy_lresult_reports_remaining 512 (some 0) true 3 (some (bytesOf "hello")) 5 0 10
      NOT_STARTED false (by decide) (by decide) (by decide)).trans (by decide),
   (copy_lresult_reports_remaining 512 (some 0) true 10 (some (bytesOf "hello")) 5 0 10
      2 false (by decide) (by decide) (by decide)).trans (by decide)⟩

/-! ## C4 -/

theorem copy_lresult_writes_iff (F : Nat) (H : Option Nat) (c : Int) (pcb : Bool)
    (src : Option (List Nat)) (sl ml fl : Int) (off : Nat) (bin : Bool)
    (hlen : LengthsOk src sl ml fl) (hc : CapacityOk c) (hc0 : c ≠ 0)
    (hnd : (copy_lresult F H true c pcb src sl ml fl off bin).ret ≠ SQL_NO_DATA_FOUND)
    (i v : Nat) :
    (i, v) ∈ (copy_lresult F H true c pcb src sl ml fl off bin).writes ↔
      (((i : Int) < min (effective_fill_length F H src sl ml fl - (position off : Int))
                      (chunk_room c ml bin)
          ∧ v = padded_src src (lresult_src_length src sl ml) (position off + i))
       ∨ ((i : Int) = min (effective_fill_length F H src sl ml fl - (position off : Int))
                        (chunk_room c ml bin)
          ∧ v = 0
          ∧ (bin = false ∨
              min (effective_fill_length F H src sl ml fl - (position off : Int))
                (chunk_room c ml bin) ≠ chunk_room c ml bin))) := by
  have hE := effective_fill_length_bounds F H src sl ml fl hlen
  have hS := lresult_src_length_bounds src sl ml fl hlen
  have hml : 0 ≤ ml := hlen.2.2.1
  have hoff := copy_lresult_cursor_ok F H true c pcb src sl ml fl off bin hlen hc0 hnd
  have hr0 := chunk_room_nonneg c ml bin hc hml
  have hr1 := (chunk_room_le c ml bin hml).1
  have hr2 : chunk_room c ml bin < 9223372036854775808 := by
    unfold CapacityOk at hc; omega
  rw [copy_lresult_eq_body, lresult_capacity_eq c ml bin hc hml, if_neg hc0] at hnd ⊢
  exact lresult_body_writes c _ pcb src _ _ off bin hE.1 hE.2.1 hS.1 hS.2 hr0 hr2 hoff hnd i v

theorem copy_binary_result_eq_body (rgb : Bool) (c : Int) (pcb : Bool)
    (src : Option (List Nat)) (sl ml : Nat) (off : Nat) :
    copy_binary_result rgb c pcb src sl ml off =
      binary_body (if c = 0 then false else rgb) (binary_capacity c ml) pcb src
        (binary_src_length sl ml) off := by
  simp only [copy_binary_result, binary_body, binary_capacity, binary_src_length]

theorem binary_body_offset_le (dst : Bool) (cb : Int) (pcb : Bool) (src : Option (List Nat))
    (L off : Nat) (hL : L < 18446744073709551616) (hoff : off = NOT_STARTED ∨ off ≤ L) :
    (binary_body dst cb pcb src L off).offset ≤ L := by
  unfold binary_body
  simp only [apply_ite ChunkResult.offset, ite_self]
  unfold toULong NOT_STARTED at *
  split_ifs <;> omega

theorem binary_src_length_lt (sl ml : Nat) (hsl : sl < 18446744073709551616) :
    binary_src_length sl ml < 18446744073709551616 := by
  unfold binary_src_length
  split_ifs <;> omega

theorem binary_capacity_bounds (c : Int) (ml : Nat) (hc : CapacityOk c) (hc0 : c ≠ 0)
    (hml : ml + 1 < 9223372036854775808) :
    1 ≤ binary_capacity c ml ∧ binary_capacity c ml ≤ c := by
  unfold binary_capacity toSQLINTEGER toLong CapacityOk at *
  split_ifs <;> omega

theorem binary_capacity_zero (ml : Nat) (hml : ml + 1 < 9223372036854775808) :
    binary_capacity 0 ml = 0 := by
  unfold binary_capacity toSQLINTEGER toLong
  split_ifs <;> omega

theorem binary_body_zero (dst : Bool) (pcb : Bool) (src : Option (List Nat))
    (L off : Nat) (hoff : off < 18446744073709551616) :
    delivered off (binary_body dst 0 pcb src L off) = 0 := by
  unfold delivered binary_body position
  simp only [apply_ite ChunkResult.offset, ite_self]
  unfold NOT_STARTED at *
  split_ifs <;> omega

theorem mem_hexStores (src : Option (List Nat)) (off length i v : Nat)
    (h : (i, v) ∈ hexStores src off length) : i < 2 * length := by
  unfold hexStores at h
  simp only [List.mem_flatMap, List.mem_range, List.mem_cons, Prod.mk.injEq,
    List.mem_singleton, List.not_mem_nil, or_false] at h
  obtain ⟨k, hk, (⟨h1, _⟩ | ⟨h1, _⟩)⟩ := h <;> omega

theorem binary_body_writes_lt (cb : Int) (pcb : Bool) (src : Option (List Nat))
    (L off : Nat) (hcb1 : 1 ≤ cb) (hcb : cb < 2147483648) (i v : Nat)
    (h : (i, v) ∈ (binary_body true cb pcb src L off).writes) : (i : Int) < cb := by
  unfold binary_body at h
  by_cases hnd : off ≠ NOT_STARTED ∧ off ≥ L
  · rw [if_pos hnd] at h
    simp at h
  · rw [if_neg hnd] at h
    simp only [apply_ite ChunkResult.writes, ite_self, if_true, List.mem_append,
      List.mem_singleton, Prod.mk.injEq] at h
    have hlen : ∀ x : Nat, (if x < (if cb ≠ 0 then toULong (toSQLINTEGER (cb - 1)) / 2 else 0)
        then x else (if cb ≠ 0 then toULong (toSQLINTEGER (cb - 1)) / 2 else 0)) * 2 < cb := by
      intro x
      unfold toULong toSQLINTEGER
      split_ifs <;> omega
    rcases h with h | ⟨h, _⟩
    · have h1 := mem_hexStores _ _ _ _ _ h
      have h2 := hlen (toULong ((L : Int) - ((if off = NOT_STARTED then 0 else off : Nat) : Int)))
      omega
    · have h2 := hlen (toULong ((L : Int) - ((if off = NOT_STARTED then 0 else off : Nat) : Int)))
      omega

theorem lresult_body_writes_nil (arg cap : Int) (pcb : Bool) (src : Option (List Nat))
    (S E : Int) (off : Nat) (bin : Bool) :
    (lresult_body false arg cap pcb src S E off bin).writes = [] := by
  unfold lresult_body
  simp only [apply_ite ChunkResult.writes, ite_self, Bool.false_eq_true, if_false]

theorem lresult_body_writes_no_data (dst : Bool) (arg cap : Int) (pcb : Bool)
    (src : Option (List Nat)) (S E : Int) (off : Nat) (bin : Bool)
    (h : (lresult_body dst arg cap pcb src S E off bin).ret = SQL_NO_DATA_FOUND) :
    (lresult_body dst arg cap pcb src S E off bin).writes = [] := by
  unfold lresult_body at h ⊢
  by_cases hc : off ≠ NOT_STARTED ∧ arg ≠ 0 ∧ off ≥ toULong E
  · rw [if_pos hc]
  · rw [if_neg hc] at h
    simp only [apply_ite ChunkResult.ret] at h
    split_ifs at h

theorem binary_body_writes_nil (cb : Int) (pcb : Bool) (src : Option (List Nat))
    (L off : Nat) : (binary_body false cb pcb src L off).writes = [] := by
  unfold binary_body
  simp only [apply_ite ChunkResult.writes, ite_self, Bool.false_eq_true, if_false]

/-! ## C5 -/

/-- On well-formed lengths, a call with caller capacity 0 stores nothing
through the destination pointer, even when that pointer is non-NULL, and
delivers zero bytes (the cursor position does not move), for `copy_lresult`
(cursor not started or within the fill length), `copy_binary_result` and
`copy_wchar_result`.  The NULL source with length `SQL_NTS` is outside
`LengthsOk`. -/
theorem zero_capacity_stores_nothing (F : Nat) (H : Option Nat) (rgb pcb : Bool)
    (src : Option (List Nat)) (sl ml fl : Int) (off : Nat) (bin : Bool)
    (bsl bml boff : Nat) (env : WideEnv) (fuel flag : Nat) (charset : CHARSET_INFO)
    (wsl wml wfl : Int) (woff : Nat)
    (hlen : LengthsOk src sl ml fl)
    (hoff : CursorOk (effective_fill_length F H src sl ml fl) off)
    (hbml : bml + 1 < 9223372036854775808) (hboff : boff < 18446744073709551616) :
    ((copy_lresult F H rgb 0 pcb src sl ml fl off bin).writes = []
      ∧ delivered off (copy_lresult F H rgb 0 pcb src sl ml fl off bin) = 0)
    ∧ ((copy_binary_result rgb 0 pcb src bsl bml boff).writes = []
      ∧ delivered boff (copy_binary_result rgb 0 pcb src bsl bml boff) = 0)
    ∧ (∃ r, copy_wchar_result env fuel flag charset rgb 0 pcb src wsl wml wfl woff = some r
        ∧ r.writes = [] ∧ delivered woff r = 0) := by
  have hE := effective_fill_length_bounds F H src sl ml fl hlen
  have hml : 0 ≤ ml := hlen.2.2.1
  have hc : CapacityOk 0 := by unfold CapacityOk; omega
  refine ⟨⟨?_, ?_⟩, ⟨?_, ?_⟩, ?_⟩
  · rw [copy_lresult_eq_body, if_pos rfl]
    exact lresult_body_writes_nil _ _ _ _ _ _ _ _
  · have h1 := copy_lresult_offset F H rgb 0 pcb src sl ml fl off bin hlen hc hoff
    have h2 := position_le _ off hE.1 hoff
    have h3 := chunk_room_zero ml bin hml
    unfold delivered
    rw [h1, h3]
    omega
  · rw [copy_binary_result_eq_body, if_pos rfl]
    exact binary_body_writes_nil _ _ _ _ _
  · rw [copy_binary_result_eq_body, binary_capacity_zero bml hbml]
    exact binary_body_zero _ _ _ _ _ hboff
  · unfold copy_wchar_result
    simp only [ne_eq, not_true_eq_false, false_and, and_false, if_false, Bool.false_eq_true]
    refine ⟨_, rfl, ?_, ?_⟩
    · simp only [apply_ite ChunkResult.writes, ite_self]
    · unfold delivered position
      simp only [apply_ite ChunkResult.offset, ite_self]
      omega

/-- Zero-capacity calls on "hello" (cursor at 2) and on a binary value. -/
theorem zero_capacity_stores_nothing_witness :
    (copy_lresult 512 (some 0) true 0 true (some (bytesOf "hello")) 5 0 10 2 false).writes = []
    ∧ (copy_binary_result true 0 true (some (bytesOf "hello")) 5 0 2).writes = [] :=
  have h := zero_capacity_stores_nothing 512 (some 0) true true (some (bytesOf "hello")) 5 0 10 2
    false 5 0 2 ⟨512, ⟨fun _ => (0, 0), fun _ _ => WcMb.failed 0⟩, true, fun _ => (1, 0), fun _ => []⟩
    0 0 ⟨fun _ => (0, 0), fun _ _ => WcMb.failed 0⟩ 5 0 10 2
    (by decide) (by decide) (by decide) (by decide)
  ⟨h.1.1, h.2.1.1⟩

/-! ## C6 -/

theorem lresult_run_offsets (F : Nat) (H : Option Nat) (src : Option (List Nat)) (sl ml fl : Int)
    (bin : Bool) (hlen : LengthsOk src sl ml fl) (calls : List Call) :
    ∀ off : Nat, CursorOk (effective_fill_length F H src sl ml fl) off →
      (∀ c ∈ calls, CapacityOk c.cbValueMax) →
      ∀ p ∈ lresult_run F H src sl ml fl bin off calls,
        (p.2.offset : Int) ≤ effective_fill_length F H src sl ml fl := by
  have hE := effective_fill_length_bounds F H src sl ml fl hlen
  induction calls with
  | nil =>
    intro off _ _ p hp
    simp [lresult_run] at hp
  | cons c cs ih =>
    intro off hoff hcalls p hp
    have hc := hcalls c (List.mem_cons_self c cs)
    have hcs : ∀ d ∈ cs, CapacityOk d.cbValueMax := fun d hd => hcalls d (List.mem_cons_of_mem c hd)
    have hstep := copy_lresult_offset F H c.rgbValue c.cbValueMax c.pcbValue src sl ml fl off bin
      hlen hc hoff
    obtain ⟨_, _, hok⟩ := cursor_of_offset _ _ _ hE.2.1 hstep
    have hrun : lresult_run F H src sl ml fl bin off (c :: cs)
        = (off, copy_lresult F H c.rgbValue c.cbValueMax c.pcbValue src sl ml fl off bin)
          :: lresult_run F H src sl ml fl bin
            (copy_lresult F H c.rgbValue c.cbValueMax c.pcbValue src sl ml fl off bin).offset cs :=
      rfl
    rw [hrun, List.mem_cons] at hp
    rcases hp with hp | hp
    · rw [hp]
      simp only []
      omega
    · exact ih _ hok hcs p hp

theorem binary_run_offsets (src : Option (List Nat)) (sl ml : Nat)
    (hsl : sl < 18446744073709551616) (calls : List Call) :
    ∀ off : Nat, (off = NOT_STARTED ∨ off ≤ binary_src_length sl ml) →
      ∀ p ∈ binary_run src sl ml off calls, p.2.offset ≤ binary_src_length sl ml := by
  have hL := binary_src_length_lt sl ml hsl
  induction calls with
  | nil =>
    intro off _ p hp
    simp [binary_run] at hp
  | cons c cs ih =>
    intro off hoff p hp
    have hstep : (copy_binary_result c.rgbValue c.cbValueMax c.pcbValue src sl ml off).offset
        ≤ binary_src_length sl ml := by
      rw [copy_binary_result_eq_body]
      exact binary_body_offset_le _ _ _ _ _ _ hL hoff
    have hrun : binary_run src sl ml off (c :: cs)
        = (off, copy_binary_result c.rgbValue c.cbValueMax c.pcbValue src sl ml off)
          :: binary_run src sl ml
            (copy_binary_result c.rgbValue c.cbValueMax c.pcbValue src sl ml off).offset cs :=
      rfl
    rw [hrun, List.mem_cons] at hp
    rcases hp with hp | hp
    · rw [hp]
      exact hstep
    · exact ih _ (Or.inr hstep) p hp

/-- On well-formed lengths, with the source, fill length, max length and
padding flag fixed, and any sequence of non-negative capacities starting
from the not-started cursor, the cursor offset stored by every
`copy_lresult` call is at most the effective fill length, and the offset
stored by every `copy_binary_result` call is at most the clamped source
length.  The NULL source with length `SQL_NTS` is outside `LengthsOk`. -/
theorem cursor_offset_within_fill (F : Nat) (H : Option Nat) (src : Option (List Nat))
    (sl ml fl : Int) (bin : Bool) (calls : List Call) (bsl bml : Nat) (bcalls : List Call)
    (hlen : LengthsOk src sl ml fl) (hcalls : ∀ c ∈ calls, CapacityOk c.cbValueMax)
    (hbsl : bsl < 18446744073709551616) :
    (∀ p ∈ lresult_run F H src sl ml fl bin NOT_STARTED calls,
        (p.2.offset : Int) ≤ effective_fill_length F H src sl ml fl)
    ∧ (∀ p ∈ binary_run src bsl bml NOT_STARTED bcalls,
        p.2.offset ≤ binary_src_length bsl bml) :=
  ⟨lresult_run_offsets F H src sl ml fl bin hlen calls NOT_STARTED (Or.inl rfl) hcalls,
   binary_run_offsets src bsl bml hbsl bcalls NOT_STARTED (Or.inl rfl)⟩

/-- The cursor bound for "hello" read with capacities 3, 0 and 10, and as hex
with capacities 3 and 9. -/
theorem cursor_offset_within_fill_witness :
    (∀ p ∈ lresult_run 512 (some 0) (some (bytesOf "hello")) 5 0 10 false NOT_STARTED
        [⟨true, 3, true⟩, ⟨true, 0, true⟩, ⟨true, 10, true⟩],
        (p.2.offset : Int) ≤ effective_fill_length 512 (some 0) (some (bytesOf "hello")) 5 0 10)
    ∧ (∀ p ∈ binary_run (some (bytesOf "hello")) 5 0 NOT_STARTED
        [⟨true, 3, true⟩, ⟨true, 9, true⟩],
        p.2.offset ≤ binary_src_length 5 0) :=
  cursor_offset_within_fill 512 (some 0) (some (bytesOf "hello")) 5 0 10 false
    [⟨true, 3, true⟩, ⟨true, 0, true⟩, ⟨true, 10, true⟩] 5 0 [⟨true, 3, true⟩, ⟨true, 9, true⟩]
    (by decide) (by decide) (by decide)

/-! ## C8 -/

theorem copy_lresult_stores_below (F : Nat) (H : Option Nat) (rgb : Bool) (c : Int) (pcb : Bool)
    (src : Option (List Nat)) (sl ml fl : Int) (off : Nat) (bin : Bool)
    (hlen : LengthsOk src sl ml fl) (hc : CapacityOk c) (i v : Nat)
    (h : (i, v) ∈ (copy_lresult F H rgb c pcb src sl ml fl off bin).writes) : (i : Int) < c := by
  have hml : 0 ≤ ml := hlen.2.2.1
  by_cases hc0 : c = 0
  · rw [copy_lresult_eq_body, if_pos hc0, lresult_body_writes_nil] at h
    simp at h
  · cases rgb with
    | false =>
      rw [copy_lresult_eq_body, if_neg hc0, lresult_body_writes_nil] at h
      simp at h
    | true =>
      by_cases hnd : (copy_lresult F H true c pcb src sl ml fl off bin).ret = SQL_NO_DATA_FOUND
      · rw [copy_lresult_eq_body] at h hnd
        rw [lresult_body_writes_no_data _ _ _ _ _ _ _ _ _ hnd] at h
        simp at h
      · have hw := (copy_lresult_writes_iff F H c pcb src sl ml fl off bin hlen hc hc0 hnd
          i v).1 h
        have hr := chunk_room_le c ml bin hml
        rcases hw with ⟨h1, _⟩ | ⟨h1, _, h2⟩
        · omega
        · rcases h2 with h2 | h2
          · have := hr.2 h2 hc0
            omega
          · omega

theorem copy_binary_result_stores_below (rgb : Bool) (c : Int) (pcb : Bool)
    (src : Option (List Nat)) (sl ml off : Nat)
    (hc : CapacityOk c) (hml : ml + 1 < 9223372036854775808) (i v : Nat)
    (h : (i, v) ∈ (copy_binary_result rgb c pcb src sl ml off).writes) : (i : Int) < c := by
  by_cases hc0 : c = 0
  · rw [copy_binary_result_eq_body, if_pos hc0, binary_body_writes_nil] at h
    simp at h
  · cases rgb with
    | false =>
      rw [copy_binary_result_eq_body, if_neg hc0, binary_body_writes_nil] at h
      simp at h
    | true =>
      have hb := binary_capacity_bounds c ml hc hc0 hml
      rw [copy_binary_result_eq_body, if_neg hc0] at h
      have := binary_body_writes_lt _ pcb src _ off hb.1 (by unfold CapacityOk at hc; omega) i v h
      omega

/-- On well-formed lengths and for a non-negative caller capacity `c`, every
store of `copy_lresult` (text and binary mode) and of `copy_binary_result`
through the destination pointer, terminator included, goes to an index
strictly below `c`.  The NULL source with length `SQL_NTS` is outside
`LengthsOk`. -/
theorem chunk_stores_below_capacity (F : Nat) (H : Option Nat) (rgb : Bool) (c : Int)
    (pcb : Bool) (src : Option (List Nat)) (sl ml fl : Int) (off : Nat) (bin : Bool)
    (bsl bml boff : Nat)
    (hlen : LengthsOk src sl ml fl) (hc : CapacityOk c)
    (hbml : bml + 1 < 9223372036854775808) :
    (∀ i v : Nat, (i, v) ∈ (copy_lresult F H rgb c pcb src sl ml fl off bin).writes →
        (i : Int) < c)
    ∧ (∀ i v : Nat, (i, v) ∈ (copy_binary_result rgb c pcb src bsl bml boff).writes →
        (i : Int) < c) :=
  ⟨fun i v h => copy_lresult_stores_below F H rgb c pcb src sl ml fl off bin hlen hc i v h,
   fun i v h => copy_binary_result_stores_below rgb c pcb src bsl bml boff hc hbml i v h⟩

/-- The store bound for "hello" read with capacity 3 in binary mode and as
hex. -/
theorem chunk_stores_below_capacity_witness :
    (∀ i v : Nat, (i, v) ∈ (copy_lresult 512 (some 0) true 3 true (some (bytesOf "hello")) 5 0
        10 NOT_STARTED true).writes → (i : Int) < 3)
    ∧ (∀ i v : Nat, (i, v) ∈ (copy_binary_result true 3 true (some (bytesOf "hello")) 5 0
        NOT_STARTED).writes → (i : Int) < 3) :=
  chunk_stores_below_capacity 512 (some 0) true 3 true (some (bytesOf "hello")) 5 0 10
    NOT_STARTED true 5 0 NOT_STARTED (by decide) (by decide) (by decide)

/-! ## C9 -/

/-- C9, as amended: for every negative caller capacity other than `SQL_NTS`
(-3), `copy_str_data` returns the result of `set_handle_error` with
`MYERR_S1090` at once: nothing is copied into `rgbValue` and `*pcbValue` is
not written. -/
theorem copy_str_data_negative_capacity (rgb pcb : Bool) (c : Int) (src : List Nat)
    (hneg : c < 0) (hnts : c ≠ SQL_NTS) :
    copy_str_data rgb c pcb src
      = { ret := handle_error MYERR_S1090, pcbValue := none, writes := [] } := by
  unfold copy_str_data
  rw [if_neg hnts, if_pos hneg]

/-- C9 witness: capacity -1. -/
theorem copy_str_data_negative_capacity_witness :
    copy_str_data true (-1) true (bytesOf "ab")
      = { ret := handle_error MYERR_S1090, pcbValue := none, writes := [] } :=
  copy_str_data_negative_capacity true true (-1) (bytesOf "ab") (by decide) (by decide)

/-- C9 as stated fails at the negative capacity -3: it is `SQL_NTS`, for
which `copy_str_data` copies the whole string with its terminator, stores
the length and returns `SQL_SUCCESS`. -/
theorem copy_str_data_capacity_sql_nts :
    ((-3 : Int) < 0)
    ∧ copy_str_data true (-3) true (bytesOf "ab")
      = { ret := SQL_SUCCESS, pcbValue := some 2, writes := [(0, 97), (1, 98), (2, 0)] } := by
  decide

/-! ## C10 -/

/-- C10 (the code departs from the claim): with a latin1 connection, source
bytes E9 41 42 and a capacity of 3 units, the transcoder consumes 2 source
bytes and produces 3 UTF-8 bytes; `copy_wchar_result` adds the 3 produced
bytes to the cursor, so the offset is 3 instead of 2 and the next call
returns `SQL_NO_DATA_FOUND` although source byte 42 was never delivered. -/
theorem copy_wchar_result_offset_counts_produced_bytes :
    copy_and_convert 10 8 utf8_charset [233, 65, 66] 2 latin1_charset
      = some { ret := 3, out := [195, 169, 65], errors := 0, consumed := 2 }
    ∧ copy_wchar_result wide_env16 10 0 latin1_charset true 3 true (some [233, 65, 66]) 3 0 0
        NOT_STARTED
      = some { ret := SQL_SUCCESS_WITH_INFO, pcbValue := some 3, writes := [(0, 233), (1, 65)],
               offset := 3, diag := some MYERR_01004 }
    ∧ copy_wchar_result wide_env16 10 0 latin1_charset true 3 true (some [233, 65, 66]) 3 0 0 3
      = some { ret := SQL_NO_DATA_FOUND, pcbValue := none, writes := [], offset := 3,
               diag := none } := by
  decide

/-! ## C15 -/

/-- C15: for a fixed-point column (`MYSQL_TYPE_DECIMAL` or
`MYSQL_TYPE_NEWDECIMAL`) `unireg_to_sql_datatype` returns `SQL_DECIMAL`; the
display size is the `ulong` value of `max(declared length, observed max
length) - (1 if signed) - (1 if decimals > 0)`, which is that difference
itself whenever the sign and decimal-point positions fit in the length; the
precision equals the display size.  (`hl`, `hml`: the lengths are `ulong`
values.) -/
theorem unireg_to_sql_datatype_decimal (env : TypeEnv) (stmt : STMT) (field : MYSQL_FIELD)
    (buff : Bool)
    (ht : field.type = MYSQL_TYPE_DECIMAL ∨ field.type = MYSQL_TYPE_NEWDECIMAL)
    (hl : field.length < 18446744073709551616)
    (hml : field.max_length < 18446744073709551616) :
    (unireg_to_sql_datatype env stmt field buff).ret = SQL_DECIMAL
    ∧ (unireg_to_sql_datatype env stmt field buff).display_size
        = toULong ((max field.length field.max_length : Nat)
            - (if field.flags &&& UNSIGNED_FLAG = 0 then 1 else 0)
            - (if field.decimals ≠ 0 then 1 else 0))
    ∧ ((if field.flags &&& UNSIGNED_FLAG = 0 then 1 else 0)
          + (if field.decimals ≠ 0 then 1 else 0) ≤ max field.length field.max_length →
        ((unireg_to_sql_datatype env stmt field buff).display_size : Int)
          = (max field.length field.max_length : Nat)
            - (if field.flags &&& UNSIGNED_FLAG = 0 then 1 else 0)
            - (if field.decimals ≠ 0 then 1 else 0))
    ∧ (unireg_to_sql_datatype env stmt field buff).precision
        = (unireg_to_sql_datatype env stmt field buff).display_size := by
  have hm : (if field.length > field.max_length then field.length else field.max_length)
      = max field.length field.max_length := by
    split_ifs <;> omega
  rcases ht with ht | ht <;>
  · simp only [unireg_to_sql_datatype, ht, hm]
    refine ⟨trivial, trivial, ?_, trivial⟩
    intro h
    unfold toULong
    split_ifs at h ⊢ <;> omega

/-- C15 witness: signed, declared length 10, 2 decimals gives display size
8. -/
theorem unireg_to_sql_datatype_decimal_witness :
    (unireg_to_sql_datatype type_env_sample ⟨0, some 1, 3⟩
      ⟨MYSQL_TYPE_NEWDECIMAL, 10, 0, 0, 2⟩ true).display_size = 8 :=
  (unireg_to_sql_datatype_decimal type_env_sample ⟨0, some 1, 3⟩
    ⟨MYSQL_TYPE_NEWDECIMAL, 10, 0, 0, 2⟩ true (Or.inr rfl) (by decide) (by decide)).2.1.trans
    (by decide)

/-! ## C16 -/

/-- C16, as amended: for every type tag, session flags and charset, and every
column with a nonzero declared length, the transfer length, precision and
display size are at least 1, provided that for a fixed-point column the
length exceeds the positions of the sign and the decimal point, and that for
a character or text column whose length is divided by the charset's
`mbmaxlen` the declared length is at least `mbmaxlen`. -/
theorem unireg_to_sql_datatype_lengths_positive (env : TypeEnv) (stmt : STMT)
    (field : MYSQL_FIELD) (buff : Bool)
    (hlen : field.length ≠ 0)
    (hl : field.length < 18446744073709551616)
    (hml : field.max_length < 18446744073709551616)
    (hdec : is_decimal field = true →
      decimal_overhead field < max field.length field.max_length)
    (hchar : uses_char_length env field = true →
      ∀ k, stmt.charset_mbmaxlen = some k → 1 ≤ k ∧ k ≤ field.length) :
    1 ≤ (unireg_to_sql_datatype env stmt field buff).transfer_length
    ∧ 1 ≤ (unireg_to_sql_datatype env stmt field buff).precision
    ∧ 1 ≤ (unireg_to_sql_datatype env stmt field buff).display_size := by
  have hm : 1 ≤ (if field.length > field.max_length then field.length else field.max_length) := by
    split_ifs <;> omega
  have hcl : uses_char_length env field = true → ∀ d, 1 ≤ d → 1 ≤ char_length stmt field d := by
    intro hu d hd
    unfold char_length
    rw [if_pos hlen]
    cases hk : stmt.charset_mbmaxlen with
    | none => simp only []; omega
    | some k =>
      simp only []
      obtain ⟨h1, h2⟩ := hchar hu k hk
      exact (Nat.one_le_div_iff (by omega)).2 h2
  have hd : is_decimal field = true →
      1 ≤ toULong (((if field.length > field.max_length then field.length
          else field.max_length : Nat) : Int)
        - (if field.flags &&& UNSIGNED_FLAG = 0 then 1 else 0)
        - (if field.decimals ≠ 0 then 1 else 0)) := by
    intro h
    have h2 := hdec h
    unfold decimal_overhead at h2
    unfold toULong
    split_ifs at h2 ⊢ <;> omega
  clear hl hml hdec hchar hlen
  cases ht : field.type <;>
    simp only [unireg_to_sql_datatype, ht] <;>
    generalize (if field.length > field.max_length then field.length
      else field.max_length) = m at hm hd ⊢ <;>
    generalize toULong ((m : Int) - (if field.flags &&& UNSIGNED_FLAG = 0 then 1 else 0)
      - (if field.decimals ≠ 0 then 1 else 0)) = dv at hd ⊢ <;>
    (try split_ifs) <;>
    refine ⟨?_, ?_, ?_⟩ <;>
    dsimp only <;>
    first
    | exact hm
    | decide
    | (refine hcl ?_ _ ?_ <;> first | decide | simp [uses_char_length, ht, *])
    | (refine hd ?_; simp [is_decimal, ht])

/-- C16 witness: a signed DECIMAL column of declared length 10 with 2
decimals. -/
theorem unireg_to_sql_datatype_lengths_positive_witness :
    1 ≤ (unireg_to_sql_datatype type_env_sample ⟨0, some 3, 3⟩
          ⟨MYSQL_TYPE_NEWDECIMAL, 10, 0, 0, 2⟩ true).transfer_length
    ∧ 1 ≤ (unireg_to_sql_datatype type_env_sample ⟨0, some 3, 3⟩
          ⟨MYSQL_TYPE_NEWDECIMAL, 10, 0, 0, 2⟩ true).precision
    ∧ 1 ≤ (unireg_to_sql_datatype type_env_sample ⟨0, some 3, 3⟩
          ⟨MYSQL_TYPE_NEWDECIMAL, 10, 0, 0, 2⟩ true).display_size :=
  unireg_to_sql_datatype_lengths_positive type_env_sample ⟨0, some 3, 3⟩
    ⟨MYSQL_TYPE_NEWDECIMAL, 10, 0, 0, 2⟩ true (by decide) (by decide) (by decide)
    (by decide) (by decide)

/-- C16 as stated fails: a signed DECIMAL column of declared length 1 gets
display size and precision 0; with decimals the subtraction wraps around to
`2^64 - 1`; and a VAR_STRING column of declared length 2 on a charset with
`mbmaxlen = 3` gets transfer length, precision and display size 0. -/
theorem unireg_to_sql_datatype_lengths_zero_or_wrapped :
    unireg_to_sql_datatype type_env_sample ⟨0, some 1, 3⟩ ⟨MYSQL_TYPE_DECIMAL, 1, 0, 0, 0⟩ false
      = { ret := SQL_DECIMAL, buff := none, transfer_length := 1, precision := 0,
          display_size := 0 }
    ∧ unireg_to_sql_datatype type_env_sample ⟨0, some 1, 3⟩ ⟨MYSQL_TYPE_DECIMAL, 1, 0, 0, 2⟩ false
      = { ret := SQL_DECIMAL, buff := none, transfer_length := 1,
          precision := 18446744073709551615, display_size := 18446744073709551615 }
    ∧ unireg_to_sql_datatype type_env_sample ⟨0, some 3, 3⟩ ⟨MYSQL_TYPE_VAR_STRING, 2, 0, 0, 0⟩
        false
      = { ret := SQL_VARCHAR, buff := none, transfer_length := 0, precision := 0,
          display_size := 0 } := by
  decide

/-! ## C17 -/

/-- C17: date, time and timestamp/datetime columns map to `SQL_TYPE_DATE`,
`SQL_TYPE_TIME`, `SQL_TYPE_TIMESTAMP` when the environment's ODBC version is
`SQL_OV_ODBC3` and to `SQL_DATE`, `SQL_TIME`, `SQL_TIMESTAMP` otherwise, with
transfer length 6, 6, 16 and precision = display size = 10, 8, 19, whatever
the declared and observed lengths. -/
theorem unireg_to_sql_datatype_temporal (env : TypeEnv) (stmt : STMT) (field : MYSQL_FIELD)
    (buff : Bool) :
    ((field.type = MYSQL_TYPE_DATE ∨ field.type = MYSQL_TYPE_NEWDATE) →
      (unireg_to_sql_datatype env stmt field buff).ret
          = (if stmt.odbc_ver = SQL_OV_ODBC3 then SQL_TYPE_DATE else SQL_DATE)
      ∧ (unireg_to_sql_datatype env stmt field buff).transfer_length = 6
      ∧ (unireg_to_sql_datatype env stmt field buff).precision = 10
      ∧ (unireg_to_sql_datatype env stmt field buff).display_size = 10)
    ∧ (field.type = MYSQL_TYPE_TIME →
      (unireg_to_sql_datatype env stmt field buff).ret
          = (if stmt.odbc_ver = SQL_OV_ODBC3 then SQL_TYPE_TIME else SQL_TIME)
      ∧ (unireg_to_sql_datatype env stmt field buff).transfer_length = 6
      ∧ (unireg_to_sql_datatype env stmt field buff).precision = 8
      ∧ (unireg_to_sql_datatype env stmt field buff).display_size = 8)
    ∧ ((field.type = MYSQL_TYPE_TIMESTAMP ∨ field.type = MYSQL_TYPE_DATETIME) →
      (unireg_to_sql_datatype env stmt field buff).ret
          = (if stmt.odbc_ver = SQL_OV_ODBC3 then SQL_TYPE_TIMESTAMP else SQL_TIMESTAMP)
      ∧ (unireg_to_sql_datatype env stmt field buff).transfer_length = 16
      ∧ (unireg_to_sql_datatype env stmt field buff).precision = 19
      ∧ (unireg_to_sql_datatype env stmt field buff).display_size = 19) := by
  refine ⟨?_, ?_, ?_⟩
  · rintro (ht | ht) <;> simp only [unireg_to_sql_datatype, ht, and_self]
  · intro ht
    simp only [unireg_to_sql_datatype, ht, and_self]
  · rintro (ht | ht) <;> simp only [unireg_to_sql_datatype, ht, and_self]

/-- C17 witness: a DATETIME column of declared length 50 under ODBC 3 and
under ODBC 2. -/
theorem unireg_to_sql_datatype_temporal_witness :
    (unireg_to_sql_datatype type_env_sample ⟨0, none, 3⟩
        ⟨MYSQL_TYPE_DATETIME, 50, 7, 0, 0⟩ false).ret = 93
    ∧ (unireg_to_sql_datatype type_env_sample ⟨0, none, 2⟩
        ⟨MYSQL_TYPE_DATETIME, 50, 7, 0, 0⟩ false).ret = 11 :=
  ⟨((unireg_to_sql_datatype_temporal type_env_sample ⟨0, none, 3⟩
      ⟨MYSQL_TYPE_DATETIME, 50, 7, 0, 0⟩ false).2.2 (Or.inr rfl)).1.trans (by decide),
   ((unireg_to_sql_datatype_temporal type_env_sample ⟨0, none, 2⟩
      ⟨MYSQL_TYPE_DATETIME, 50, 7, 0, 0⟩ false).2.2 (Or.inr rfl)).1.trans (by decide)⟩

/-! ## C18 -/

/-- C18: integer columns map 8-bit (numeric TINY) to `SQL_TINYINT`, 16-bit to
`SQL_SMALLINT`, 24-bit and 32-bit to `SQL_INTEGER`, and 64-bit to
`SQL_BIGINT` unless `FLAG_NO_BIGINT` is set, when it gives `SQL_INTEGER`;
none of these depends on the column's flags (so not on the unsigned flag);
and `unireg_to_c_datatype` gives `SQL_C_CHAR` for a 64-bit column, whatever
the session flag. -/
theorem unireg_to_sql_datatype_integers (env : TypeEnv) (stmt : STMT) (field : MYSQL_FIELD)
    (buff : Bool) :
    (field.type = MYSQL_TYPE_TINY → env.num_field field = true →
      (unireg_to_sql_datatype env stmt field buff).ret = SQL_TINYINT)
    ∧ (field.type = MYSQL_TYPE_SHORT →
      (unireg_to_sql_datatype env stmt field buff).ret = SQL_SMALLINT)
    ∧ (field.type = MYSQL_TYPE_INT24 →
      (unireg_to_sql_datatype env stmt field buff).ret = SQL_INTEGER)
    ∧ (field.type = MYSQL_TYPE_LONG →
      (unireg_to_sql_datatype env stmt field buff).ret = SQL_INTEGER)
    ∧ (field.type = MYSQL_TYPE_LONGLONG →
      (unireg_to_sql_datatype env stmt field buff).ret
        = (if stmt.flag &&& env.FLAG_NO_BIGINT ≠ 0 then SQL_INTEGER else SQL_BIGINT)
      ∧ unireg_to_c_datatype field = SQL_C_CHAR)
    ∧ (∀ flags2 : Nat,
        (field.type = MYSQL_TYPE_SHORT ∨ field.type = MYSQL_TYPE_INT24
          ∨ field.type = MYSQL_TYPE_LONG ∨ field.type = MYSQL_TYPE_LONGLONG
          ∨ (field.type = MYSQL_TYPE_TINY ∧ env.num_field field = true
              ∧ env.num_field { field with flags := flags2 } = true)) →
        (unireg_to_sql_datatype env stmt { field with flags := flags2 } buff).ret
          = (unireg_to_sql_datatype env stmt field buff).ret) := by
  refine ⟨?_, ?_, ?_, ?_, ?_, ?_⟩
  · intro ht hn
    simp only [unireg_to_sql_datatype, ht, hn, if_true]
  · intro ht
    simp only [unireg_to_sql_datatype, ht]
  · intro ht
    simp only [unireg_to_sql_datatype, ht]
  · intro ht
    simp only [unireg_to_sql_datatype, ht]
  · intro ht
    refine ⟨?_, ?_⟩
    · simp only [unireg_to_sql_datatype, ht]
      split_ifs <;> rfl
    · simp only [unireg_to_c_datatype, ht]
  · intro flags2 h
    rcases h with ht | ht | ht | ht | ⟨ht, hn, hn2⟩
    · simp only [unireg_to_sql_datatype, ht]
    · simp only [unireg_to_sql_datatype, ht]
    · simp only [unireg_to_sql_datatype, ht]
    · simp only [unireg_to_sql_datatype, ht]
      split_ifs <;> rfl
    · rw [ht] at hn2
      simp only [unireg_to_sql_datatype, ht, hn, hn2, if_true]

/-- C18 witness: an unsigned and a signed BIGINT column, with and without
`FLAG_NO_BIGINT`. -/
theorem unireg_to_sql_datatype_integers_witness :
    (unireg_to_sql_datatype type_env_sample ⟨16384, none, 3⟩
        ⟨MYSQL_TYPE_LONGLONG, 20, 0, 32, 0⟩ false).ret = 4
    ∧ (unireg_to_sql_datatype type_env_sample ⟨0, none, 3⟩
        ⟨MYSQL_TYPE_LONGLONG, 20, 0, 0, 0⟩ false).ret = -5 :=
  ⟨((unireg_to_sql_datatype_integers type_env_sample ⟨16384, none, 3⟩
      ⟨MYSQL_TYPE_LONGLONG, 20, 0, 32, 0⟩ false).2.2.2.2.1 rfl).1.trans (by decide),
   ((unireg_to_sql_datatype_integers type_env_sample ⟨0, none, 3⟩
      ⟨MYSQL_TYPE_LONGLONG, 20, 0, 0, 0⟩ false).2.2.2.2.1 rfl).1.trans (by decide)⟩

/-! ## C19 -/

/-- C19: for a non-binary character or text column (STRING, VAR_STRING,
VARCHAR, TINY_BLOB, BLOB, MEDIUM_BLOB, LONG_BLOB) the transfer length, the
precision and the display size are all: the declared length divided by the
charset's `mbmaxlen` when the declared length is nonzero and a charset is
known; the declared length itself when no charset is known; and, when the
declared length is zero, 255 for STRING, VAR_STRING, VARCHAR and TINY_BLOB,
65535 for BLOB, 16777215 for MEDIUM_BLOB and 2147483647 for LONG_BLOB. -/
theorem unireg_to_sql_datatype_text_lengths (env : TypeEnv) (stmt : STMT) (field : MYSQL_FIELD)
    (buff : Bool)
    (ht : field.type = MYSQL_TYPE_STRING ∨ field.type = MYSQL_TYPE_VAR_STRING
      ∨ field.type = MYSQL_TYPE_VARCHAR ∨ field.type = MYSQL_TYPE_TINY_BLOB
      ∨ field.type = MYSQL_TYPE_BLOB ∨ field.type = MYSQL_TYPE_MEDIUM_BLOB
      ∨ field.type = MYSQL_TYPE_LONG_BLOB)
    (hb : env.binary_field field = false) :
    ((unireg_to_sql_datatype env stmt field buff).transfer_length
        = (unireg_to_sql_datatype env stmt field buff).display_size
      ∧ (unireg_to_sql_datatype env stmt field buff).precision
        = (unireg_to_sql_datatype env stmt field buff).display_size)
    ∧ (∀ k : Nat, field.length ≠ 0 → stmt.charset_mbmaxlen = some k →
        (unireg_to_sql_datatype env stmt field buff).display_size = field.length / k)
    ∧ (field.length ≠ 0 → stmt.charset_mbmaxlen = none →
        (unireg_to_sql_datatype env stmt field buff).display_size = field.length)
    ∧ (field.length = 0 →
        (unireg_to_sql_datatype env stmt field buff).display_size
          = text_default_length field.type) := by
  have hcl : ∀ d : Nat,
      (∀ k : Nat, field.length ≠ 0 → stmt.charset_mbmaxlen = some k →
        char_length stmt field d = field.length / k)
      ∧ (field.length ≠ 0 → stmt.charset_mbmaxlen = none → char_length stmt field d = field.length)
      ∧ (field.length = 0 → char_length stmt field d = d) := by
    intro d
    unfold char_length
    refine ⟨?_, ?_, ?_⟩
    · intro k h1 h2
      rw [if_pos h1, h2]
    · intro h1 h2
      rw [if_pos h1, h2]
    · intro h1
      rw [if_neg (fun h => h h1)]
  rcases ht with ht | ht | ht | ht | ht | ht | ht <;>
    simp only [unireg_to_sql_datatype, ht, hb, text_default_length, INT_MAX32, and_self,
      true_and, Bool.false_eq_true, if_false] <;>
    exact hcl _

/-- C19 witness: a VAR_STRING column of declared length 30 on a charset with
`mbmaxlen = 3`. -/
theorem unireg_to_sql_datatype_text_lengths_witness :
    (unireg_to_sql_datatype type_env_sample ⟨0, some 3, 3⟩
        ⟨MYSQL_TYPE_VAR_STRING, 30, 0, 0, 0⟩ false).display_size = 10 :=
  ((unireg_to_sql_datatype_text_lengths type_env_sample ⟨0, some 3, 3⟩
      ⟨MYSQL_TYPE_VAR_STRING, 30, 0, 0, 0⟩ false (Or.inr (Or.inl rfl)) (by decide)).2.1 3
      (by decide) rfl).trans (by decide)

/-! ## C20 -/

/-- C20, as amended: a fixed-length character column (`MYSQL_TYPE_STRING`)
that is flagged binary maps to `SQL_BINARY`; a variable-length character
column (`MYSQL_TYPE_VAR_STRING` / `MYSQL_TYPE_VARCHAR`) maps to `SQL_VARCHAR`
whether or not it is flagged binary. -/
theorem unireg_to_sql_datatype_binary_strings (env : TypeEnv) (stmt : STMT)
    (field : MYSQL_FIELD) (buff : Bool) :
    (field.type = MYSQL_TYPE_STRING → env.binary_field field = true →
      (unireg_to_sql_datatype env stmt field buff).ret = SQL_BINARY)
    ∧ ((field.type = MYSQL_TYPE_VAR_STRING ∨ field.type = MYSQL_TYPE_VARCHAR) →
      (unireg_to_sql_datatype env stmt field buff).ret = SQL_VARCHAR) := by
  refine ⟨?_, ?_⟩
  · intro ht hb
    simp only [unireg_to_sql_datatype, ht, hb, if_true]
  · rintro (ht | ht) <;> simp only [unireg_to_sql_datatype, ht]

/-- C20 witness: a binary CHAR column gives `SQL_BINARY` (-2). -/
theorem unireg_to_sql_datatype_binary_strings_witness :
    (unireg_to_sql_datatype type_env_sample ⟨0, some 1, 3⟩
        ⟨MYSQL_TYPE_STRING, 16, 0, 128, 0⟩ false).ret = -2 :=
  ((unireg_to_sql_datatype_binary_strings type_env_sample ⟨0, some 1, 3⟩
      ⟨MYSQL_TYPE_STRING, 16, 0, 128, 0⟩ false).1 rfl (by decide)).trans (by decide)

/-- C20 as stated fails for variable-length columns: a VAR_STRING column
flagged binary gets `SQL_VARCHAR`, a character type, not `SQL_BINARY` or
`SQL_VARBINARY` (the reclassification is commented out in the source). -/
theorem unireg_to_sql_datatype_binary_var_string :
    type_env_sample.binary_field ⟨MYSQL_TYPE_VAR_STRING, 16, 0, 128, 0⟩ = true
    ∧ (unireg_to_sql_datatype type_env_sample ⟨0, some 1, 3⟩
        ⟨MYSQL_TYPE_VAR_STRING, 16, 0, 128, 0⟩ true)
      = { ret := SQL_VARCHAR, buff := some "varchar", transfer_length := 16, precision := 16,
          display_size := 16 }
    ∧ SQL_VARCHAR ≠ SQL_BINARY ∧ SQL_VARCHAR ≠ SQL_VARBINARY := by
  decide

/-! ## C13 -/

/-- C13, as amended: for the binary value AB CD, no max length and a
not-started cursor, `copy_binary_result` with capacity 5 stores "ABCD" and
the terminator, reports remaining length 4 and returns `SQL_SUCCESS`, leaving
the cursor at 2; the next call with capacity 3 returns `SQL_NO_DATA_FOUND`
and stores nothing. -/
theorem copy_binary_result_scenario_b :
    copy_binary_result true 5 true (some [171, 205]) 2 0 NOT_STARTED
      = { ret := SQL_SUCCESS, pcbValue := some 4,
          writes := [(0, 65), (1, 66), (2, 67), (3, 68), (4, 0)], offset := 2, diag := none }
    ∧ copy_binary_result true 3 true (some [171, 205]) 2 0 2
      = { ret := SQL_NO_DATA_FOUND, pcbValue := none, writes := [], offset := 2,
          diag := none } := by
  decide

/-- C13 as stated fails: with capacity 5 the first call does not return
`SQL_SUCCESS_WITH_INFO` and does not stop after "AB" (capacity 5 has room for
(5-1)/2 = 2 source bytes, that is four hex digits); and the second call
stores nothing and does not return `SQL_SUCCESS`. -/
theorem copy_binary_result_scenario_b_as_stated :
    (copy_binary_result true 5 true (some [171, 205]) 2 0 NOT_STARTED).ret
      ≠ SQL_SUCCESS_WITH_INFO
    ∧ (copy_binary_result true 5 true (some [171, 205]) 2 0 NOT_STARTED).writes
      ≠ [(0, 65), (1, 66), (2, 0)]
    ∧ (copy_binary_result true 3 true (some [171, 205]) 2 0
        (copy_binary_result true 5 true (some [171, 205]) 2 0 NOT_STARTED).offset).ret
      ≠ SQL_SUCCESS
    ∧ (copy_binary_result true 3 true (some [171, 205]) 2 0
        (copy_binary_result true 5 true (some [171, 205]) 2 0 NOT_STARTED).offset).writes
      = [] := by
  decide

/-! ## C14 -/

theorem binary_body_never_warns (dst : Bool) (cb : Int) (pcb : Bool) (src : Option (List Nat))
    (L off : Nat) (hcb1 : 1 ≤ cb) (hcb : cb < 2147483648) :
    (binary_body dst cb pcb src L off).ret = SQL_NO_DATA_FOUND
    ∨ (binary_body dst cb pcb src L off).ret = SQL_SUCCESS := by
  unfold binary_body
  by_cases hnd : off ≠ NOT_STARTED ∧ off ≥ L
  · rw [if_pos hnd]
    exact Or.inl rfl
  · rw [if_neg hnd]
    right
    have hlen : ∀ x : Nat, toULong cb >
        ((if x < (if cb ≠ 0 then toULong (toSQLINTEGER (cb - 1)) / 2 else 0)
          then x else (if cb ≠ 0 then toULong (toSQLINTEGER (cb - 1)) / 2 else 0)) * 2)
          % 18446744073709551616 := by
      intro x
      unfold toULong toSQLINTEGER
      split_ifs <;> omega
    simp only [apply_ite ChunkResult.ret]
    rw [if_pos (hlen _)]

/-- Whatever the positive capacity, `copy_binary_result` never returns
`SQL_SUCCESS_WITH_INFO`. -/
theorem copy_binary_result_never_warns (rgb : Bool) (c : Int) (pcb : Bool)
    (src : Option (List Nat)) (sl ml off : Nat)
    (hc : CapacityOk c) (hc0 : c ≠ 0) (hml : ml + 1 < 9223372036854775808) :
    (copy_binary_result rgb c pcb src sl ml off).ret = SQL_NO_DATA_FOUND
    ∨ (copy_binary_result rgb c pcb src sl ml off).ret = SQL_SUCCESS := by
  have hb := binary_capacity_bounds c ml hc hc0 hml
  rw [copy_binary_result_eq_body]
  exact binary_body_never_warns _ _ _ _ _ _ hb.1 (by unfold CapacityOk at hc; omega)

/-- C14 (the code departs from the claim): for the value AB CD and capacity
3 on a not-started cursor, `copy_binary_result` delivers only "AB" (one of
the two source bytes, with 4 hex digits still remaining) and yet returns
`SQL_SUCCESS` without a diagnostic, where the claim requires
`SQL_SUCCESS_WITH_INFO`. -/
theorem copy_binary_result_truncation_not_reported :
    copy_binary_result true 3 true (some [171, 205]) 2 0 NOT_STARTED
      = { ret := SQL_SUCCESS, pcbValue := some 4, writes := [(0, 65), (1, 66), (2, 0)],
          offset := 1, diag := none } := by
  decide

/-! ## C11 -/

/-- With a NULL destination `copy_wchar_result` never moves the cursor
position, whatever the capacity. -/
theorem copy_wchar_result_null_destination (env : WideEnv) (fuel flag : Nat)
    (charset : CHARSET_INFO) (c : Int) (pcb : Bool) (src : Option (List Nat))
    (sl ml fl : Int) (off : Nat) :
    ∃ r, copy_wchar_result env fuel flag charset false c pcb src sl ml fl off = some r
      ∧ r.writes = [] ∧ delivered off r = 0 := by
  unfold copy_wchar_result
  simp only [ite_self, Bool.false_eq_true, if_false]
  rw [← apply_ite some]
  refine ⟨_, rfl, ?_, ?_⟩
  · simp only [apply_ite ChunkResult.writes, ite_self]
  · unfold delivered position NOT_STARTED
    simp only [apply_ite ChunkResult.offset, ite_self]
    generalize toULong _ = x
    split_ifs <;> omega

/-- C11 (the code departs from the claim): for the ASCII source "hello",
capacity 10, a NULL destination and a not-started cursor, text-mode
`copy_lresult` moves the cursor to 5 and its next call returns
`SQL_NO_DATA_FOUND`, while `copy_wchar_result` leaves the cursor at 0 and its
next call returns `SQL_SUCCESS` again.  And for "hi" with fill length 5 and
the padding flag set (`FLAG_PAD_SPACE = 512`), `copy_lresult` reports length
5 and moves the cursor to 5, while `copy_wchar_result` reports length 2 and
moves the cursor to 2. -/
theorem copy_wchar_result_differs_from_copy_lresult :
    (copy_lresult 512 (some 0) false 10 true (some (bytesOf "hello")) 5 0 0 NOT_STARTED false
        = { ret := SQL_SUCCESS, pcbValue := some 5, writes := [], offset := 5, diag := none }
      ∧ copy_wchar_result wide_env16 10 0 latin1_charset false 10 true (some (bytesOf "hello"))
          5 0 0 NOT_STARTED
        = some { ret := SQL_SUCCESS, pcbValue := some 5, writes := [], offset := 0,
                 diag := none }
      ∧ (copy_lresult 512 (some 0) false 10 true (some (bytesOf "hello")) 5 0 0 5 false).ret
        = SQL_NO_DATA_FOUND
      ∧ copy_wchar_result wide_env16 10 0 latin1_charset false 10 true (some (bytesOf "hello"))
          5 0 0 0
        = some { ret := SQL_SUCCESS, pcbValue := some 5, writes := [], offset := 0,
                 diag := none })
    ∧ (copy_lresult 512 (some 512) true 10 true (some (bytesOf "hi")) 2 0 5 NOT_STARTED false
        = { ret := SQL_SUCCESS, pcbValue := some 5,
            writes := [(0, 104), (1, 105), (2, 32), (3, 32), (4, 32), (5, 0)], offset := 5,
            diag := none }
      ∧ copy_wchar_result wide_env16 10 512 latin1_charset true 10 true (some (bytesOf "hi"))
          2 0 5 NOT_STARTED
        = some { ret := SQL_SUCCESS, pcbValue := some 2, writes := [(0, 104), (1, 105)],
                 offset := 2, diag := none }) := by
  decide

/-! ## C12 -/

/-- C12 (the code departs from the claim): on a 16-bit target with a GBK
connection, source D6 D0 D6 D0 (two two-byte characters) and capacity 4, the
slice handed to the transcoder (3 bytes) ends inside the second character.
That character is withheld (only U+4E2D and two spaces are stored), but the
cursor is advanced by the 3 UTF-8 bytes produced, past the first byte of the
withheld character; the next call starts inside it, stores a space and
returns `SQL_SUCCESS`. -/
theorem copy_wchar_result_cursor_enters_withheld_character :
    copy_and_convert 10 12 utf8_charset [214, 208, 214, 208] 3 gbk_sample_charset
      = some { ret := 3, out := [228, 184, 173], errors := 0, consumed := 2 }
    ∧ copy_wchar_result wide_env16 10 0 gbk_sample_charset true 4 true
        (some [214, 208, 214, 208]) 4 0 0 NOT_STARTED
      = some { ret := SQL_SUCCESS_WITH_INFO, pcbValue := some 4,
               writes := [(0, 20013), (1, 32), (2, 32)], offset := 3,
               diag := some MYERR_01004 }
    ∧ copy_wchar_result wide_env16 10 0 gbk_sample_charset true 4 true
        (some [214, 208, 214, 208]) 4 0 0 3
      = some { ret := SQL_SUCCESS, pcbValue := some 1, writes := [(0, 32)], offset := 3,
               diag := none } := by
  decide

/-- Running `fix_result_types` on `sample_stmt`: the explicit `SQL_C_LONG` stays, the
default of the BLOB column becomes `SQL_C_BINARY`, and the binding added for
the third column is the cleared one, with `fCType` 0. -/
theorem fix_result_types_eval_sample :
    fix_result_types true true sample_stmt
      = some { fields := sample_fields, executed := true,
               odbc_types := some [SQL_C_TINYINT, SQL_C_BINARY, SQL_C_CHAR],
               bind := some [ { fCType := SQL_C_LONG, field := some 0 },
                              { fCType := SQL_C_BINARY, field := some 1 },
                              { fCType := 0, field := some 2 } ],
               bound_columns := 3 } := by
  decide

/-- Element `j` of the second loop's result, for a loop that starts at
column `k`: the binding `bs[j]` with its default type resolved against
column `k + j`. -/
theorem fix_bind_loop_getElem? (n : Nat) (types : List Int) (bs : List BIND) (k j : Nat) :
    (fix_bind_loop n types k bs)[j]?
      = bs[j]?.map (fun b =>
          if k + j < n then
            { fCType := if b.fCType = SQL_C_DEFAULT then types.getD (k + j) 0 else b.fCType,
              field := some (k + j) }
          else b) := by
  induction bs generalizing k j with
  | nil => simp [fix_bind_loop]
  | cons b bs ih =>
    cases j with
    | zero => simp [fix_bind_loop]
    | succ j =>
      simp only [fix_bind_loop, List.getElem?_cons_succ, ih]
      have : k + 1 + j = k + (j + 1) := by omega
      rw [this]

/-- The second loop is idempotent. -/
theorem fix_bind_loop_idem (n : Nat) (types : List Int) (bs : List BIND) (k : Nat) :
    fix_bind_loop n types k (fix_bind_loop n types k bs) = fix_bind_loop n types k bs := by
  induction bs generalizing k with
  | nil => simp [fix_bind_loop]
  | cons b bs ih =>
    simp only [fix_bind_loop, ih, List.cons.injEq, and_true]
    split_ifs <;> simp_all

/-- The default C type of a column is never `SQL_C_DEFAULT`, also after the
cast to `SQLSMALLINT`. -/
theorem unireg_to_c_datatype_ne_default (field : MYSQL_FIELD) :
    unireg_to_c_datatype field ≠ SQL_C_DEFAULT
      ∧ toSQLSMALLINT (unireg_to_c_datatype field) = unireg_to_c_datatype field := by
  unfold unireg_to_c_datatype
  cases field.type <;> decide

/-- Claim C21: when the allocations succeed, `fix_result_types` returns, and
for every column `i` below the field count that has a binding, the binding's
`fCType` afterwards is the old one when that was not `SQL_C_DEFAULT`, and is
`odbc_types[i] = unireg_to_c_datatype(field i)` when it was. -/
theorem fix_result_types_resolves_default (realloc_ok : Bool) (stmt : ResultStmt)
    (bind : List BIND) (i : Nat) (b : BIND) (field : MYSQL_FIELD)
    (hbind : stmt.bind = some bind) (hcount : bind.length = stmt.bound_columns)
    (hre : stmt.bound_columns < stmt.fields.length → realloc_ok = true)
    (hf : stmt.fields[i]? = some field) (hb : bind[i]? = some b) :
    ∃ stmt1,
      fix_result_types true realloc_ok stmt = some stmt1
        ∧ stmt1.odbc_types.bind (fun types => types[i]?) = some (unireg_to_c_datatype field)
        ∧ (stmt1.bind.bind (fun bind1 => bind1[i]?)).map BIND.fCType
            = some (if b.fCType = SQL_C_DEFAULT then unireg_to_c_datatype field
                    else b.fCType) := by
  have hi : i < stmt.fields.length := by
    rcases List.getElem?_eq_some_iff.1 hf with ⟨h, _⟩
    exact h
  have hib : i < bind.length := by
    rcases List.getElem?_eq_some_iff.1 hb with ⟨h, _⟩
    exact h
  have htypes : (stmt.fields.map (fun f => toSQLSMALLINT (unireg_to_c_datatype f)))[i]?
      = some (unireg_to_c_datatype field) := by
    rw [List.getElem?_map, hf]
    simp [(unireg_to_c_datatype_ne_default field).2]
  have hgetD : (stmt.fields.map (fun f => toSQLSMALLINT (unireg_to_c_datatype f))).getD i 0
      = unireg_to_c_datatype field := by
    rw [List.getD_eq_getElem?_getD, htypes]
    rfl
  have hcase : ¬ (stmt.bound_columns < stmt.fields.length ∧ realloc_ok = false) := by
    rintro ⟨h1, h2⟩
    rw [hre h1] at h2
    cases h2
  have hb1 : (if stmt.bound_columns < stmt.fields.length then
        bind.take stmt.bound_columns
          ++ List.replicate (stmt.fields.length - stmt.bound_columns) BIND.zeroed
      else bind)[i]? = some b := by
    split_ifs
    · rw [← hcount, List.take_length, List.getElem?_append_left hib, hb]
    · exact hb
  have hrun : fix_result_types true realloc_ok stmt
      = some { stmt with
          executed := true
          odbc_types :=
            some (stmt.fields.map (fun f => toSQLSMALLINT (unireg_to_c_datatype f)))
          bind := some (fix_bind_loop stmt.fields.length
            (stmt.fields.map (fun f => toSQLSMALLINT (unireg_to_c_datatype f))) 0
            (if stmt.bound_columns < stmt.fields.length then
              bind.take stmt.bound_columns
                ++ List.replicate (stmt.fields.length - stmt.bound_columns) BIND.zeroed
            else bind))
          bound_columns := if stmt.bound_columns < stmt.fields.length then
            stmt.fields.length else stmt.bound_columns } := by
    simp only [fix_result_types, hbind, if_neg hcase, if_true]
  refine ⟨_, hrun, ?_, ?_⟩
  · exact htypes
  · simp only [Option.bind, fix_bind_loop_getElem?, hb1, Option.map_some', zero_add,
      if_pos hi, hgetD]

/-- Claim C21 at the second binding of `sample_stmt`, which asks for the
default type of a BLOB column. -/
theorem fix_result_types_resolves_default_witness :
    ∃ stmt1,
      fix_result_types true true sample_stmt = some stmt1
        ∧ stmt1.odbc_types.bind (fun types => types[1]?) = some SQL_C_BINARY
        ∧ (stmt1.bind.bind (fun bind1 => bind1[1]?)).map BIND.fCType = some SQL_C_BINARY :=
  fix_result_types_resolves_default true sample_stmt
    [ { fCType := SQL_C_LONG, field := none }, { fCType := SQL_C_DEFAULT, field := none } ]
    1 { fCType := SQL_C_DEFAULT, field := none }
    { type := MYSQL_TYPE_BLOB, length := 65535, max_length := 0, flags := 0, decimals := 0 }
    rfl (by decide) (by decide) (by decide) (by decide)

/-- Claim C22: when the allocations succeed, `fix_result_types` returns a
statement that a second run maps to itself, so every `bind[i].fCType` and
every `odbc_types[i]` after two runs is what one run produced; and
`unireg_to_c_datatype` never returns `SQL_C_DEFAULT`. -/
theorem fix_result_types_idempotent (stmt : ResultStmt) :
    (fix_result_types true true stmt).isSome = true
      ∧ (fix_result_types true true stmt).bind (fix_result_types true true)
          = fix_result_types true true stmt
      ∧ ∀ field, unireg_to_c_datatype field ≠ SQL_C_DEFAULT := by
  refine ⟨?_, ?_, fun field => (unireg_to_c_datatype_ne_default field).1⟩
  · cases hbind : stmt.bind with
    | none => simp only [fix_result_types, hbind, if_true, Option.isSome]
    | some bind =>
      by_cases hlt : stmt.bound_columns < stmt.fields.length
      · simp only [fix_result_types, hbind, hlt, if_true, true_and, Bool.true_eq_false,
          if_false, Option.isSome]
      · simp only [fix_result_types, hbind, hlt, if_true, false_and, if_false,
          Option.isSome]
  · cases hbind : stmt.bind with
    | none => simp only [fix_result_types, hbind, if_true, Option.bind]
    | some bind =>
      by_cases hlt : stmt.bound_columns < stmt.fields.length
      · simp only [fix_result_types, hbind, hlt, if_true, true_and, Bool.true_eq_false,
          if_false, Option.bind, lt_irrefl, false_and, fix_bind_loop_idem]
      · simp only [fix_result_types, hbind, hlt, if_true, false_and, if_false,
          Option.bind, fix_bind_loop_idem]

/-- Claim C23, counterexample: for a text BLOB column the binder's default
is `SQL_C_BINARY` although the exposed type `SQL_LONGVARCHAR` is in the
character family and the table gives `SQL_C_CHAR`; a binary-flagged STRING
column gets `SQL_C_CHAR` although the table gives `SQL_C_BINARY` for its
exposed type `SQL_BINARY`; a non-numeric TINY column gets `SQL_C_TINYINT`
although the table gives `SQL_C_CHAR` for its exposed type `SQL_CHAR`. -/
theorem unireg_to_c_datatype_disagrees_with_default_c_type :
    (let field : MYSQL_FIELD :=
        { type := MYSQL_TYPE_BLOB, length := 65535, max_length := 0, flags := 0,
          decimals := 0 }
      let stmt : STMT := { flag := 0, charset_mbmaxlen := some 1, odbc_ver := 3 }
      (unireg_to_sql_datatype type_env_sample stmt field false).ret = SQL_LONGVARCHAR
        ∧ default_c_type (unireg_to_sql_datatype type_env_sample stmt field false).ret
            = SQL_C_CHAR
        ∧ unireg_to_c_datatype field = SQL_C_BINARY)
      ∧ (let field : MYSQL_FIELD :=
          { type := MYSQL_TYPE_STRING, length := 16, max_length := 0, flags := 128,
            decimals := 0 }
        let stmt : STMT := { flag := 0, charset_mbmaxlen := some 1, odbc_ver := 3 }
        (unireg_to_sql_datatype type_env_sample stmt field false).ret = SQL_BINARY
          ∧ default_c_type (unireg_to_sql_datatype type_env_sample stmt field false).ret
              = SQL_C_BINARY
          ∧ unireg_to_c_datatype field = SQL_C_CHAR)
      ∧ (let field : MYSQL_FIELD :=
          { type := MYSQL_TYPE_TINY, length := 1, max_length := 0, flags := 0,
            decimals := 0 }
        let stmt : STMT := { flag := 0, charset_mbmaxlen := some 1, odbc_ver := 3 }
        (unireg_to_sql_datatype type_env_sample stmt field false).ret = SQL_CHAR
          ∧ default_c_type (unireg_to_sql_datatype type_env_sample stmt field false).ret
              = SQL_C_CHAR
          ∧ unireg_to_c_datatype field = SQL_C_TINYINT) := by
  decide

/-- Claim C23, amended: for every column descriptor that is neither a 64-bit
integer nor a GEOMETRY column, and whose flags agree with the native type
(a TINY column is numeric, a STRING column is not binary, a BLOB-family
column is binary), `unireg_to_c_datatype(field)` equals
`default_c_type(unireg_to_sql_datatype(field))`. -/
theorem unireg_to_c_datatype_agrees_with_default_c_type (env : TypeEnv) (stmt : STMT)
    (field : MYSQL_FIELD) (buff : Bool)
    (hll : field.type ≠ MYSQL_TYPE_LONGLONG) (hgeo : field.type ≠ MYSQL_TYPE_GEOMETRY)
    (htiny : field.type = MYSQL_TYPE_TINY → env.num_field field = true)
    (hstr : field.type = MYSQL_TYPE_STRING → env.binary_field field = false)
    (hblob : unireg_to_c_datatype field = SQL_C_BINARY → env.binary_field field = true) :
    unireg_to_c_datatype field
      = default_c_type (unireg_to_sql_datatype env stmt field buff).ret := by
  revert hll hgeo htiny hstr hblob
  cases ht : field.type <;> intro hll hgeo htiny hstr hblob <;>
    simp only [unireg_to_c_datatype, ht, reduceCtorEq, not_false_eq_true, not_true,
      forall_true_left, false_implies] at hll hgeo htiny hstr hblob <;>
    simp only [unireg_to_c_datatype, unireg_to_sql_datatype, ht] <;>
    first
      | decide
      | (split_ifs <;> decide)
      | (simp only [htiny, if_true]; decide)
      | (simp only [hstr, Bool.false_eq_true, if_false]; decide)
      | exact absurd rfl hll
      | exact absurd rfl hgeo

/-- Claim C23, amended, at a binary BLOB column. -/
theorem unireg_to_c_datatype_agrees_with_default_c_type_witness :
    unireg_to_c_datatype
        { type := MYSQL_TYPE_BLOB, length := 65535, max_length := 0, flags := 128,
          decimals := 0 }
      = default_c_type (unireg_to_sql_datatype type_env_sample
          { flag := 0, charset_mbmaxlen := some 1, odbc_ver := 3 }
          { type := MYSQL_TYPE_BLOB, length := 65535, max_length := 0, flags := 128,
            decimals := 0 } false).ret :=
  unireg_to_c_datatype_agrees_with_default_c_type type_env_sample _ _ false
    (by decide) (by decide) (by decide) (by decide) (by decide)

/-- Claim C25: the return value and the stored length of `copy_str_data` do
not depend on whether `rgbValue` is NULL: the warning is returned exactly
when the length is not the smaller of the length and the reduced capacity.
With a NULL destination, capacity 10 and the source "ab" the call returns
`SQL_SUCCESS` (no warning), stores 2 in `*pcbValue` and copies nothing; with
capacity 2 it returns the warning. -/
theorem copy_str_data_null_destination_warns_only_on_truncation :
    (∀ (c : Int) (pcb : Bool) (src : List Nat),
        (copy_str_data false c pcb src).ret = (copy_str_data true c pcb src).ret
          ∧ (copy_str_data false c pcb src).pcbValue = (copy_str_data true c pcb src).pcbValue)
      ∧ copy_str_data false 10 true (bytesOf "ab")
          = { ret := SQL_SUCCESS, pcbValue := some 2, writes := [] }
      ∧ copy_str_data false 2 true (bytesOf "ab")
          = { ret := SQL_SUCCESS_WITH_INFO, pcbValue := some 2, writes := [] }
      ∧ copy_str_data true 10 true (bytesOf "ab")
          = { ret := SQL_SUCCESS, pcbValue := some 2, writes := [(0, 97), (1, 98), (2, 0)] }
      ∧ copy_str_data true 2 true (bytesOf "ab")
          = { ret := SQL_SUCCESS_WITH_INFO, pcbValue := some 2, writes := [(0, 97), (1, 0)] } := by
  refine ⟨?_, by decide, by decide, by decide, by decide⟩
  intro c pcb src
  unfold copy_str_data
  split_ifs <;> exact ⟨rfl, rfl⟩

theorem binary_remaining_arith (L o : Nat) (hL : L < 4611686018427387904) (ho : o ≤ L) :
    toLong ((toULong ((L : Int) - (o : Int)) * 2 : Nat) : Int) = 2 * ((L : Int) - (o : Int)) := by
  unfold toLong toULong
  split_ifs <;> omega

theorem binary_src_length_eq (sl ml : Nat) (hml : ml + 1 < 18446744073709551616) :
    binary_src_length sl ml = if ml ≠ 0 then min sl ((ml + 1) / 2) else sl := by
  unfold binary_src_length
  rw [Nat.mod_eq_of_lt hml]
  split_ifs <;> omega

/-- Claim C28: when a `copy_binary_result` call with a non-null `pcbValue`
does not return `SQL_NO_DATA_FOUND`, then for every destination pointer and
every capacity the call stores `2 * (L - position)` in `*pcbValue`, where `L`
is the source length, clamped to `(max_length+1)/2` when `max_length` is
nonzero, and `position` is the cursor offset on entry (0 for the sentinel).
The source length is taken below 2^62, so that twice it is a `SQLLEN`. -/
theorem copy_binary_result_reports_remaining (rgb0 : Bool) (c0 : Int) (pcb0 : Bool)
    (src : Option (List Nat)) (sl ml off : Nat)
    (hsl : sl < 4611686018427387904) (hml : ml + 1 < 18446744073709551616)
    (hret : (copy_binary_result rgb0 c0 pcb0 src sl ml off).ret ≠ SQL_NO_DATA_FOUND) :
    ∀ (rgb : Bool) (c : Int),
      (copy_binary_result rgb c true src sl ml off).pcbValue
        = some (2 * (((if ml ≠ 0 then min sl ((ml + 1) / 2) else sl : Nat) : Int)
            - (position off : Int))) := by
  intro rgb c
  rw [copy_binary_result_eq_body] at hret ⊢
  rw [← binary_src_length_eq sl ml hml]
  have hL : binary_src_length sl ml < 4611686018427387904 := by
    rw [binary_src_length_eq sl ml hml]
    split_ifs <;> omega
  generalize binary_src_length sl ml = L at hret hL ⊢
  unfold binary_body at hret ⊢
  by_cases hnd : off ≠ NOT_STARTED ∧ off ≥ L
  · rw [if_pos hnd] at hret
    exact absurd rfl hret
  · rw [if_neg hnd]
    simp only [apply_ite ChunkResult.pcbValue, ite_self, if_true]
    have ho : position off ≤ L := by
      unfold position
      split_ifs with h
      · omega
      · by_contra hlt
        exact hnd ⟨h, by omega⟩
    have := binary_remaining_arith L (position off) hL ho
    unfold position at this ⊢
    rw [this]

/-- Claim C28 at a four-byte source read from offset 1: the call with
capacity 3 does not return `SQL_NO_DATA_FOUND`, and a call with a NULL
destination and capacity 100 stores 6. -/
theorem copy_binary_result_reports_remaining_witness :
    (copy_binary_result false 100 true (some [171, 205, 239, 1]) 4 0 1).pcbValue
      = some (2 * (((if (0 : Nat) ≠ 0 then min 4 ((0 + 1) / 2) else 4 : Nat) : Int)
          - (position 1 : Int))) :=
  copy_binary_result_reports_remaining true 3 true (some [171, 205, 239, 1]) 4 0 1
    (by decide) (by decide) (by decide) false 100

/-- Claim C30 (the code departs from the claim): `copy_wchar_result` stores
the converted units and the padding spaces up to the chunk length, but no
terminator unit: the statement after the padding loop sets the pointer `dst`
to 0 instead of storing through it.  For "hello" and capacity 10 the five
units are stored at 0..4 and nothing at 5, where `copy_lresult` stores the
terminator; for capacity 4 the three delivered units are stored and nothing
at 3; and with a padding flag that fits `my_bool` (`FLAG_PAD_SPACE = 1`),
"hi" with fill length 5 is stored as two units and three spaces, again
without a terminator. -/
theorem copy_wchar_result_stores_no_terminator :
    copy_wchar_result wide_env16 10 0 latin1_charset true 10 true (some (bytesOf "hello"))
        5 0 0 NOT_STARTED
      = some { ret := SQL_SUCCESS, pcbValue := some 5,
               writes := [(0, 104), (1, 101), (2, 108), (3, 108), (4, 111)], offset := 5,
               diag := none }
    ∧ copy_lresult 512 (some 0) true 10 true (some (bytesOf "hello")) 5 0 0 NOT_STARTED false
      = { ret := SQL_SUCCESS, pcbValue := some 5,
          writes := [(0, 104), (1, 101), (2, 108), (3, 108), (4, 111), (5, 0)], offset := 5,
          diag := none }
    ∧ copy_wchar_result wide_env16 10 0 latin1_charset true 4 true (some (bytesOf "hello"))
        5 0 0 NOT_STARTED
      = some { ret := SQL_SUCCESS_WITH_INFO, pcbValue := some 5,
               writes := [(0, 104), (1, 101), (2, 108)], offset := 3,
               diag := some MYERR_01004 }
    ∧ copy_wchar_result { wide_env16 with FLAG_PAD_SPACE := 1 } 10 1 latin1_charset true 10
        true (some (bytesOf "hi")) 2 0 5 NOT_STARTED
      = some { ret := SQL_SUCCESS, pcbValue := some 5,
               writes := [(0, 104), (1, 105), (2, 32), (3, 32), (4, 32)], offset := 2,
               diag := none } := by
  decide

theorem dig_vec_high (b : Nat) (hb : b < 256) :
    _dig_vec.getD (b >>> 4) 0 = hex_digit (b / 16) := by
  rw [Nat.shiftRight_eq_div_pow]
  have h : b / 2 ^ 4 < 16 := by omega
  have e : b / 16 = b / 2 ^ 4 := by norm_num
  rw [e]
  generalize b / 2 ^ 4 = x at h
  interval_cases x <;> rfl

theorem dig_vec_low (b : Nat) :
    _dig_vec.getD (b &&& 15) 0 = hex_digit (b % 16) := by
  have e : b &&& 15 = b % 16 := Nat.and_pow_two_sub_one_eq_mod b 4
  rw [e]
  have h : b % 16 < 16 := Nat.mod_lt _ (by decide)
  generalize b % 16 = x at h
  interval_cases x <;> rfl

theorem hex_digit_value_hex_digit (x : Nat) (hx : x < 16) :
    hex_digit_value (hex_digit x) = x := by
  unfold hex_digit_value hex_digit
  split_ifs <;> omega

theorem hex_decode_hex_digits (bs : List Nat) (hbs : ∀ b ∈ bs, b < 256) (tail : List Nat)
    (htail : tail.length ≤ 1) :
    hex_decode (bs.flatMap hex_digits ++ tail) = bs := by
  induction bs with
  | nil =>
    match tail, htail with
    | [], _ => rfl
    | [_], _ => rfl
  | cons b bs ih =>
    have hb : b < 256 := hbs b (List.mem_cons_self _ _)
    show hex_decode (hex_digit (b / 16) :: hex_digit (b % 16)
      :: (bs.flatMap hex_digits ++ tail)) = _
    rw [hex_decode, ih (fun x hx => hbs x (List.mem_cons_of_mem _ hx))]
    rw [hex_digit_value_hex_digit _ (by omega), hex_digit_value_hex_digit _ (by omega)]
    congr 1
    omega

theorem source_bytes_lt (src : Option (List Nat)) (start n : Nat) :
    ∀ b ∈ source_bytes src start n, b < 256 := by
  intro b hb
  unfold source_bytes at hb
  simp only [List.mem_map, List.mem_range] at hb
  obtain ⟨i, _, rfl⟩ := hb
  exact Nat.mod_lt _ (by decide)

theorem source_bytes_append (src : Option (List Nat)) (start n m : Nat) :
    source_bytes src start n ++ source_bytes src (start + n) m
      = source_bytes src start (n + m) := by
  unfold source_bytes
  rw [List.range_add, List.map_append, List.map_map]
  congr 1
  apply List.map_congr_left
  intro i _
  simp only [Function.comp, Nat.add_assoc]

theorem hexStores_fst (src : Option (List Nat)) (off n : Nat) :
    (hexStores src off n).map Prod.fst = List.range (2 * n) := by
  induction n with
  | zero => rfl
  | succ n ih =>
    unfold hexStores at ih ⊢
    rw [List.range_succ, List.flatMap_append, List.map_append, ih]
    simp only [List.flatMap_cons, List.flatMap_nil, List.append_nil, List.map_cons,
      List.map_nil]
    have e : 2 * (n + 1) = 2 * n + 1 + 1 := by omega
    rw [e, List.range_succ, List.range_succ, List.append_assoc]
    rfl

theorem hexStores_snd (src : Option (List Nat)) (off n : Nat) :
    (hexStores src off n).map Prod.snd = (source_bytes src off n).flatMap hex_digits := by
  induction n with
  | zero => rfl
  | succ n ih =>
    unfold hexStores source_bytes at ih ⊢
    rw [List.range_succ, List.flatMap_append, List.map_append, ih, List.map_append,
      List.flatMap_append]
    congr 1
    simp only [List.flatMap_cons, List.flatMap_nil, List.append_nil, List.map_cons,
      List.map_nil, hex_digits]
    rw [dig_vec_high _ (Nat.mod_lt _ (by decide)), dig_vec_low]

theorem binary_length_eq (L o : Nat) (cb : Int) (hcb1 : 1 ≤ cb) (hcb : cb < 2147483648)
    (hL : L < 4611686018427387904) (ho : o ≤ L) :
    (if toULong ((L : Int) - (o : Int))
          < (if cb ≠ 0 then toULong (toSQLINTEGER (cb - 1)) / 2 else 0)
      then toULong ((L : Int) - (o : Int))
      else (if cb ≠ 0 then toULong (toSQLINTEGER (cb - 1)) / 2 else 0))
      = min (L - o) ((cb - 1) / 2).toNat := by
  unfold toULong toSQLINTEGER
  split_ifs <;> omega

theorem binary_body_chunk (cb : Int) (pcb : Bool) (src : Option (List Nat)) (L off : Nat)
    (hcb1 : 1 ≤ cb) (hcb : cb < 2147483648) (hL : L < 4611686018427387904)
    (hnd : ¬ (off ≠ NOT_STARTED ∧ off ≥ L)) :
    (binary_body true cb pcb src L off).writes
        = hexStores src (position off) (min (L - position off) ((cb - 1) / 2).toNat)
            ++ [(2 * min (L - position off) ((cb - 1) / 2).toNat, 0)]
      ∧ (binary_body true cb pcb src L off).offset
        = position off + min (L - position off) ((cb - 1) / 2).toNat := by
  have ho : position off ≤ L := by
    unfold position
    split_ifs with h
    · omega
    · by_contra hlt
      exact hnd ⟨h, by omega⟩
  have hlen := binary_length_eq L (position off) cb hcb1 hcb hL ho
  unfold position at hlen ho ⊢
  unfold binary_body
  rw [if_neg hnd]
  simp only [apply_ite ChunkResult.writes, apply_ite ChunkResult.offset, ite_self, if_true,
    hlen]
  refine ⟨trivial, ?_⟩
  apply Nat.mod_eq_of_lt
  generalize (if off = NOT_STARTED then 0 else off) = o at ho ⊢
  omega

theorem binary_capacity_eq (c : Int) (ml : Nat) (hc : CapacityOk c)
    (hml : ml + 1 < 9223372036854775808) :
    binary_capacity c ml = if ml ≠ 0 then min c ((ml : Int) + 1) else c := by
  unfold binary_capacity toSQLINTEGER toLong CapacityOk at *
  split_ifs <;> omega

theorem binary_step_decodes (c : Int) (pcb : Bool) (src : Option (List Nat))
    (sl ml off : Nat) (hc : CapacityOk c) (hsl : sl < 4611686018427387904)
    (hml : ml + 1 < 9223372036854775808)
    (hoff : off = NOT_STARTED ∨ off ≤ binary_src_length sl ml) :
    hex_decode ((copy_binary_result true c pcb src sl ml off).writes.map Prod.snd)
        = source_bytes src (position off)
            ((copy_binary_result true c pcb src sl ml off).offset - position off)
      ∧ position off ≤ (copy_binary_result true c pcb src sl ml off).offset
      ∧ (copy_binary_result true c pcb src sl ml off).offset ≤ binary_src_length sl ml := by
  have hL : binary_src_length sl ml < 4611686018427387904 := by
    unfold binary_src_length
    split_ifs <;> omega
  rw [copy_binary_result_eq_body]
  generalize binary_src_length sl ml = L at hoff hL ⊢
  by_cases hnd : off ≠ NOT_STARTED ∧ off ≥ L
  · have hpos : position off = off := by
      unfold position
      rw [if_neg hnd.1]
    have hLe : off = L := by
      rcases hoff with h | h
      · exact absurd h hnd.1
      · omega
    unfold binary_body
    rw [if_pos hnd, hpos]
    simp only [List.map_nil, Nat.sub_self]
    exact ⟨rfl, le_refl _, by omega⟩
  · have ho : position off ≤ L := by
      unfold position
      split_ifs with h
      · omega
      · by_contra hlt
        exact hnd ⟨h, show off ≥ L by omega⟩
    by_cases hc0 : c = 0
    · subst hc0
      rw [binary_capacity_zero ml hml, if_pos rfl]
      have hw := binary_body_writes_nil 0 pcb src L off
      have hoffs : (binary_body false 0 pcb src L off).offset = position off := by
        unfold binary_body position
        rw [if_neg hnd]
        simp only [apply_ite ChunkResult.offset, ite_self, ne_eq, not_true_eq_false,
          if_false]
        unfold position at ho
        generalize (if off = NOT_STARTED then 0 else off) = o at ho ⊢
        unfold toULong
        split_ifs <;> omega
      rw [hw, hoffs]
      simp only [List.map_nil, Nat.sub_self]
      exact ⟨rfl, le_refl _, ho⟩
    · rw [if_neg hc0]
      have hcb := binary_capacity_bounds c ml hc hc0 hml
      have hc2 : c < 2147483648 := hc.2
      obtain ⟨hw, hoffs⟩ := binary_body_chunk (binary_capacity c ml) pcb src L off hcb.1
        (by omega) hL hnd
      rw [hw, hoffs]
      refine ⟨?_, by omega, by omega⟩
      rw [List.map_append, hexStores_snd, Nat.add_sub_cancel_left]
      exact hex_decode_hex_digits _ (source_bytes_lt _ _ _) _ (by simp)

theorem binary_run_decodes (src : Option (List Nat)) (sl ml : Nat)
    (hsl : sl < 4611686018427387904) (hml : ml + 1 < 9223372036854775808)
    (calls : List Call)
    (hcalls : ∀ call ∈ calls, call.rgbValue = true ∧ CapacityOk call.cbValueMax) :
    ∀ off : Nat, (off = NOT_STARTED ∨ off ≤ binary_src_length sl ml) →
      (binary_run src sl ml off calls).flatMap (fun p => hex_decode (p.2.writes.map Prod.snd))
          = source_bytes src (position off)
              (position (binary_cursor src sl ml off calls) - position off)
        ∧ position off ≤ position (binary_cursor src sl ml off calls)
        ∧ position (binary_cursor src sl ml off calls) ≤ binary_src_length sl ml := by
  have hL : binary_src_length sl ml < 4611686018427387904 := by
    unfold binary_src_length
    split_ifs <;> omega
  induction calls with
  | nil =>
    intro off hoff
    simp only [binary_run, binary_cursor, List.flatMap_nil, Nat.sub_self]
    refine ⟨rfl, le_refl _, ?_⟩
    unfold position
    split_ifs <;> omega
  | cons call cs ih =>
    intro off hoff
    obtain ⟨hrgb, hcap⟩ := hcalls call (List.mem_cons_self _ _)
    have hstep := binary_step_decodes call.cbValueMax call.pcbValue src sl ml off hcap hsl hml
      hoff
    rw [← hrgb] at hstep
    obtain ⟨h1, h2, h3⟩ := hstep
    have hpos : position (copy_binary_result call.rgbValue call.cbValueMax call.pcbValue src
        sl ml off).offset = (copy_binary_result call.rgbValue call.cbValueMax call.pcbValue
        src sl ml off).offset := by
      unfold position NOT_STARTED
      rw [if_neg (by omega)]
    obtain ⟨i1, i2, i3⟩ := ih (fun x hx => hcalls x (List.mem_cons_of_mem _ hx))
      (copy_binary_result call.rgbValue call.cbValueMax call.pcbValue src sl ml off).offset
      (Or.inr h3)
    rw [hpos] at i1 i2
    simp only [binary_run, binary_cursor, List.flatMap_cons]
    rw [h1, i1]
    refine ⟨?_, by omega, i3⟩
    have e : position off + ((copy_binary_result call.rgbValue call.cbValueMax call.pcbValue
        src sl ml off).offset - position off) = (copy_binary_result call.rgbValue
        call.cbValueMax call.pcbValue src sl ml off).offset := by omega
    have := source_bytes_append src (position off)
      ((copy_binary_result call.rgbValue call.cbValueMax call.pcbValue src sl ml off).offset
        - position off)
      (position (binary_cursor src sl ml (copy_binary_result call.rgbValue call.cbValueMax
        call.pcbValue src sl ml off).offset cs) - (copy_binary_result call.rgbValue
        call.cbValueMax call.pcbValue src sl ml off).offset)
    rw [e] at this
    rw [this]
    congr 1
    omega

/-- Claim C29, counterexample: with `max_length = 3` the capacity is clamped
to 4, so a call with caller capacity 100 on the two source bytes AB CD
delivers one byte ("AB" and the terminator), not the
`min(2, (100-1)/2) = 2` bytes of the claim. -/
theorem copy_binary_result_max_length_clamps_chunk :
    copy_binary_result true 100 true (some [171, 205]) 2 3 NOT_STARTED
      = { ret := SQL_SUCCESS, pcbValue := some 4, writes := [(0, 65), (1, 66), (2, 0)],
          offset := 1, diag := none }
    ∧ min (binary_src_length 2 3 - position NOT_STARTED) (((100 : Int) - 1) / 2).toNat = 2 := by
  decide

/-- The hex reader returns `SQL_NO_DATA_FOUND` exactly when the cursor is
started and has reached the clamped source length. -/
theorem binary_body_no_data_iff (dst : Bool) (cb : Int) (pcb : Bool)
    (src : Option (List Nat)) (L off : Nat) :
    (binary_body dst cb pcb src L off).ret = SQL_NO_DATA_FOUND
      ↔ off ≠ NOT_STARTED ∧ off ≥ L := by
  unfold binary_body
  by_cases h : off ≠ NOT_STARTED ∧ off ≥ L
  · rw [if_pos h]
    exact ⟨fun _ => h, fun _ => rfl⟩
  · rw [if_neg h]
    simp only [apply_ite ChunkResult.ret]
    constructor
    · intro hx
      split_ifs at hx
    · intro hx
      exact absurd hx h

/-- In a run of hex reader calls with non-null destinations, a call returns
`SQL_NO_DATA_FOUND` exactly when it finds the cursor at the clamped source
length, and then the cursor is at that length at the end of the run. -/
theorem binary_run_no_data (src : Option (List Nat)) (sl ml : Nat)
    (hsl : sl < 4611686018427387904) (hml : ml + 1 < 9223372036854775808)
    (calls : List Call)
    (hcalls : ∀ call ∈ calls, call.rgbValue = true ∧ CapacityOk call.cbValueMax) :
    ∀ off : Nat, (off = NOT_STARTED ∨ off ≤ binary_src_length sl ml) →
      ∀ p ∈ binary_run src sl ml off calls,
        (p.2.ret = SQL_NO_DATA_FOUND ↔ p.1 = binary_src_length sl ml)
        ∧ (p.2.ret = SQL_NO_DATA_FOUND →
            position (binary_cursor src sl ml off calls) = binary_src_length sl ml) := by
  have hL : binary_src_length sl ml < 4611686018427387904 := by
    unfold binary_src_length
    split_ifs <;> omega
  have hposL : position (binary_src_length sl ml) = binary_src_length sl ml := by
    unfold position NOT_STARTED
    rw [if_neg (by omega)]
  induction calls with
  | nil =>
    intro off _ p hp
    simp [binary_run] at hp
  | cons call cs ih =>
    intro off hoff p hp
    obtain ⟨hrgb, hcap⟩ := hcalls call (List.mem_cons_self _ _)
    have hstep := binary_step_decodes call.cbValueMax call.pcbValue src sl ml off hcap hsl hml
      hoff
    rw [← hrgb] at hstep
    obtain ⟨_, h2, h3⟩ := hstep
    have htail := binary_run_decodes src sl ml hsl hml cs
      (fun x hx => hcalls x (List.mem_cons_of_mem _ hx))
      (copy_binary_result call.rgbValue call.cbValueMax call.pcbValue src sl ml off).offset
      (Or.inr h3)
    simp only [binary_run, List.mem_cons] at hp
    rcases hp with rfl | hp
    · have hiff : (copy_binary_result call.rgbValue call.cbValueMax call.pcbValue src sl ml
          off).ret = SQL_NO_DATA_FOUND ↔ off = binary_src_length sl ml := by
        rw [copy_binary_result_eq_body, binary_body_no_data_iff]
        unfold NOT_STARTED at hoff ⊢
        constructor
        · rintro ⟨h1, h2⟩
          rcases hoff with h | h
          · exact absurd h h1
          · omega
        · intro h
          omega
      refine ⟨hiff, ?_⟩
      intro hnd
      have hoffL := hiff.1 hnd
      simp only [binary_cursor]
      have hkeep : (copy_binary_result call.rgbValue call.cbValueMax call.pcbValue src sl ml
          off).offset = binary_src_length sl ml := by
        have hpo : position off = binary_src_length sl ml := by
          rw [hoffL]
          exact hposL
        omega
      rw [hkeep, hposL] at htail
      rw [hkeep]
      omega
    · obtain ⟨i1, i2⟩ := ih (fun x hx => hcalls x (List.mem_cons_of_mem _ hx))
        (copy_binary_result call.rgbValue call.cbValueMax call.pcbValue src sl ml off).offset
        (Or.inr h3) p hp
      exact ⟨i1, fun hnd => by simpa only [binary_cursor] using i2 hnd⟩

/-- Claim C29, amended: for a `copy_binary_result` call with a non-null
destination and capacity `c >= 1` that does not return `SQL_NO_DATA_FOUND`,
let `cb` be `c` clamped to `max_length+1` when `max_length` is nonzero, `L`
the source length clamped to `(max_length+1)/2` when `max_length` is nonzero
and `n = min(L - position, (cb-1)/2)`.  The call stores at the destination
positions `0 .. 2n`, in order, the two uppercase hexadecimal digits (high
nibble first) of each of the `n` source bytes from the cursor position on,
followed by one NUL; decoding the stored digits gives these `n` bytes, and
the cursor advances by `n`.  Over any run of calls with non-null
destinations that starts with a fresh cursor, the decoded digits of all
calls together are the source bytes from 0 up to the final cursor position;
a call of the run returns `SQL_NO_DATA_FOUND` exactly when it finds the
cursor at `L`; and when a call of the run returns `SQL_NO_DATA_FOUND`, the
decoded digits of all calls together are all `L` source bytes. -/
theorem copy_binary_result_hex_output (c : Int) (pcb : Bool) (src : Option (List Nat))
    (sl ml off : Nat) (calls : List Call)
    (hc1 : 1 ≤ c) (hc : c < 2147483648) (hsl : sl < 4611686018427387904)
    (hml : ml + 1 < 9223372036854775808)
    (hret : (copy_binary_result true c pcb src sl ml off).ret ≠ SQL_NO_DATA_FOUND)
    (hcalls : ∀ call ∈ calls, call.rgbValue = true ∧ CapacityOk call.cbValueMax) :
    ((copy_binary_result true c pcb src sl ml off).writes.map Prod.fst
          = List.range (2 * min ((if ml ≠ 0 then min sl ((ml + 1) / 2) else sl) - position off)
              (((if ml ≠ 0 then min c ((ml : Int) + 1) else c) - 1) / 2).toNat + 1)
        ∧ (copy_binary_result true c pcb src sl ml off).writes.map Prod.snd
          = (source_bytes src (position off)
              (min ((if ml ≠ 0 then min sl ((ml + 1) / 2) else sl) - position off)
                (((if ml ≠ 0 then min c ((ml : Int) + 1) else c) - 1) / 2).toNat)).flatMap
              hex_digits ++ [0]
        ∧ hex_decode ((copy_binary_result true c pcb src sl ml off).writes.map Prod.snd)
          = source_bytes src (position off)
              (min ((if ml ≠ 0 then min sl ((ml + 1) / 2) else sl) - position off)
                (((if ml ≠ 0 then min c ((ml : Int) + 1) else c) - 1) / 2).toNat)
        ∧ (copy_binary_result true c pcb src sl ml off).offset
          = position off
            + min ((if ml ≠ 0 then min sl ((ml + 1) / 2) else sl) - position off)
                (((if ml ≠ 0 then min c ((ml : Int) + 1) else c) - 1) / 2).toNat)
      ∧ (binary_run src sl ml NOT_STARTED calls).flatMap
            (fun p => hex_decode (p.2.writes.map Prod.snd))
          = source_bytes src 0 (position (binary_cursor src sl ml NOT_STARTED calls))
      ∧ (∀ p ∈ binary_run src sl ml NOT_STARTED calls,
          (p.2.ret = SQL_NO_DATA_FOUND
            ↔ p.1 = (if ml ≠ 0 then min sl ((ml + 1) / 2) else sl)))
      ∧ ((∃ p ∈ binary_run src sl ml NOT_STARTED calls, p.2.ret = SQL_NO_DATA_FOUND) →
          (binary_run src sl ml NOT_STARTED calls).flatMap
              (fun p => hex_decode (p.2.writes.map Prod.snd))
            = source_bytes src 0 (if ml ≠ 0 then min sl ((ml + 1) / 2) else sl)) := by
  have hrun := (binary_run_decodes src sl ml hsl hml calls hcalls NOT_STARTED (Or.inl rfl)).1
  have hp : position NOT_STARTED = 0 := rfl
  rw [hp, Nat.sub_zero] at hrun
  have hnd := binary_run_no_data src sl ml hsl hml calls hcalls NOT_STARTED (Or.inl rfl)
  refine ⟨?_, hrun, ?_, ?_⟩
  · have hcap : CapacityOk c := ⟨by omega, hc⟩
    have hc0 : c ≠ 0 := by omega
    rw [← binary_src_length_eq sl ml (by omega), ← binary_capacity_eq c ml hcap hml]
    have hcb := binary_capacity_bounds c ml hcap hc0 hml
    have hL : binary_src_length sl ml < 4611686018427387904 := by
      unfold binary_src_length
      split_ifs <;> omega
    rw [copy_binary_result_eq_body] at hret ⊢
    rw [if_neg hc0] at hret ⊢
    have hnd : ¬ (off ≠ NOT_STARTED ∧ off ≥ binary_src_length sl ml) := by
      intro h
      apply hret
      unfold binary_body
      rw [if_pos h]
    obtain ⟨hw, hoffs⟩ := binary_body_chunk (binary_capacity c ml) pcb src
      (binary_src_length sl ml) off hcb.1 (by omega) hL hnd
    rw [hw, hoffs]
    refine ⟨?_, ?_, ?_, rfl⟩
    · rw [List.map_append, hexStores_fst, List.range_succ]
      rfl
    · rw [List.map_append, hexStores_snd]
      rfl
    · rw [List.map_append, hexStores_snd]
      exact hex_decode_hex_digits _ (source_bytes_lt _ _ _) _ (by simp)
  · rw [← binary_src_length_eq sl ml (by omega)]
    exact fun p hp => (hnd p hp).1
  · rw [← binary_src_length_eq sl ml (by omega)]
    rintro ⟨p, hp, hpnd⟩
    rw [hrun, (hnd p hp).2 hpnd]

/-- Claim C29, amended, at the source AB CD EF with capacity 3 at cursor
offset 1 (the call stores "CD" and the terminator), and at the run of four
calls with capacity 3 from a fresh cursor, the last of which returns
`SQL_NO_DATA_FOUND`. -/
theorem copy_binary_result_hex_output_witness :
    ((copy_binary_result true 3 true (some [171, 205, 239]) 3 0 1).writes.map Prod.fst
          = List.range (2 * min ((if (0 : Nat) ≠ 0 then min 3 ((0 + 1) / 2) else 3) - position 1)
              (((if (0 : Nat) ≠ 0 then min (3 : Int) (((0 : Nat) : Int) + 1) else 3) - 1)
                / 2).toNat + 1)
        ∧ (copy_binary_result true 3 true (some [171, 205, 239]) 3 0 1).writes.map Prod.snd
          = (source_bytes (some [171, 205, 239]) (position 1)
              (min ((if (0 : Nat) ≠ 0 then min 3 ((0 + 1) / 2) else 3) - position 1)
                (((if (0 : Nat) ≠ 0 then min (3 : Int) (((0 : Nat) : Int) + 1) else 3) - 1)
                  / 2).toNat)).flatMap hex_digits ++ [0]
        ∧ hex_decode ((copy_binary_result true 3 true (some [171, 205, 239]) 3 0
              1).writes.map Prod.snd)
          = source_bytes (some [171, 205, 239]) (position 1)
              (min ((if (0 : Nat) ≠ 0 then min 3 ((0 + 1) / 2) else 3) - position 1)
                (((if (0 : Nat) ≠ 0 then min (3 : Int) (((0 : Nat) : Int) + 1) else 3) - 1)
                  / 2).toNat)
        ∧ (copy_binary_result true 3 true (some [171, 205, 239]) 3 0 1).offset
          = position 1
            + min ((if (0 : Nat) ≠ 0 then min 3 ((0 + 1) / 2) else 3) - position 1)
                (((if (0 : Nat) ≠ 0 then min (3 : Int) (((0 : Nat) : Int) + 1) else 3) - 1)
                  / 2).toNat)
      ∧ (binary_run (some [171, 205, 239]) 3 0 NOT_STARTED
            [⟨true, 3, true⟩, ⟨true, 3, true⟩, ⟨true, 3, true⟩, ⟨true, 3, true⟩]).flatMap
            (fun p => hex_decode (p.2.writes.map Prod.snd))
          = source_bytes (some [171, 205, 239]) 0
              (position (binary_cursor (some [171, 205, 239]) 3 0 NOT_STARTED
                [⟨true, 3, true⟩, ⟨true, 3, true⟩, ⟨true, 3, true⟩, ⟨true, 3, true⟩]))
      ∧ (∀ p ∈ binary_run (some [171, 205, 239]) 3 0 NOT_STARTED
            [⟨true, 3, true⟩, ⟨true, 3, true⟩, ⟨true, 3, true⟩, ⟨true, 3, true⟩],
          (p.2.ret = SQL_NO_DATA_FOUND
            ↔ p.1 = (if (0 : Nat) ≠ 0 then min 3 ((0 + 1) / 2) else 3)))
      ∧ ((∃ p ∈ binary_run (some [171, 205, 239]) 3 0 NOT_STARTED
            [⟨true, 3, true⟩, ⟨true, 3, true⟩, ⟨true, 3, true⟩, ⟨true, 3, true⟩],
            p.2.ret = SQL_NO_DATA_FOUND) →
          (binary_run (some [171, 205, 239]) 3 0 NOT_STARTED
              [⟨true, 3, true⟩, ⟨true, 3, true⟩, ⟨true, 3, true⟩, ⟨true, 3, true⟩]).flatMap
              (fun p => hex_decode (p.2.writes.map Prod.snd))
            = source_bytes (some [171, 205, 239]) 0
                (if (0 : Nat) ≠ 0 then min 3 ((0 + 1) / 2) else 3)) :=
  copy_binary_result_hex_output 3 true (some [171, 205, 239]) 3 0 1
    [⟨true, 3, true⟩, ⟨true, 3, true⟩, ⟨true, 3, true⟩, ⟨true, 3, true⟩]
    (by decide) (by decide) (by decide) (by decide) (by decide) (by decide)

/-- A run of three calls with capacity 3 delivers the whole three-byte
source. -/
theorem binary_run_eval_three_chunks :
    (binary_run (some [171, 205, 239]) 3 0 NOT_STARTED
        [⟨true, 3, true⟩, ⟨true, 3, true⟩, ⟨true, 3, true⟩]).flatMap
        (fun p => hex_decode (p.2.writes.map Prod.snd)) = [171, 205, 239]
      ∧ binary_cursor (some [171, 205, 239]) 3 0 NOT_STARTED
          [⟨true, 3, true⟩, ⟨true, 3, true⟩, ⟨true, 3, true⟩] = 3 := by
  decide

/-- Sample calls of `str_to_date`: a full date, a zero month without and with
`zeroToMin`, and the digit-only forms with a four-digit and a two-digit
year. -/
theorem str_to_date_eval_examples :
    str_to_date ⟨0, 0, 0⟩ (bytesOf "2024-03-15") 0 = some (0, ⟨2024, 3, 15⟩)
      ∧ str_to_date ⟨7, 7, 7⟩ (bytesOf "2024-00-15") 0 = some (1, ⟨7, 7, 7⟩)
      ∧ str_to_date ⟨7, 7, 7⟩ (bytesOf "2024-00-00") 1 = some (0, ⟨2024, 1, 1⟩)
      ∧ str_to_date ⟨7, 7, 7⟩ (bytesOf "20240315") 0 = some (0, ⟨2024, 3, 15⟩)
      ∧ str_to_date ⟨7, 7, 7⟩ (bytesOf "240315") 0 = some (0, ⟨24, 3, 15⟩) := by
  decide

/-- Sample calls of `str_to_time_as_long`, among them a timestamp, whose date
part is skipped by the recursive call, and "12:30", of which only the first
field is returned. -/
theorem str_to_time_as_long_eval_examples :
    str_to_time_as_long (bytesOf "123056") = some 123056
      ∧ str_to_time_as_long (bytesOf "12.30.56") = some 123056
      ∧ str_to_time_as_long (bytesOf "{t 12:30:56 }") = some 123056
      ∧ str_to_time_as_long (bytesOf "1230") = some 1230
      ∧ str_to_time_as_long (bytesOf "12") = some 12
      ∧ str_to_time_as_long (bytesOf "12:30") = some 12
      ∧ str_to_time_as_long (bytesOf "2024-03-15 12:30:56") = some 123056
      ∧ str_to_time_as_long (bytesOf "") = some 0 := by
  decide

theorem isdigit_digit (d : Nat) (h : d < 10) : isdigit (48 + d) = true := by
  unfold isdigit
  simp only [decide_eq_true_eq]
  omega

theorem digit_of_digit (d : Nat) (h : d < 10) : digit_of (48 + d) = d := by
  unfold digit_of
  omega

theorem skip_nondigits_digit (d : Nat) (h : d < 10) (cs : List Nat) :
    skip_nondigits ((48 + d) :: cs) = (48 + d) :: cs := by
  rw [skip_nondigits, if_pos (isdigit_digit d h)]

theorem skip_nondigits_other (c : Nat) (h : isdigit c = false) (cs : List Nat) :
    skip_nondigits (c :: cs) = skip_nondigits cs := by
  rw [skip_nondigits, if_neg (by simp [h])]

theorem count_digits_digit (d : Nat) (h : d < 10) (cs : List Nat) :
    count_digits ((48 + d) :: cs) = count_digits cs + 1 := by
  rw [count_digits, if_pos (isdigit_digit d h)]

theorem count_digits_other (c : Nat) (h : isdigit c = false) (cs : List Nat) :
    count_digits (c :: cs) = 0 := by
  rw [count_digits, if_neg (by simp [h])]

theorem read_field_digit (fl tmp d : Nat) (h : d < 10) (cs : List Nat) :
    read_field (fl + 1) tmp ((48 + d) :: cs)
      = read_field fl ((tmp * 10 + d) % 4294967296) cs := by
  rw [read_field, if_pos ⟨isdigit_digit d h, by omega⟩, digit_of_digit d h,
    Nat.add_sub_cancel]

theorem read_field_other (fl tmp c : Nat) (h : isdigit c = false) (cs : List Nat) :
    read_field fl tmp (c :: cs) = (tmp, c :: cs) := by
  rw [read_field, if_neg (by simp [h])]

theorem date_fields_cons (k fl c : Nat) (cs : List Nat) :
    date_fields (k + 1) fl (c :: cs)
      = (read_field fl (digit_of c) cs).1
          :: date_fields k 1 (skip_nondigits (read_field fl (digit_of c) cs).2) := rfl

theorem date_fields_iso (y1 y2 y3 y4 m1 m2 d1 d2 sep1 sep2 : Nat)
    (hy1 : y1 < 10) (hy2 : y2 < 10) (hy3 : y3 < 10) (hy4 : y4 < 10)
    (hm1 : m1 < 10) (hm2 : m2 < 10) (hd1 : d1 < 10) (hd2 : d2 < 10)
    (hs1 : isdigit sep1 = false) (hs2 : isdigit sep2 = false) :
    date_fields 3 3 [48 + y1, 48 + y2, 48 + y3, 48 + y4, sep1, 48 + m1, 48 + m2, sep2,
        48 + d1, 48 + d2]
      = [1000 * y1 + 100 * y2 + 10 * y3 + y4, 10 * m1 + m2, 10 * d1 + d2] := by
  have r1 : read_field 3 y1 [48 + y2, 48 + y3, 48 + y4, sep1, 48 + m1, 48 + m2, sep2,
      48 + d1, 48 + d2]
      = (1000 * y1 + 100 * y2 + 10 * y3 + y4,
          [sep1, 48 + m1, 48 + m2, sep2, 48 + d1, 48 + d2]) := by
    refine ((read_field_digit 2 _ y2 hy2 _).trans ((read_field_digit 1 _ y3 hy3 _).trans
      ((read_field_digit 0 _ y4 hy4 _).trans (read_field_other 0 _ sep1 hs1 _)))).trans ?_
    congr 1
    omega
  have r2 : read_field 1 m1 [48 + m2, sep2, 48 + d1, 48 + d2]
      = (10 * m1 + m2, [sep2, 48 + d1, 48 + d2]) := by
    refine ((read_field_digit 0 _ m2 hm2 _).trans (read_field_other 0 _ sep2 hs2 _)).trans ?_
    congr 1
    omega
  have r3 : read_field 1 d1 [48 + d2] = (10 * d1 + d2, []) := by
    refine (read_field_digit 0 _ d2 hd2 _).trans ?_
    rw [read_field]
    congr 1
    omega
  rw [date_fields_cons 2 3, digit_of_digit _ hy1, r1]
  simp only []
  rw [skip_nondigits_other _ hs1, skip_nondigits_digit _ hm1, date_fields_cons 1 1,
    digit_of_digit _ hm1, r2]
  simp only []
  rw [skip_nondigits_other _ hs2, skip_nondigits_digit _ hd1, date_fields_cons 0 1,
    digit_of_digit _ hd1, r3]
  rfl

/-- Claim C26: for a date string `YYYY-MM-DD` (four year digits, two month
digits and two day digits, separated by '-'), `str_to_date` returns 0 and
stores (YYYY, MM, DD) when MM and DD are both nonzero; when MM or DD is zero
and `zeroToMin` is nonzero it returns 0 and stores the year with each zero
month or day replaced by 1; when MM or DD is zero and `zeroToMin` is zero it
returns 1 and leaves the output struct as it was. -/
theorem str_to_date_iso_format (rgbValue : SQL_DATE_STRUCT) (zeroToMin : Int)
    (y1 y2 y3 y4 m1 m2 d1 d2 : Nat)
    (hy1 : y1 < 10) (hy2 : y2 < 10) (hy3 : y3 < 10) (hy4 : y4 < 10)
    (hm1 : m1 < 10) (hm2 : m2 < 10) (hd1 : d1 < 10) (hd2 : d2 < 10) :
    str_to_date rgbValue
        [48 + y1, 48 + y2, 48 + y3, 48 + y4, 45, 48 + m1, 48 + m2, 45, 48 + d1, 48 + d2]
        zeroToMin
      = if 10 * m1 + m2 ≠ 0 ∧ 10 * d1 + d2 ≠ 0 then
          some (0, { year := ((1000 * y1 + 100 * y2 + 10 * y3 + y4 : Nat) : Int),
                     month := 10 * m1 + m2, day := 10 * d1 + d2 })
        else if zeroToMin ≠ 0 then
          some (0, { year := ((1000 * y1 + 100 * y2 + 10 * y3 + y4 : Nat) : Int),
                     month := if 10 * m1 + m2 = 0 then 1 else 10 * m1 + m2,
                     day := if 10 * d1 + d2 = 0 then 1 else 10 * d1 + d2 })
        else some (1, rgbValue) := by
  have hs : isdigit 45 = false := by decide
  have hfields := date_fields_iso y1 y2 y3 y4 m1 m2 d1 d2 45 45 hy1 hy2 hy3 hy4 hm1 hm2
    hd1 hd2 hs hs
  have hcount : count_digits [48 + y1, 48 + y2, 48 + y3, 48 + y4, 45, 48 + m1, 48 + m2, 45,
      48 + d1, 48 + d2] = 4 := by
    rw [count_digits_digit _ hy1, count_digits_digit _ hy2, count_digits_digit _ hy3,
      count_digits_digit _ hy4, count_digits_other _ hs]
  have hyear : toSQLSMALLINT ((1000 * y1 + 100 * y2 + 10 * y3 + y4 : Nat) : Int)
      = ((1000 * y1 + 100 * y2 + 10 * y3 + y4 : Nat) : Int) := by
    unfold toSQLSMALLINT
    split_ifs <;> omega
  have hM : (10 * m1 + m2) % 65536 = 10 * m1 + m2 := by omega
  have hD : (10 * d1 + d2) % 65536 = 10 * d1 + d2 := by omega
  have h4 : toUInt32 ((4 : Nat) : Int) = 4 := by decide
  have h41 : 4 - 1 = 3 := rfl
  simp only [str_to_date, skip_nondigits_digit _ hy1, hcount, h4, true_or, if_true, h41,
    hfields, List.length_cons,
    List.length_nil, List.getD_cons_succ, List.getD_cons_zero, hyear, hM, hD]
  by_cases hm : 10 * m1 + m2 = 0 <;> by_cases hd : 10 * d1 + d2 = 0 <;>
    by_cases hz : zeroToMin = 0 <;> simp [hm, hd, hz]

/-- Claim C26 at the string "2024-00-15" with `zeroToMin` set: the month
becomes 1. -/
theorem str_to_date_iso_format_witness :
    str_to_date ⟨7, 7, 7⟩
        [48 + 2, 48 + 0, 48 + 2, 48 + 4, 45, 48 + 0, 48 + 0, 45, 48 + 1, 48 + 5] 1
      = if 10 * 0 + 0 ≠ 0 ∧ 10 * 1 + 5 ≠ 0 then
          some (0, { year := ((1000 * 2 + 100 * 0 + 10 * 2 + 4 : Nat) : Int),
                     month := 10 * 0 + 0, day := 10 * 1 + 5 })
        else if (1 : Int) ≠ 0 then
          some (0, { year := ((1000 * 2 + 100 * 0 + 10 * 2 + 4 : Nat) : Int),
                     month := if 10 * 0 + 0 = 0 then 1 else 10 * 0 + 0,
                     day := if 10 * 1 + 5 = 0 then 1 else 10 * 1 + 5 })
        else some (1, ⟨7, 7, 7⟩) :=
  str_to_date_iso_format ⟨7, 7, 7⟩ 1 2 0 2 4 0 0 1 5 (by decide) (by decide) (by decide)
    (by decide) (by decide) (by decide) (by decide) (by decide)

theorem read_number_digit (tmp d : Nat) (h : d < 10) (cs : List Nat) :
    read_number tmp ((48 + d) :: cs) = read_number ((tmp * 10 + d) % 4294967296) cs := by
  rw [read_number, if_pos (isdigit_digit d h), digit_of_digit d h]

theorem read_number_other (tmp c : Nat) (h : isdigit c = false) (cs : List Nat) :
    read_number tmp (c :: cs) = (tmp, c :: cs) := by
  rw [read_number, if_neg (by simp [h])]

theorem time_fields_cons (k c : Nat) (cs : List Nat) :
    time_fields (k + 1) (c :: cs)
      = ((read_number (digit_of c) cs).1
            :: (time_fields k (skip_nondigits (read_number (digit_of c) cs).2)).1,
          (time_fields k (skip_nondigits (read_number (digit_of c) cs).2)).2) := rfl

/-- The fields `str_to_time_as_long` reads from three two-digit groups with
one non-digit after each of the first two and the non-digits `tail` after
the third. -/
theorem time_fields_separated (h1 h2 m1 m2 s1 s2 sep1 sep2 : Nat) (tail : List Nat)
    (hh1 : h1 < 10) (hh2 : h2 < 10) (hm1 : m1 < 10) (hm2 : m2 < 10)
    (hs1 : s1 < 10) (hs2 : s2 < 10)
    (hp1 : isdigit sep1 = false) (hp2 : isdigit sep2 = false)
    (htail : skip_nondigits tail = []) (htail0 : ∀ c ∈ tail.head?, isdigit c = false) :
    time_fields 3 ([48 + h1, 48 + h2, sep1, 48 + m1, 48 + m2, sep2, 48 + s1, 48 + s2] ++ tail)
      = ([10 * h1 + h2, 10 * m1 + m2, 10 * s1 + s2], []) := by
  have r1 : read_number h1 ([48 + h2, sep1, 48 + m1, 48 + m2, sep2, 48 + s1, 48 + s2] ++ tail)
      = (10 * h1 + h2, [sep1, 48 + m1, 48 + m2, sep2, 48 + s1, 48 + s2] ++ tail) := by
    refine ((read_number_digit _ h2 hh2 _).trans (read_number_other _ sep1 hp1 _)).trans ?_
    congr 1
    omega
  have r2 : read_number m1 ([48 + m2, sep2, 48 + s1, 48 + s2] ++ tail)
      = (10 * m1 + m2, [sep2, 48 + s1, 48 + s2] ++ tail) := by
    refine ((read_number_digit _ m2 hm2 _).trans (read_number_other _ sep2 hp2 _)).trans ?_
    congr 1
    omega
  have r3 : read_number s1 ([48 + s2] ++ tail) = (10 * s1 + s2, tail) := by
    refine (read_number_digit _ s2 hs2 _).trans ?_
    have e : (s1 * 10 + s2) % 4294967296 = 10 * s1 + s2 := by omega
    rw [e]
    cases tail with
    | nil => rfl
    | cons c cs => exact read_number_other _ c (htail0 c rfl) cs
  have t0 : ∀ l : List Nat, time_fields 0 l = ([], l) := by
    intro l
    cases l <;> rfl
  show time_fields (2 + 1) ((48 + h1) :: ([48 + h2, sep1, 48 + m1, 48 + m2, sep2, 48 + s1,
    48 + s2] ++ tail)) = _
  rw [time_fields_cons, digit_of_digit _ hh1, r1]
  show (_ :: (time_fields (1 + 1) (skip_nondigits (sep1 :: (48 + m1) :: ([48 + m2, sep2,
    48 + s1, 48 + s2] ++ tail)))).1, (time_fields (1 + 1) (skip_nondigits (sep1 :: (48 + m1)
    :: ([48 + m2, sep2, 48 + s1, 48 + s2] ++ tail)))).2) = _
  rw [skip_nondigits_other _ hp1, skip_nondigits_digit _ hm1, time_fields_cons,
    digit_of_digit _ hm1, r2]
  show (_ :: _ :: (time_fields (0 + 1) (skip_nondigits (sep2 :: (48 + s1)
    :: ([48 + s2] ++ tail)))).1, (time_fields (0 + 1) (skip_nondigits (sep2 :: (48 + s1)
    :: ([48 + s2] ++ tail)))).2) = _
  rw [skip_nondigits_other _ hp2, skip_nondigits_digit _ hs1, time_fields_cons,
    digit_of_digit _ hs1, r3]
  simp only [htail, t0]

theorem str_to_time_as_long_loop_fields (fuel : Nat) (str : List Nat) (date0 : Nat)
    (rest : List Nat) (hne : str ≠ [])
    (hf : time_fields 3 (skip_nondigits str) = (date0 :: rest, [])) :
    str_to_time_as_long_loop (fuel + 1) str
      = if date0 > 10000 ∨ (date0 :: rest).length < 3 then some date0
        else some ((date0 * 10000 + ((date0 :: rest).getD 1 0 * 100
          + (date0 :: rest).getD 2 0)) % 18446744073709551616) := by
  rw [str_to_time_as_long_loop, if_neg (by simpa using hne)]
  simp only [hf, ne_eq, not_true_eq_false, if_false]

theorem time_fields_number (c d : Nat) (cs : List Nat) (n : Nat) (hd : digit_of c = d)
    (hr : read_number d cs = (n, [])) :
    time_fields 3 (c :: cs) = ([n], []) := by
  show time_fields (2 + 1) (c :: cs) = _
  rw [time_fields_cons, hd, hr]
  rfl

/-- What `str_to_time_as_long` returns for the formats of its comment, for
all digits: "HHMMSS", "HH.MM.SS" and "{t HH:MM:SS }" give
`HH*10000 + MM*100 + SS`; the digit strings "HHMM" and "HH" are returned as
the number they spell, `HH*100 + MM` and `HH`. -/
theorem str_to_time_as_long_formats (h1 h2 m1 m2 s1 s2 : Nat)
    (hh1 : h1 < 10) (hh2 : h2 < 10) (hm1 : m1 < 10) (hm2 : m2 < 10)
    (hs1 : s1 < 10) (hs2 : s2 < 10) :
    str_to_time_as_long [48 + h1, 48 + h2, 48 + m1, 48 + m2, 48 + s1, 48 + s2]
        = some ((10 * h1 + h2) * 10000 + (10 * m1 + m2) * 100 + (10 * s1 + s2))
      ∧ str_to_time_as_long [48 + h1, 48 + h2, 46, 48 + m1, 48 + m2, 46, 48 + s1, 48 + s2]
        = some ((10 * h1 + h2) * 10000 + (10 * m1 + m2) * 100 + (10 * s1 + s2))
      ∧ str_to_time_as_long [123, 116, 32, 48 + h1, 48 + h2, 58, 48 + m1, 48 + m2, 58,
          48 + s1, 48 + s2, 32, 125]
        = some ((10 * h1 + h2) * 10000 + (10 * m1 + m2) * 100 + (10 * s1 + s2))
      ∧ str_to_time_as_long [48 + h1, 48 + h2, 48 + m1, 48 + m2]
        = some ((10 * h1 + h2) * 100 + (10 * m1 + m2))
      ∧ str_to_time_as_long [48 + h1, 48 + h2] = some (10 * h1 + h2) := by
  have hdot : isdigit 46 = false := by decide
  have hcolon : isdigit 58 = false := by decide
  have hfinal : ∀ H M S : Nat, H < 100 → M < 100 → S < 100 →
      (if H > 10000 ∨ [H, M, S].length < 3 then some H
        else some ((H * 10000 + ([H, M, S].getD 1 0 * 100 + [H, M, S].getD 2 0))
          % 18446744073709551616)) = some (H * 10000 + M * 100 + S) := by
    intro H M S hH hM hS
    rw [if_neg (by simp; omega)]
    simp only [List.getD_cons_succ, List.getD_cons_zero]
    congr 1
    omega
  have hone : ∀ N : Nat, (if N > 10000 ∨ [N].length < 3 then some N
        else some ((N * 10000 + ([N].getD 1 0 * 100 + [N].getD 2 0))
          % 18446744073709551616)) = some N := by
    intro N
    rw [if_pos (Or.inr (by simp))]
  refine ⟨?_, ?_, ?_, ?_, ?_⟩
  · have r : read_number h1 [48 + h2, 48 + m1, 48 + m2, 48 + s1, 48 + s2]
        = ((10 * h1 + h2) * 10000 + (10 * m1 + m2) * 100 + (10 * s1 + s2), []) := by
      refine ((read_number_digit _ h2 hh2 _).trans ((read_number_digit _ m1 hm1 _).trans
        ((read_number_digit _ m2 hm2 _).trans ((read_number_digit _ s1 hs1 _).trans
          (read_number_digit _ s2 hs2 _))))).trans ?_
      rw [read_number]
      congr 1
      omega
    have hf := time_fields_number (48 + h1) h1 _ _ (digit_of_digit h1 hh1) r
    rw [← skip_nondigits_digit h1 hh1] at hf
    exact (str_to_time_as_long_loop_fields _ _ _ _ (List.cons_ne_nil _ _) hf).trans (hone _)
  · have hf := time_fields_separated h1 h2 m1 m2 s1 s2 46 46 [] hh1 hh2 hm1 hm2 hs1 hs2
      hdot hdot rfl (by simp)
    rw [List.append_nil, ← skip_nondigits_digit h1 hh1] at hf
    exact (str_to_time_as_long_loop_fields _ _ _ _ (List.cons_ne_nil _ _) hf).trans
      (hfinal _ _ _ (by omega) (by omega) (by omega))
  · have hf := time_fields_separated h1 h2 m1 m2 s1 s2 58 58 [32, 125] hh1 hh2 hm1 hm2 hs1
      hs2 hcolon hcolon (by decide) (by decide)
    have hskip : skip_nondigits [123, 116, 32, 48 + h1, 48 + h2, 58, 48 + m1, 48 + m2, 58,
        48 + s1, 48 + s2, 32, 125]
        = [48 + h1, 48 + h2, 58, 48 + m1, 48 + m2, 58, 48 + s1, 48 + s2] ++ [32, 125] := by
      rw [skip_nondigits_other _ (by decide), skip_nondigits_other _ (by decide),
        skip_nondigits_other _ (by decide), skip_nondigits_digit _ hh1]
      rfl
    rw [← hskip] at hf
    exact (str_to_time_as_long_loop_fields _ _ _ _ (List.cons_ne_nil _ _) hf).trans
      (hfinal _ _ _ (by omega) (by omega) (by omega))
  · have r : read_number h1 [48 + h2, 48 + m1, 48 + m2]
        = ((10 * h1 + h2) * 100 + (10 * m1 + m2), []) := by
      refine ((read_number_digit _ h2 hh2 _).trans ((read_number_digit _ m1 hm1 _).trans
        (read_number_digit _ m2 hm2 _))).trans ?_
      rw [read_number]
      congr 1
      omega
    have hf := time_fields_number (48 + h1) h1 _ _ (digit_of_digit h1 hh1) r
    rw [← skip_nondigits_digit h1 hh1] at hf
    exact (str_to_time_as_long_loop_fields _ _ _ _ (List.cons_ne_nil _ _) hf).trans (hone _)
  · have r : read_number h1 [48 + h2] = (10 * h1 + h2, []) := by
      refine (read_number_digit _ h2 hh2 _).trans ?_
      rw [read_number]
      congr 1
      omega
    have hf := time_fields_number (48 + h1) h1 _ _ (digit_of_digit h1 hh1) r
    rw [← skip_nondigits_digit h1 hh1] at hf
    exact (str_to_time_as_long_loop_fields _ _ _ _ (List.cons_ne_nil _ _) hf).trans (hone _)

/-- Claim C27 (the code departs from the claim): for a digit string of fewer
than three fields `str_to_time_as_long` returns the number the digits spell.
"1230" in the format HHMM gives 1230, not 12*10000 + 30*100 = 123000, and
"12" in the format HH gives 12, not 120000; "123056", "12.30.56" and
"{t 12:30:56 }" give 123056. -/
theorem str_to_time_as_long_short_digit_strings :
    str_to_time_as_long (bytesOf "1230") = some 1230
      ∧ str_to_time_as_long (bytesOf "12") = some 12
      ∧ str_to_time_as_long (bytesOf "123056") = some 123056
      ∧ str_to_time_as_long (bytesOf "12.30.56") = some 123056
      ∧ str_to_time_as_long (bytesOf "{t 12:30:56 }") = some 123056 := by
  decide

/-- The loop of `copy_and_convert` on a source that continues, after the
bytes `pre` already passed, with the encodings of the code points `cps`:
with enough fuel and room it passes all of them, appends their encodings in
the target character set and counts no error. -/
theorem copy_and_convert_loop_encoded (F T : CHARSET_INFO) (encF encT : Nat → List Nat)
    (to_length : Nat) (hend : (F.mb_wc []).1 ≤ MY_CS_TOOSMALL) :
    ∀ (cps : List Nat) (pre : List Nat) (st : ConvState) (fuel : Nat),
      (∀ wc ∈ cps, Encodes F wc (encF wc) ∧ Encodes T wc (encT wc)) →
      cps.length < fuel → st.consumed = pre.length →
      st.out.length + (cps.flatMap encT).length ≤ to_length →
      copy_and_convert_loop to_length T (pre ++ cps.flatMap encF) F fuel st
        = some { consumed := pre.length + (cps.flatMap encF).length,
                 out := st.out ++ cps.flatMap encT,
                 error_count := st.error_count } := by
  intro cps
  induction cps with
  | nil =>
    intro pre st fuel _ hfuel hcons _
    obtain ⟨f, rfl⟩ : ∃ f, fuel = f + 1 := ⟨fuel - 1, by
      simp only [List.length_nil] at hfuel
      omega⟩
    have hdrop : pre.drop st.consumed = [] := by
      rw [hcons]
      exact List.drop_length pre
    have h1 : ¬ (F.mb_wc []).1 > 0 := by
      unfold MY_CS_TOOSMALL at hend
      omega
    have h2 : ¬ (F.mb_wc []).1 = MY_CS_ILSEQ := by
      unfold MY_CS_TOOSMALL at hend
      unfold MY_CS_ILSEQ
      omega
    have h3 : ¬ (F.mb_wc []).1 > MY_CS_TOOSMALL := by omega
    simp only [List.flatMap_nil, List.append_nil, List.length_nil, Nat.add_zero]
    rw [copy_and_convert_loop]
    simp only [hdrop, h1, h2, h3, if_false, ← hcons]
  | cons wc cps ih =>
    intro pre st fuel henc hfuel hcons hroom
    obtain ⟨f, rfl⟩ : ∃ f, fuel = f + 1 := ⟨fuel - 1, by
      simp only [List.length_cons] at hfuel
      omega⟩
    obtain ⟨⟨hFne, _, hFdec⟩, ⟨hTne, hTenc, _⟩⟩ := henc wc (List.mem_cons_self _ _)
    have hFlen : 0 < (encF wc).length := List.length_pos.2 hFne
    have hTlen : 0 < (encT wc).length := List.length_pos.2 hTne
    have hdrop : (pre ++ (wc :: cps).flatMap encF).drop st.consumed
        = encF wc ++ cps.flatMap encF := by
      rw [hcons, List.drop_left, List.flatMap_cons]
    have hroom2 : ((encT wc).length : Int) ≤ (to_length : Int) - (st.out.length : Int) := by
      simp only [List.flatMap_cons, List.length_append] at hroom
      omega
    have hih := ih (pre ++ encF wc)
      { consumed := st.consumed + ((encF wc).length : Int).toNat, out := st.out ++ encT wc,
        error_count := st.error_count } f
      (fun x hx => henc x (List.mem_cons_of_mem _ hx))
      (by
        simp only [List.length_cons] at hfuel
        omega)
      (by
        simp only [List.length_append, hcons, Int.toNat_ofNat])
      (by
        simp only [List.flatMap_cons, List.length_append] at hroom ⊢
        omega)
    rw [copy_and_convert_loop]
    simp only [hdrop, hFdec, hTenc _ hroom2, WcMb.cnvres, WcMb.bytes, Nat.cast_pos, hFlen,
      hTlen, if_true]
    rw [List.flatMap_cons, ← List.append_assoc, hih]
    simp only [List.flatMap_cons, List.length_append, List.append_assoc, Nat.add_assoc]

/-- The single-byte example character set satisfies the codec contract for
every code point below 256. -/
theorem latin1_charset_encodes (wc : Nat) (h : wc < 256) :
    Encodes latin1_charset wc [wc] := by
  refine ⟨by simp, ?_, fun rest => rfl⟩
  intro room hroom
  simp only [List.length_singleton, Nat.cast_one] at hroom
  simp only [latin1_charset]
  rw [if_neg (by omega), if_pos h]

/-- The UTF-8 example character set satisfies the codec contract for 'A'
(one byte) and for U+00E9 (two bytes). -/
theorem utf8_charset_encodes_samples :
    Encodes utf8_charset 65 [65] ∧ Encodes utf8_charset 233 [195, 169] := by
  refine ⟨⟨by simp, ?_, fun rest => rfl⟩, ⟨by simp, ?_, fun rest => rfl⟩⟩
  · intro room hroom
    simp only [List.length_singleton, Nat.cast_one] at hroom
    simp only [utf8_charset]
    rw [if_neg (by omega), if_pos (by decide)]
  · intro room hroom
    simp only [List.length_cons, List.length_nil, Nat.cast_ofNat] at hroom
    simp only [utf8_charset]
    rw [if_neg (by omega), if_neg (by decide), if_pos (by decide), if_neg (by omega)]
    rfl

/-- Claim C24: let every code point of `cps` have an encoding in the
character set `A` (`encA`) and in the UTF-8 character set `U` (`encU`) for
which the codec contract holds (the decoder inverts the encoder), and let
both decoders report "not enough bytes" at the end of the input.  Then
`copy_and_convert` from `A` to `U` on the `A` bytes of `cps`, with enough
fuel and destination capacity, returns the `U` bytes with error count 0, and
`copy_and_convert` from `U` to `A` on that output (with the returned length)
returns the original bytes with error count 0. -/
theorem copy_and_convert_round_trip (A U : CHARSET_INFO) (encA encU : Nat → List Nat)
    (cps : List Nat) (fuel to1 to2 : Nat)
    (henc : ∀ wc ∈ cps, Encodes A wc (encA wc) ∧ Encodes U wc (encU wc))
    (hendA : (A.mb_wc []).1 ≤ MY_CS_TOOSMALL) (hendU : (U.mb_wc []).1 ≤ MY_CS_TOOSMALL)
    (hfuel : cps.length < fuel)
    (hto1 : (cps.flatMap encU).length ≤ to1) (hto2 : (cps.flatMap encA).length ≤ to2)
    (hlen : (cps.flatMap encU).length < 4294967296) :
    ∃ r1 r2,
      copy_and_convert fuel to1 U (cps.flatMap encA) (cps.flatMap encA).length A = some r1
        ∧ r1.out = cps.flatMap encU ∧ r1.ret = (cps.flatMap encU).length ∧ r1.errors = 0
        ∧ copy_and_convert fuel to2 A r1.out r1.ret U = some r2
        ∧ r2.out = cps.flatMap encA ∧ r2.errors = 0 := by
  have h1 := copy_and_convert_loop_encoded A U encA encU to1 hendA cps []
    { consumed := 0, out := [], error_count := 0 } fuel henc hfuel rfl
    (by simpa using hto1)
  have h2 := copy_and_convert_loop_encoded U A encU encA to2 hendU cps []
    { consumed := 0, out := [], error_count := 0 } fuel (fun wc h => (henc wc h).symm) hfuel
    rfl (by simpa using hto2)
  simp only [List.nil_append, List.length_nil, Nat.zero_add] at h1 h2
  have hret : toUInt32 (((cps.flatMap encU).length : Nat) : Int) = (cps.flatMap encU).length := by
    unfold toUInt32
    omega
  have hrun1 : copy_and_convert fuel to1 U (cps.flatMap encA) (cps.flatMap encA).length A
      = some { ret := (cps.flatMap encU).length, out := cps.flatMap encU, errors := 0,
               consumed := (cps.flatMap encA).length } := by
    simp only [copy_and_convert, List.take_length, h1, hret]
    rfl
  have hrun2 : copy_and_convert fuel to2 A (cps.flatMap encU) (cps.flatMap encU).length U
      = some { ret := toUInt32 (((cps.flatMap encA).length : Nat) : Int),
               out := cps.flatMap encA, errors := 0,
               consumed := (cps.flatMap encU).length } := by
    simp only [copy_and_convert, List.take_length, h2]
    rfl
  exact ⟨_, _, hrun1, rfl, rfl, rfl, hrun2, rfl, rfl⟩

/-- Claim C24 for the text "Aé" between the single-byte example character
set (bytes 41 E9) and the UTF-8 example character set (bytes 41 C3 A9). -/
theorem copy_and_convert_round_trip_witness :
    ∃ r1 r2,
      copy_and_convert 5 10 utf8_charset
          ([65, 233].flatMap (fun wc => [wc]))
          ([65, 233].flatMap (fun wc => [wc])).length latin1_charset = some r1
        ∧ r1.out = [65, 233].flatMap (fun wc => (utf8_charset.wc_mb wc 3).bytes)
        ∧ r1.ret = ([65, 233].flatMap (fun wc => (utf8_charset.wc_mb wc 3).bytes)).length
        ∧ r1.errors = 0
        ∧ copy_and_convert 5 10 latin1_charset r1.out r1.ret utf8_charset = some r2
        ∧ r2.out = [65, 233].flatMap (fun wc => [wc]) ∧ r2.errors = 0 :=
  copy_and_convert_round_trip latin1_charset utf8_charset (fun wc => [wc])
    (fun wc => (utf8_charset.wc_mb wc 3).bytes) [65, 233] 5 10 10
    (by
      intro wc h
      simp only [List.mem_cons, List.mem_singleton, List.not_mem_nil, or_false] at h
      rcases h with rfl | rfl
      · exact ⟨latin1_charset_encodes 65 (by decide), utf8_charset_encodes_samples.1⟩
      · exact ⟨latin1_charset_encodes 233 (by decide), utf8_charset_encodes_samples.2⟩)
    (by decide) (by decide) (by decide) (by decide) (by decide) (by decide)

/-- The round trip of the previous example, evaluated. -/
theorem copy_and_convert_eval_round_trip :
    copy_and_convert 5 10 utf8_charset [65, 233] 2 latin1_charset
        = some { ret := 3, out := [65, 195, 169], errors := 0, consumed := 2 }
      ∧ copy_and_convert 5 10 latin1_charset [65, 195, 169] 3 utf8_charset
        = some { ret := 2, out := [65, 233], errors := 0, consumed := 3 } := by
  decide

/-- Sample conversions with substitutions.  From UTF-8 to the single-byte
set: the stray byte FF is an illegal sequence and U+4E2D (E4 B8 AD) has no
single-byte encoding, so the output is "A??" with two errors.  From the
sample GBK set: the pair 81 40 is a valid sequence without a code point and
passes two bytes.  To the letters-only set: 'A' is written, '1' cannot be
represented and neither can '?', so the conversion stops with one error and
the source position after '1'. -/
theorem copy_and_convert_eval_substitutions :
    copy_and_convert 10 10 latin1_charset [65, 255, 228, 184, 173] 5 utf8_charset
        = some { ret := 3, out := [65, 63, 63], errors := 2, consumed := 5 }
      ∧ conversion_passes 10 latin1_charset [65, 255, 228, 184, 173] utf8_charset 10 0 0
        = some [ { advance := 1, undecodable := false, retried := false, written := [65] },
                 { advance := 1, undecodable := true, retried := false, written := [63] },
                 { advance := 3, undecodable := false, retried := true, written := [63] } ]
      ∧ copy_and_convert 10 10 latin1_charset [129, 64, 65] 3 gbk_sample_charset
        = some { ret := 2, out := [63, 65], errors := 1, consumed := 3 }
      ∧ conversion_passes 10 latin1_charset [129, 64, 65] gbk_sample_charset 10 0 0
        = some [ { advance := 2, undecodable := true, retried := false, written := [63] },
                 { advance := 1, undecodable := false, retried := false, written := [65] } ]
      ∧ copy_and_convert 10 10 letters_charset [65, 49, 66] 3 latin1_charset
        = some { ret := 1, out := [65], errors := 1, consumed := 2 }
      ∧ conversion_passes 10 letters_charset [65, 49, 66] latin1_charset 10 0 0
        = some [ { advance := 1, undecodable := false, retried := false, written := [65] },
                 { advance := 1, undecodable := false, retried := true, written := [] } ] := by
  decide

/-- The loop of `copy_and_convert` computes the summary of the passes the
specification describes: from any state the final source position, output
and error count are the state's values plus the bytes passed, the bytes
written and the number of substitutions of the passes; and the loop runs out
of fuel exactly when the passes do. -/
theorem copy_and_convert_loop_eq_passes (to_length : Nat) (to_cs : CHARSET_INFO)
    (src : List Nat) (from_cs : CHARSET_INFO) :
    ∀ (fuel : Nat) (st : ConvState),
      copy_and_convert_loop to_length to_cs src from_cs fuel st
        = (conversion_passes to_length to_cs src from_cs fuel st.consumed st.out.length).map
            (fun ps => { consumed := st.consumed + advanced ps,
                         out := st.out ++ written ps,
                         error_count := st.error_count + substitution_count ps }) := by
  intro fuel
  induction fuel with
  | zero =>
    intro st
    rfl
  | succ fuel ih =>
    intro st
    rw [copy_and_convert_loop, conversion_passes]
    generalize hd : from_cs.mb_wc (src.drop st.consumed) = d
    obtain ⟨cnvres, wc0⟩ := d
    simp only []
    by_cases hsmall : cnvres ≤ MY_CS_TOOSMALL
    · have h1 : ¬ cnvres > 0 := by
        unfold MY_CS_TOOSMALL at hsmall
        omega
      have h2 : ¬ cnvres = MY_CS_ILSEQ := by
        unfold MY_CS_TOOSMALL at hsmall
        unfold MY_CS_ILSEQ
        omega
      have h3 : ¬ cnvres > MY_CS_TOOSMALL := by omega
      simp only [h1, h2, h3, hsmall, if_false, if_true, Option.map_some', advanced, written,
        substitution_count, List.map_nil, List.sum_nil, List.flatMap_nil, Nat.add_zero,
        List.append_nil]
    · have hdec : (if cnvres > 0 then
            some (st.consumed + cnvres.toNat, wc0, st.error_count)
          else if cnvres = MY_CS_ILSEQ then some (st.consumed + 1, 63, st.error_count + 1)
          else if cnvres > MY_CS_TOOSMALL then
            some (st.consumed + (-cnvres).toNat, 63, st.error_count + 1)
          else none)
          = some (st.consumed + (if cnvres = MY_CS_ILSEQ then 1 else cnvres.natAbs),
              (if decide (cnvres ≤ 0) = true then 63 else wc0),
              st.error_count + (if decide (cnvres ≤ 0) = true then 1 else 0)) := by
        unfold MY_CS_ILSEQ
        unfold MY_CS_TOOSMALL at hsmall ⊢
        by_cases hpos : cnvres > 0
        · have e : cnvres.toNat = cnvres.natAbs := by omega
          rw [if_pos hpos, if_neg (by omega), e]
          simp only [decide_eq_true_eq, if_neg (show ¬ cnvres ≤ 0 by omega), Nat.add_zero]
        · by_cases hz : cnvres = 0
          · rw [if_neg hpos, if_pos hz, if_pos hz]
            simp only [decide_eq_true_eq, if_pos (show cnvres ≤ 0 by omega)]
          · have e : (-cnvres).toNat = cnvres.natAbs := by omega
            rw [if_neg hpos, if_neg hz, if_pos (by omega), if_neg hz, e]
            simp only [decide_eq_true_eq, if_pos (show cnvres ≤ 0 by omega)]
      rw [hdec, if_neg hsmall]
      simp only []
      generalize (if cnvres = MY_CS_ILSEQ then 1 else cnvres.natAbs) = adv
      generalize decide (cnvres ≤ 0) = und
      generalize (if und = true then 63 else wc0) = wc
      generalize to_cs.wc_mb wc ((to_length : Int) - (st.out.length : Int)) = r1
      generalize to_cs.wc_mb 63 ((to_length : Int) - (st.out.length : Int)) = r2
      cases und <;> simp only [Bool.false_eq_true, if_false, if_true, Nat.add_zero] <;>
        split_ifs <;>
        first
          | (rw [ih]
             simp only [List.length_append, Option.map_map]
             congr 1
             funext ps
             simp [Function.comp, advanced, written, substitution_count,
               ConvPass.substitutions, Nat.add_assoc])
          | simp [advanced, written, substitution_count, ConvPass.substitutions,
              Nat.add_assoc]

/-- In every pass the specification describes, at least one source byte is
passed and at most one '?' is substituted; and there are at most `fuel`
passes. -/
theorem conversion_passes_facts (to_length : Nat) (to_cs : CHARSET_INFO)
    (src : List Nat) (from_cs : CHARSET_INFO) :
    ∀ (fuel pos produced : Nat) (ps : List ConvPass),
      conversion_passes to_length to_cs src from_cs fuel pos produced = some ps →
      (∀ p ∈ ps, 1 ≤ p.advance ∧ p.substitutions ≤ 1) ∧ ps.length ≤ fuel := by
  intro fuel
  induction fuel with
  | zero =>
    intro pos produced ps h
    simp [conversion_passes] at h
  | succ fuel ih =>
    intro pos produced ps h
    rw [conversion_passes] at h
    generalize hd : from_cs.mb_wc (src.drop pos) = d at h
    obtain ⟨reported, wc0⟩ := d
    simp only [] at h
    by_cases hsmall : reported ≤ MY_CS_TOOSMALL
    · rw [if_pos hsmall] at h
      cases h
      simp
    · rw [if_neg hsmall] at h
      have hadv : 1 ≤ (if reported = MY_CS_ILSEQ then 1 else reported.natAbs) := by
        unfold MY_CS_ILSEQ
        split_ifs <;> omega
      have htrue : (if decide (reported ≤ 0) = true then 63 else wc0) ≠ 63 →
          ((true : Bool) = true → decide (reported ≤ 0) = false) := by
        intro hne _
        by_contra hx
        simp only [Bool.not_eq_false] at hx
        rw [hx] at hne
        exact hne rfl
      generalize (if reported = MY_CS_ILSEQ then 1 else reported.natAbs) = adv at h hadv
      generalize (if decide (reported ≤ 0) = true then 63 else wc0) = wc at h htrue
      generalize decide (reported ≤ 0) = und at h htrue
      have hone : ∀ p : ConvPass, p.advance = adv → p.undecodable = und →
          (p.retried = true → und = false) → 1 ≤ p.advance ∧ p.substitutions ≤ 1 := by
        intro p hp hu hr
        refine ⟨by rw [hp]; exact hadv, ?_⟩
        unfold ConvPass.substitutions
        cases hret : p.retried
        · simp only [Bool.false_eq_true, if_false, Nat.add_zero]
          split_ifs <;> omega
        · rw [hu, hr hret]
          simp
      have hfalse : ((false : Bool) = true → und = false) := by
        intro hx
        cases hx
      split_ifs at h with h1 h2 h3
      · obtain ⟨ps1, hps1, rfl⟩ := Option.map_eq_some'.1 h
        obtain ⟨i1, i2⟩ := ih _ _ _ hps1
        refine ⟨?_, by simp only [List.length_cons]; omega⟩
        intro p hp
        rcases List.mem_cons.1 hp with rfl | hp
        · exact hone _ rfl rfl hfalse
        · exact i1 p hp
      · obtain ⟨ps1, hps1, rfl⟩ := Option.map_eq_some'.1 h
        obtain ⟨i1, i2⟩ := ih _ _ _ hps1
        refine ⟨?_, by simp only [List.length_cons]; omega⟩
        intro p hp
        rcases List.mem_cons.1 hp with rfl | hp
        · exact hone _ rfl rfl (htrue h2.2)
        · exact i1 p hp
      · cases h
        refine ⟨?_, by simp⟩
        intro p hp
        rw [List.mem_singleton.1 hp]
        exact hone _ rfl rfl (htrue h2.2)
      · cases h
        refine ⟨?_, by simp⟩
        intro p hp
        rw [List.mem_singleton.1 hp]
        exact hone _ rfl rfl hfalse

/-- Claim C31: for every input, capacity, pair of codecs and amount of fuel,
`copy_and_convert` returns exactly the summary of the passes the
specification describes (and runs out of fuel exactly when they do): the
bytes written, the source bytes passed, and in `*errors` the number of '?'
substitutions of these passes as an `unsigned int`, one for each illegal
sequence (which passes one byte), one for each valid sequence without a code
point (which passes the length the decoder reported) and one for each code
point other than '?' that the encoder could not represent; the last pass is
counted also when its retry of '?' failed. -/
theorem copy_and_convert_errors_count_substitutions (fuel to_length : Nat)
    (to_cs : CHARSET_INFO) (src : List Nat) (from_length : Nat) (from_cs : CHARSET_INFO) :
    copy_and_convert fuel to_length to_cs src from_length from_cs
      = (conversion_passes to_length to_cs (src.take from_length) from_cs fuel 0 0).map
          (fun ps => { ret := toUInt32 (written ps).length, out := written ps,
                       errors := toUInt32 (substitution_count ps),
                       consumed := advanced ps }) := by
  have h := copy_and_convert_loop_eq_passes to_length to_cs (src.take from_length) from_cs
    fuel { consumed := 0, out := [], error_count := 0 }
  simp only [List.length_nil, List.nil_append, Nat.zero_add] at h
  unfold copy_and_convert
  rw [h]
  generalize conversion_passes to_length to_cs (src.take from_length) from_cs fuel 0 0 = o
  cases o <;> rfl

/-- With a decoder that reports "input too short" at the end of the input
and an encoder that stays inside the room it is given, the passes end within
the fuel whenever the fuel exceeds the source bytes left, what they write
fits the capacity, and there are at most as many passes as source bytes
left. -/
theorem conversion_passes_terminate (to_length : Nat) (to_cs : CHARSET_INFO)
    (src : List Nat) (from_cs : CHARSET_INFO)
    (hdec : (from_cs.mb_wc []).1 ≤ MY_CS_TOOSMALL)
    (henc : ∀ (wc : Nat) (room : Int), 0 ≤ room →
      ((to_cs.wc_mb wc room).bytes.length : Int) ≤ room) :
    ∀ (fuel pos produced : Nat), src.length - pos < fuel → produced ≤ to_length →
      ∃ ps, conversion_passes to_length to_cs src from_cs fuel pos produced = some ps
        ∧ produced + (written ps).length ≤ to_length
        ∧ ps.length ≤ src.length - pos := by
  intro fuel
  induction fuel with
  | zero =>
    intro pos produced h _
    omega
  | succ fuel ih =>
    intro pos produced hfuel hprod
    rw [conversion_passes]
    by_cases hpos : src.length ≤ pos
    · rw [List.drop_of_length_le hpos]
      simp only [hdec, if_true]
      exact ⟨[], rfl, by simpa [written] using hprod, Nat.zero_le _⟩
    · generalize hd : from_cs.mb_wc (src.drop pos) = d
      obtain ⟨reported, wc0⟩ := d
      simp only []
      by_cases hsmall : reported ≤ MY_CS_TOOSMALL
      · rw [if_pos hsmall]
        exact ⟨[], rfl, by simpa [written] using hprod, Nat.zero_le _⟩
      · rw [if_neg hsmall]
        have hadv : 1 ≤ (if reported = MY_CS_ILSEQ then 1 else reported.natAbs) := by
          unfold MY_CS_ILSEQ
          split_ifs <;> omega
        have hroom : (0 : Int) ≤ (to_length : Int) - (produced : Int) := by omega
        generalize (if reported = MY_CS_ILSEQ then 1 else reported.natAbs) = adv at hadv ⊢
        generalize (if decide (reported ≤ 0) = true then 63 else wc0) = wc
        have hb1 := henc wc _ hroom
        have hb2 := henc 63 _ hroom
        split_ifs
        · obtain ⟨ps, hps, hlen, hn⟩ := ih (pos + adv)
            (produced + (to_cs.wc_mb wc ((to_length : Int) - (produced : Int))).bytes.length)
            (by omega) (by omega)
          rw [hps]
          refine ⟨_, rfl, ?_, ?_⟩
          · simp only [written, List.flatMap_cons, List.length_append] at hlen ⊢
            omega
          · simp only [List.length_cons]
            omega
        · obtain ⟨ps, hps, hlen, hn⟩ := ih (pos + adv)
            (produced + (to_cs.wc_mb 63 ((to_length : Int) - (produced : Int))).bytes.length)
            (by omega) (by omega)
          rw [hps]
          refine ⟨_, rfl, ?_, ?_⟩
          · simp only [written, List.flatMap_cons, List.length_append] at hlen ⊢
            omega
          · simp only [List.length_cons]
            omega
        · exact ⟨_, rfl, by simpa [written] using hprod, by
            simp only [List.length_singleton]
            omega⟩
        · exact ⟨_, rfl, by simpa [written] using hprod, by
            simp only [List.length_singleton]
            omega⟩

/-- The UTF-8 example encoder stores only what fits the room it is given. -/
theorem utf8_charset_writes_inside (wc : Nat) (room : Int) (hroom : 0 ≤ room) :
    ((utf8_charset.wc_mb wc room).bytes.length : Int) ≤ room := by
  simp only [utf8_charset]
  split_ifs <;> simp only [WcMb.bytes, List.length_cons, List.length_nil] <;> omega

/-- Claim C32: let the decoder report "input too short" once no source bytes
remain and let the encoder store only what fits the room it is given.  Then
for every input and every destination capacity `copy_and_convert` returns
as soon as the fuel exceeds the source length: the passes it makes are the
ones the specification describes, each of them passes at least one source
byte and substitutes '?' at most once, there are at most as many passes as
source bytes, and the bytes written and the returned count are at most the
destination capacity. -/
theorem copy_and_convert_terminates (fuel to_length : Nat) (to_cs : CHARSET_INFO)
    (src : List Nat) (from_length : Nat) (from_cs : CHARSET_INFO)
    (hdec : (from_cs.mb_wc []).1 ≤ MY_CS_TOOSMALL)
    (henc : ∀ (wc : Nat) (room : Int), 0 ≤ room →
      ((to_cs.wc_mb wc room).bytes.length : Int) ≤ room)
    (hfuel : (src.take from_length).length < fuel) :
    ∃ r ps,
      copy_and_convert fuel to_length to_cs src from_length from_cs = some r
        ∧ conversion_passes to_length to_cs (src.take from_length) from_cs fuel 0 0 = some ps
        ∧ (∀ p ∈ ps, 1 ≤ p.advance ∧ p.substitutions ≤ 1)
        ∧ ps.length ≤ (src.take from_length).length
        ∧ r.errors = toUInt32 (substitution_count ps)
        ∧ r.out = written ps
        ∧ r.out.length ≤ to_length
        ∧ r.ret ≤ to_length := by
  obtain ⟨ps, hps, hlen, hn⟩ := conversion_passes_terminate to_length to_cs (src.take from_length)
    from_cs hdec henc fuel 0 0 (by omega) (Nat.zero_le _)
  obtain ⟨hfacts, _⟩ := conversion_passes_facts to_length to_cs (src.take from_length)
    from_cs fuel 0 0 ps hps
  have hloop := copy_and_convert_loop_eq_passes to_length to_cs (src.take from_length) from_cs
    fuel { consumed := 0, out := [], error_count := 0 }
  simp only [List.length_nil, List.nil_append, Nat.zero_add] at hloop
  rw [hps] at hloop
  have hrun : copy_and_convert fuel to_length to_cs src from_length from_cs
      = some { ret := toUInt32 (written ps).length, out := written ps,
               errors := toUInt32 (substitution_count ps), consumed := advanced ps } := by
    unfold copy_and_convert
    rw [hloop]
    rfl
  have hret : toUInt32 ((written ps).length : Int) ≤ (written ps).length := by
    unfold toUInt32
    omega
  refine ⟨_, ps, hrun, hps, hfacts, by simpa using hn, rfl, rfl, by simpa using hlen, ?_⟩
  simp only [Nat.zero_add] at hlen
  exact le_trans hret hlen

/-- Claim C32 for the text "Aé" converted from the single-byte example set
to UTF-8 with room for two bytes: the call returns after two passes with one
byte written. -/
theorem copy_and_convert_terminates_witness :
    ∃ r ps,
      copy_and_convert 3 2 utf8_charset [65, 233] 2 latin1_charset = some r
        ∧ conversion_passes 2 utf8_charset ([65, 233].take 2) latin1_charset 3 0 0 = some ps
        ∧ (∀ p ∈ ps, 1 ≤ p.advance ∧ p.substitutions ≤ 1)
        ∧ ps.length ≤ ([65, 233].take 2).length
        ∧ r.errors = toUInt32 (substitution_count ps)
        ∧ r.out = written ps
        ∧ r.out.length ≤ 2
        ∧ r.ret ≤ 2 :=
  copy_and_convert_terminates 3 2 utf8_charset [65, 233] 2 latin1_charset (by decide)
    utf8_charset_writes_inside (by decide)

/-- The call of the previous example, evaluated. -/
theorem copy_and_convert_eval_small_capacity :
    copy_and_convert 3 2 utf8_charset [65, 233] 2 latin1_charset
        = some { ret := 1, out := [65], errors := 0, consumed := 2 }
      ∧ conversion_passes 2 utf8_charset [65, 233] latin1_charset 3 0 0
        = some [ { advance := 1, undecodable := false, retried := false, written := [65] },
                 { advance := 1, undecodable := false, retried := false, written := [] } ] := by
  decide

theorem substitution_count_le (ps : List ConvPass) (h : ∀ p ∈ ps, p.substitutions ≤ 1) :
    substitution_count ps ≤ ps.length := by
  induction ps with
  | nil => simp [substitution_count]
  | cons p ps ih =>
    have h1 := h p (List.mem_cons_self _ _)
    have h2 := ih (fun q hq => h q (List.mem_cons_of_mem _ hq))
    simp only [substitution_count, List.map_cons, List.sum_cons, List.length_cons] at h2 ⊢
    omega

/-- Under the conditions of termination and for a source length that is a
`uint32`, the error count is the number of substitutions itself: the
`unsigned int` counter does not wrap. -/
theorem copy_and_convert_errors_exact (fuel to_length : Nat) (to_cs : CHARSET_INFO)
    (src : List Nat) (from_length : Nat) (from_cs : CHARSET_INFO)
    (hdec : (from_cs.mb_wc []).1 ≤ MY_CS_TOOSMALL)
    (henc : ∀ (wc : Nat) (room : Int), 0 ≤ room →
      ((to_cs.wc_mb wc room).bytes.length : Int) ≤ room)
    (hfuel : (src.take from_length).length < fuel) (hlen : from_length < 4294967296) :
    ∃ r ps,
      copy_and_convert fuel to_length to_cs src from_length from_cs = some r
        ∧ conversion_passes to_length to_cs (src.take from_length) from_cs fuel 0 0 = some ps
        ∧ r.errors = substitution_count ps := by
  obtain ⟨ps, hps, _, hn⟩ := conversion_passes_terminate to_length to_cs
    (src.take from_length) from_cs hdec henc fuel 0 0 (by omega) (Nat.zero_le _)
  obtain ⟨hfacts, _⟩ := conversion_passes_facts to_length to_cs (src.take from_length)
    from_cs fuel 0 0 ps hps
  have hle := substitution_count_le ps (fun p hp => (hfacts p hp).2)
  have htake : (src.take from_length).length ≤ from_length := by
    rw [List.length_take]
    omega
  have hloop := copy_and_convert_loop_eq_passes to_length to_cs (src.take from_length) from_cs
    fuel { consumed := 0, out := [], error_count := 0 }
  simp only [List.length_nil, List.nil_append, Nat.zero_add] at hloop
  rw [hps] at hloop
  have hrun : copy_and_convert fuel to_length to_cs src from_length from_cs
      = some { ret := toUInt32 (written ps).length, out := written ps,
               errors := toUInt32 (substitution_count ps), consumed := advanced ps } := by
    unfold copy_and_convert
    rw [hloop]
    rfl
  refine ⟨_, ps, hrun, hps, ?_⟩
  show toUInt32 ((substitution_count ps : Nat) : Int) = substitution_count ps
  unfold toUInt32
  omega

/-- The run of the previous example, evaluated: the fourth call returns
`SQL_NO_DATA_FOUND` and the first three deliver the whole source. -/
theorem binary_run_eval_four_calls :
    (binary_run (some [171, 205, 239]) 3 0 NOT_STARTED
        [⟨true, 3, true⟩, ⟨true, 3, true⟩, ⟨true, 3, true⟩, ⟨true, 3, true⟩]).map
        (fun p => (p.1, p.2.ret, p.2.writes.map Prod.snd))
      = [ (NOT_STARTED, SQL_SUCCESS, [65, 66, 0]), (1, SQL_SUCCESS, [67, 68, 0]),
          (2, SQL_SUCCESS, [69, 70, 0]), (3, SQL_NO_DATA_FOUND, []) ]
      ∧ (binary_run (some [171, 205, 239]) 3 0 NOT_STARTED
          [⟨true, 3, true⟩, ⟨true, 3, true⟩, ⟨true, 3, true⟩, ⟨true, 3, true⟩]).flatMap
          (fun p => hex_decode (p.2.writes.map Prod.snd)) = [171, 205, 239] := by
  decide

/-- Claim C5 (the code departs from the claim): `copy_lresult` resolves
`SQL_NTS` only for a non-NULL source, so for a NULL source with length
`SQL_NTS` the length stays -3.  A call with capacity 0 then stores nothing
but takes `min(-3, 0)` as its unsigned chunk length and moves the cursor
from the fresh state to 2^64-3; on a started cursor at 0 it does the same.
`copy_wchar_result`, which resolves `SQL_NTS` to 0 for a NULL source, leaves
the cursor at 0 on the same input.  (In `copy_binary_result` a `max_length`
of 2^63+5 turns the capacity 0 into 6 through the casts of
`(long) max_length+1`, and the cursor moves by 2.) -/
theorem copy_lresult_null_source_zero_capacity_moves_cursor :
    copy_lresult 512 (some 0) true 0 true none SQL_NTS 0 0 NOT_STARTED false
      = { ret := SQL_SUCCESS_WITH_INFO, pcbValue := some (-3), writes := [],
          offset := 18446744073709551613, diag := some MYERR_01004 }
    ∧ delivered NOT_STARTED
        (copy_lresult 512 (some 0) true 0 true none SQL_NTS 0 0 NOT_STARTED false)
      = 18446744073709551613
    ∧ delivered 0 (copy_lresult 512 (some 0) true 0 true none SQL_NTS 0 0 0 false)
      = 18446744073709551613
    ∧ copy_wchar_result wide_env16 10 0 latin1_charset true 0 true none SQL_NTS 0 0 NOT_STARTED
      = some { ret := SQL_SUCCESS_WITH_INFO, pcbValue := some 0, writes := [], offset := 0,
               diag := some MYERR_01004 }
    ∧ copy_binary_result true 0 true (some [1, 2, 3]) 3 9223372036854775813 NOT_STARTED
      = { ret := SQL_SUCCESS, pcbValue := some 6, writes := [], offset := 2, diag := none } := by
  decide

/-- Claim C7 (the code departs from the claim): for a NULL source with
length `SQL_NTS` the effective fill length is -3, and the first
`copy_lresult` call with capacity 10 from the not-started cursor stores the
offset 2^64-3, which is above it; the second call returns
`SQL_NO_DATA_FOUND` and leaves it there. -/
theorem copy_lresult_null_source_cursor_exceeds_fill :
    effective_fill_length 512 (some 0) none SQL_NTS 0 0 = -3
    ∧ (lresult_run 512 (some 0) none SQL_NTS 0 0 false NOT_STARTED
        [⟨false, 10, true⟩, ⟨false, 10, true⟩]).map (fun p => (p.1, p.2.ret, p.2.offset))
      = [ (NOT_STARTED, SQL_SUCCESS, 18446744073709551613),
          (18446744073709551613, SQL_NO_DATA_FOUND, 18446744073709551613) ]
    ∧ ¬ ((18446744073709551613 : Int)
          ≤ effective_fill_length 512 (some 0) none SQL_NTS 0 0) := by
  decide

/-- Claim C8 (the code departs from the claim): for a NULL source with
length `SQL_NTS`, a non-NULL destination and capacity 10, `copy_lresult`
takes `min(-3, 9)` as its unsigned chunk length, so `memcpy` is called for
2^64-3 bytes and the terminator goes to index 2^64-3: the stores reach the
index 10 and every other index up to 2^64-3, far beyond the capacity.  (In
`copy_binary_result` a `max_length` of 2^63+5 turns the capacity 3 into 6
through the casts of `(long) max_length+1`, and the stores reach index 4.) -/
theorem copy_lresult_null_source_stores_beyond_capacity :
    (copy_lresult 512 (some 0) true 10 true none SQL_NTS 0 0 NOT_STARTED false).writes
      = memcpy 0 none 0 18446744073709551613 ++ bfill 18446744073709551613 0 32
          ++ [(18446744073709551613, 0)]
    ∧ (∀ i : Nat, i ≤ 18446744073709551613 →
        (i, 0) ∈ (copy_lresult 512 (some 0) true 10 true none SQL_NTS 0 0 NOT_STARTED
          false).writes)
    ∧ (10, 0) ∈ (copy_lresult 512 (some 0) true 10 true none SQL_NTS 0 0 NOT_STARTED
          false).writes
    ∧ (copy_binary_result true 3 true (some [1, 2, 3]) 3 9223372036854775813
        NOT_STARTED).writes = [(0, 48), (1, 49), (2, 48), (3, 50), (4, 0)] := by
  have hw : (copy_lresult 512 (some 0) true 10 true none SQL_NTS 0 0 NOT_STARTED false).writes
      = memcpy 0 none 0 18446744073709551613 ++ bfill 18446744073709551613 0 32
          ++ [(18446744073709551613, 0)] := by
    rfl
  have hall : ∀ i : Nat, i ≤ 18446744073709551613 →
      (i, 0) ∈ (copy_lresult 512 (some 0) true 10 true none SQL_NTS 0 0 NOT_STARTED
        false).writes := by
    intro i hi
    rw [hw]
    rcases Nat.lt_or_ge i 18446744073709551613 with h | h
    · apply List.mem_append_left
      apply List.mem_append_left
      rw [mem_memcpy]
      exact ⟨i, h, by omega, rfl⟩
    · apply List.mem_append_right
      have : i = 18446744073709551613 := by omega
      rw [this]
      exact List.mem_singleton_self _
  exact ⟨hw, hall, hall 10 (by decide), by decide⟩

end MyODBC
